import Mathlib

/-!
# MaidSafe-Routing: the `RoutingNode` message path, the `Timer` and `Routing::Impl`

A shallow embedding of `src/maidsafe/routing/routing_node.cc`, of
`src/maidsafe/routing/timer.cc`, of the sending, joining and recovery part of
`src/maidsafe/routing/routing_impl.cc`, and of `RoutingTableInfo::GetGroup`
in `tests/old/routing_table_func_test.cc`. The conventions below are those
of the first; the sections on the others state their own.

* Values are immutable, effects are explicit: every member function maps a
  node state to an `Outcome`, which holds the state afterwards, the trace of
  the calls made to collaborators (transport, filter, cache, connection
  manager, listener) in program order, and how the call ended.
* A C++ exception that leaves a function is the completion `threw`; a failed
  `assert` is `assertFailed`.
* `InputVectorStream` is the list of bytes not yet read: every `Parse`
  returns the value together with the rest of the stream, as the stream
  object of the source is advanced by each read.
* What `routing_node.cc` calls but does not define (serialisation, header
  methods, `LruCache` filter and cache, `ConnectionManager`, key material)
  is taken as the parameter `Collaborators`.
* `MessageReceived` reads `header` once after `std::move(header)`; what the
  variable holds then is the parameter `HeaderAfterMove`.
-/

namespace Routing

/-! ## Data model -/

/-- Identifier of a node (`Address`), a fixed-width unsigned value. -/
abbrev Address := Nat

/-- Message id carried in the header. -/
abbrev MessageId := Nat

/-- A `std::vector<unsigned char>`. -/
abbrev SerialisedData := List Nat

/-- The bytes handed over by the transport (`rudp::ReceivedMessage`). -/
abbrev SerialisedMessage := List Nat

/-- Input stream over a byte vector: the bytes that are still unread. -/
abbrev InputVectorStream := List Nat

/-- The value `MessageHeader::FilterValue()` returns: source node and message id. -/
abbrev FilterType := Address × MessageId

/-- The pair `(Destination, optional ReplyToAddress)`. -/
abbrev DestinationAddress := Address × Option Address

/-- The pair `(NodeAddress, optional (optional GroupAddress, optional ReplyToAddress))`. -/
abbrev SourceAddress := Address × Option (Option Address × Option Address)

/-- Signature bytes produced by `asymm::Sign`. -/
abbrev Signature := List Nat

/-- Private key handle (`keys_.private_key`). -/
abbrev PrivateKey := Nat

/-- Transport endpoint (`rudp::Endpoint`): ip address and port. -/
structure Endpoint where
  address : Nat
  port : Nat
deriving DecidableEq

/-- The type `rudp::EndpointPair`. -/
structure EndpointPair where
  local_endpoint : Endpoint
  external_endpoint : Endpoint
deriving DecidableEq

/-- The type `passport::PublicPmid`: name and public key. -/
structure PublicPmid where
  name : Address
  public_key : Nat
deriving DecidableEq

/-- The type `NodeInfo(id, fob)`. -/
structure NodeInfo where
  id : Address
  dht_fob : PublicPmid
deriving DecidableEq

/-- Message header with its four members. -/
structure MessageHeader where
  destination : DestinationAddress
  source : SourceAddress
  message_id : MessageId
  signature : Option Signature
deriving DecidableEq

/-- The enumeration `MessageTypeTag`; `Unknown` stands for every byte value
that names none of the nine message types (the `default:` label). -/
inductive MessageTypeTag where
  | Connect
  | ConnectResponse
  | FindGroup
  | FindGroupResponse
  | GetData
  | GetDataResponse
  | PutData
  | PutDataResponse
  | PostMessage
  | Unknown (value : Nat)
deriving DecidableEq

/-- Body `Connect`. -/
structure Connect where
  requester_endpoints : EndpointPair
  requester_id : Address
  receiver_id : Address
  requester_fob : PublicPmid
deriving DecidableEq

/-- Body `ConnectResponse`. -/
structure ConnectResponse where
  requester_endpoints : EndpointPair
  receiver_endpoints : EndpointPair
  requester_id : Address
  receiver_id : Address
  receiver_fob : PublicPmid
deriving DecidableEq

/-- Body `FindGroup`. -/
structure FindGroup where
  requester_id : Address
  target_id : Address
deriving DecidableEq

/-- Body `FindGroupResponse`: the four members the serialisation test
compares, and `public_fobs` which the handlers read and write. -/
structure FindGroupResponse where
  requester_endpoints : EndpointPair
  receiver_endpoints : EndpointPair
  requester_id : Address
  receiver_id : Address
  public_fobs : List NodeInfo
deriving DecidableEq

/-- Body `GetData`. -/
structure GetData where
  key : Address
deriving DecidableEq

/-- Body `GetDataResponse(key, data)`. -/
structure GetDataResponse where
  key : Address
  data : SerialisedData
deriving DecidableEq

/-- Body `PutData`. -/
structure PutData where
  key : Address
  data : SerialisedData
deriving DecidableEq

/-- Body `PutDataResponse`. -/
structure PutDataResponse where
  key : Address
  result : Nat
deriving DecidableEq

/-- Body `PostMessage`. -/
structure PostMessage where
  key : Address
  data : SerialisedData
deriving DecidableEq

/-- A typed body, as passed to `Serialise` and to a `HandleMessage` overload. -/
inductive Message where
  | Connect (m : Connect)
  | ConnectResponse (m : ConnectResponse)
  | FindGroup (m : FindGroup)
  | FindGroupResponse (m : FindGroupResponse)
  | GetData (m : GetData)
  | GetDataResponse (m : GetDataResponse)
  | PutData (m : PutData)
  | PutDataResponse (m : PutDataResponse)
  | PostMessage (m : PostMessage)
deriving DecidableEq

/-- What `ConnectionManager::AddNode(info, endpoints)` reports when the close
group changed: the ids that entered and the ids that left. -/
structure CloseGroupDifference where
  new_nodes : List Address
  lost_nodes : List Address
deriving DecidableEq

/-- Severity of a `LOG(...)` statement. -/
inductive LogLevel where
  | kWarning
  | kError
deriving DecidableEq

/-- The completion handler a handler hands to `rudp_.Add`, with the values
the lambda captures. -/
inductive AddHandler where
  | ofConnect (connect : Connect)
  | ofConnectResponse (target : Address) (added : Bool × Option NodeInfo)
deriving DecidableEq

/-- One call made by the node, in the order the program makes them.
`rudpSend` is `rudp_.Send(target, message, handler)`; the handlers passed with
it only log. `handleMessage` marks the entry into a `HandleMessage` overload
with the parsed body and the header. `timerExecuteTaskNow` is the completion
of a pending task (`Timer::ExecuteTaskNow`), which `routing_node.cc` never
calls. -/
inductive Event where
  | log (level : LogLevel)
  | filterAdd (value : FilterType)
  | cacheAdd (key : Address) (data : SerialisedData)
  | rudpSend (target : Address) (message : SerialisedMessage)
  | rudpAdd (peer : Address) (handler : AddHandler)
  | rudpRemove (target : Address)
  | addNode (info : NodeInfo)
  | dropNode (target : Address)
  | handleCloseGroupDifference (difference : CloseGroupDifference)
  | handleMessage (body : Message) (header : MessageHeader)
  | timerExecuteTaskNow (task_id : MessageId) (body : Message)
deriving DecidableEq

/-- How a call ended. -/
inductive Completion where
  | returned
  | threw
  | assertFailed
deriving DecidableEq

/-- State after a call, the calls it made, and how it ended. -/
structure Outcome (σ : Type) where
  state : σ
  trace : List Event
  completion : Completion

/-- The members of `RoutingNode` that the message path reads or writes. -/
structure RoutingNode (F C CM : Type) where
  filter_ : F
  cache_ : C
  connection_manager_ : CM

/-- Everything `routing_node.cc` uses without defining it.
`F`, `C` and `CM` are the states of the filter, the cache and the connection
manager. -/
structure Collaborators (F C CM : Type) where
  /-- Whether `assert` is compiled out. -/
  NDEBUG : Bool
  /-- The call `Parse(stream, header, tag)`; `none` when it throws. -/
  ParseHeaderTag : InputVectorStream → Option ((MessageHeader × MessageTypeTag) × InputVectorStream)
  ParseConnect : InputVectorStream → Option (Connect × InputVectorStream)
  ParseConnectResponse : InputVectorStream → Option (ConnectResponse × InputVectorStream)
  ParseFindGroup : InputVectorStream → Option (FindGroup × InputVectorStream)
  ParseFindGroupResponse : InputVectorStream → Option (FindGroupResponse × InputVectorStream)
  ParseGetData : InputVectorStream → Option (GetData × InputVectorStream)
  ParseGetDataResponse : InputVectorStream → Option (GetDataResponse × InputVectorStream)
  ParsePutData : InputVectorStream → Option (PutData × InputVectorStream)
  ParsePutDataResponse : InputVectorStream → Option (PutDataResponse × InputVectorStream)
  ParsePostMessage : InputVectorStream → Option (PostMessage × InputVectorStream)
  /-- The call `Serialise(header, tag, body)`. -/
  Serialise : MessageHeader → MessageTypeTag → Message → SerialisedMessage
  /-- The call `Serialise(body)`. -/
  SerialiseBody : Message → SerialisedData
  FilterValue : MessageHeader → FilterType
  ReturnDestinationAddress : MessageHeader → DestinationAddress
  FromGroup : MessageHeader → Option Address
  /-- What is left in a header variable after `std::move(header)`. -/
  HeaderAfterMove : MessageHeader → MessageHeader
  /-- The call `filter_.Check`. -/
  Check : F → FilterType → Bool
  /-- The call `filter_.Add`. -/
  Add : F → FilterType → F
  CacheAdd : C → Address → SerialisedData → C
  /-- The call `cache_.Get`: the value found, and the cache afterwards. -/
  CacheGet : C → Address → Option SerialisedData × C
  GetTarget : CM → Address → List NodeInfo
  AddressInCloseGroupRange : CM → Address → Bool
  SuggestNodeToAdd : CM → Address → Bool
  /-- The call `AddNode(info, endpoints)` of the `Connect` handler. -/
  AddNode : CM → NodeInfo → EndpointPair → Option CloseGroupDifference × CM
  /-- The call `AddNode(info)` of the `ConnectResponse` handler: whether the
  node was added and the node evicted for it. -/
  AddNodeOnly : CM → NodeInfo → (Bool × Option NodeInfo) × CM
  DropNode : CM → Address → CM
  OurCloseGroup : CM → List NodeInfo
  /-- The call `connection_manager_.OurId()`. -/
  ConnectionManagerOurId : CM → Address
  /-- The call `OurId()` of the node. -/
  OurId : Address
  NextEndpointPair : EndpointPair
  /-- The value `passport::PublicPmid(our_fob_)`. -/
  our_public_fob : PublicPmid
  private_key : PrivateKey
  Sign : SerialisedData → PrivateKey → Signature
  RandomUint32 : Nat
  /-- Whether the future of a blocking `rudp_.Send` holds an error. -/
  SendError : Address → SerialisedMessage → Bool
  /-- Whether the future of a blocking `rudp_.Remove` holds an error. -/
  RemoveError : Address → Bool
  /-- The constructor `FindGroupResponse(find_group)`. -/
  MakeFindGroupResponse : FindGroup → FindGroupResponse
  /-- The call `connect_response.get_requester_fob()`. -/
  ResponseRequesterFob : ConnectResponse → PublicPmid

variable {F C CM : Type}

/-! ## `routing_node.cc` -/

/-- `RoutingNode::CreateReplyHeader`. -/
def CreateReplyHeader (D : Collaborators F C CM) (orig_header : MessageHeader) : MessageHeader :=
  { destination := D.ReturnDestinationAddress orig_header
    source := (D.OurId,
      match D.FromGroup orig_header with
      | some group => some (some group, none)
      | none => none)
    message_id := orig_header.message_id
    signature := none }

/-- `RoutingNode::HandleMessage(Connect, MessageHeader)`. -/
def HandleMessage_Connect (D : Collaborators F C CM) (node : RoutingNode F C CM)
    (connect : Connect) (orig_header : MessageHeader) : Outcome (RoutingNode F C CM) :=
  if !D.SuggestNodeToAdd node.connection_manager_ connect.requester_id then
    ⟨node, [], .returned⟩
  else
    let targets := D.GetTarget node.connection_manager_ connect.requester_id
    if !D.NDEBUG && !(connect.receiver_id == D.OurId) then
      ⟨node, [], .assertFailed⟩
    else
      let respond : ConnectResponse :=
        { requester_id := connect.requester_id
          requester_endpoints := connect.requester_endpoints
          receiver_id := connect.receiver_id
          receiver_endpoints := D.NextEndpointPair
          receiver_fob := D.our_public_fob }
      let header : MessageHeader :=
        { destination := D.ReturnDestinationAddress orig_header
          source := (D.ConnectionManagerOurId node.connection_manager_, none)
          message_id := orig_header.message_id
          signature := some (D.Sign (D.SerialiseBody (.ConnectResponse respond)) D.private_key) }
      let sends := targets.map fun target =>
        Event.rudpSend target.id (D.Serialise header .ConnectResponse (.ConnectResponse respond))
      let added := D.AddNode node.connection_manager_
        ⟨connect.requester_id, connect.requester_fob⟩ connect.requester_endpoints
      let calls := sends ++
        [Event.addNode ⟨connect.requester_id, connect.requester_fob⟩,
         Event.rudpAdd connect.requester_id (.ofConnect connect)]
      match added.1 with
      | some difference =>
        ⟨{ node with connection_manager_ := added.2 },
          calls ++ [Event.handleCloseGroupDifference difference], .returned⟩
      | none => ⟨{ node with connection_manager_ := added.2 }, calls, .returned⟩

/-- `RoutingNode::HandleMessage(ConnectResponse, MessageHeader)`.
The source function uses the name `target` without declaring it; it is a
parameter here. -/
def HandleMessage_ConnectResponse (D : Collaborators F C CM) (target : Address)
    (node : RoutingNode F C CM) (connect_response : ConnectResponse)
    (_orig_header : MessageHeader) : Outcome (RoutingNode F C CM) :=
  if !D.SuggestNodeToAdd node.connection_manager_ connect_response.requester_id then
    ⟨node, [], .returned⟩
  else
    let added := D.AddNodeOnly node.connection_manager_
      ⟨target, D.ResponseRequesterFob connect_response⟩
    let node1 : RoutingNode F C CM := { node with connection_manager_ := added.2 }
    let info : NodeInfo := ⟨target, D.ResponseRequesterFob connect_response⟩
    if added.1.1 then
      ⟨node1, [Event.addNode info, Event.rudpAdd target (.ofConnectResponse target added.1)],
        .returned⟩
    else
      ⟨node1, [Event.addNode info], .returned⟩

/-- The completion handlers passed to `rudp_.Add`, run with the transport's
verdict `error`. -/
def RunAddHandler (D : Collaborators F C CM) (handler : AddHandler) (error : Bool)
    (node : RoutingNode F C CM) : Outcome (RoutingNode F C CM) :=
  match handler with
  | .ofConnect connect =>
    if error then
      let target := connect.requester_id
      ⟨{ node with connection_manager_ := D.DropNode node.connection_manager_ target },
        [Event.dropNode target], .returned⟩
    else ⟨node, [], .returned⟩
  | .ofConnectResponse target added =>
    if error then
      ⟨{ node with connection_manager_ := D.DropNode node.connection_manager_ target },
        [Event.dropNode target], .returned⟩
    else
      match added.2 with
      | some evicted =>
        ⟨node, [Event.rudpRemove evicted.id],
          if D.RemoveError evicted.id then .threw else .returned⟩
      | none => ⟨node, [], .returned⟩

/-- The loop of `HandleMessage(FindGroup)`: one blocking send per target; the
`get()` of a failed send throws and ends the loop. -/
def SendBlocking (D : Collaborators F C CM) (message : SerialisedMessage) :
    List NodeInfo → List Event × Completion
  | [] => ([], .returned)
  | target :: rest =>
    if D.SendError target.id message then
      ([Event.rudpSend target.id message], .threw)
    else
      let later := SendBlocking D message rest
      (Event.rudpSend target.id message :: later.1, later.2)

/-- `RoutingNode::HandleMessage(FindGroup, MessageHeader)`. -/
def HandleMessage_FindGroup (D : Collaborators F C CM) (node : RoutingNode F C CM)
    (find_group : FindGroup) (_orig_header : MessageHeader) : Outcome (RoutingNode F C CM) :=
  let response : FindGroupResponse :=
    { D.MakeFindGroupResponse find_group with
      public_fobs := D.OurCloseGroup node.connection_manager_ }
  let header : MessageHeader :=
    { destination := (find_group.requester_id, none)
      source := (D.ConnectionManagerOurId node.connection_manager_, none)
      message_id := D.RandomUint32
      signature := some (D.Sign (D.SerialiseBody (.FindGroupResponse response)) D.private_key) }
  let sent := SendBlocking D
    (D.Serialise header .FindGroupResponse (.FindGroupResponse response))
    (D.GetTarget node.connection_manager_ find_group.requester_id)
  ⟨node, sent.1, sent.2⟩

/-- `RoutingNode::HandleMessage(FindGroupResponse, MessageHeader)`: the loop
over `public_fobs`, whose body after the `continue` holds comments only. -/
def HandleMessage_FindGroupResponse (D : Collaborators F C CM) (node : RoutingNode F C CM)
    (find_group_reponse : FindGroupResponse) (_orig_header : MessageHeader) :
    Outcome (RoutingNode F C CM) :=
  find_group_reponse.public_fobs.foldl
    (fun so_far entry =>
      if !D.SuggestNodeToAdd so_far.state.connection_manager_ entry.id then so_far
      else so_far)
    ⟨node, [], .returned⟩

/-- `RoutingNode::HandleMessage(GetData, MessageHeader)`: empty body. -/
def HandleMessage_GetData (node : RoutingNode F C CM) (_get_data : GetData)
    (_orig_header : MessageHeader) : Outcome (RoutingNode F C CM) :=
  ⟨node, [], .returned⟩

/-- `RoutingNode::HandleMessage(GetDataResponse, MessageHeader)`: empty body. -/
def HandleMessage_GetDataResponse (node : RoutingNode F C CM)
    (_get_data_response : GetDataResponse) (_orig_header : MessageHeader) :
    Outcome (RoutingNode F C CM) :=
  ⟨node, [], .returned⟩

/-- `RoutingNode::HandleMessage(PutData, MessageHeader)`: empty body. -/
def HandleMessage_PutData (node : RoutingNode F C CM) (_put_data : PutData)
    (_orig_header : MessageHeader) : Outcome (RoutingNode F C CM) :=
  ⟨node, [], .returned⟩

/-- `RoutingNode::HandleMessage(PutDataResponse, MessageHeader)`: empty body. -/
def HandleMessage_PutDataResponse (node : RoutingNode F C CM)
    (_put_data_response : PutDataResponse) (_orig_header : MessageHeader) :
    Outcome (RoutingNode F C CM) :=
  ⟨node, [], .returned⟩

/-- The overload for `PostMessage`. `routing_node.cc` has it only as a
commented-out empty function; it is empty here as well. -/
def HandleMessage_PostMessage (node : RoutingNode F C CM) (_post : PostMessage)
    (_orig_header : MessageHeader) : Outcome (RoutingNode F C CM) :=
  ⟨node, [], .returned⟩

/-- Entry into a `HandleMessage` overload: the marker, then what the overload does. -/
def Invoke (body : Message) (header : MessageHeader) (handled : Outcome (RoutingNode F C CM)) :
    Outcome (RoutingNode F C CM) :=
  ⟨handled.state, Event.handleMessage body header :: handled.trace, handled.completion⟩

/-- The `switch (tag)` of `RoutingNode::MessageReceived`: the body is parsed
from the stream as it stands, then handed to its overload. A `Parse` that
throws leaves the function. -/
def Dispatch (D : Collaborators F C CM) (target : Address) (node : RoutingNode F C CM)
    (tag : MessageTypeTag) (binary_input_stream : InputVectorStream) (header : MessageHeader) :
    Outcome (RoutingNode F C CM) :=
  match tag with
  | .Connect =>
    match D.ParseConnect binary_input_stream with
    | none => ⟨node, [], .threw⟩
    | some (m, _) => Invoke (.Connect m) header (HandleMessage_Connect D node m header)
  | .ConnectResponse =>
    match D.ParseConnectResponse binary_input_stream with
    | none => ⟨node, [], .threw⟩
    | some (m, _) =>
      Invoke (.ConnectResponse m) header (HandleMessage_ConnectResponse D target node m header)
  | .FindGroup =>
    match D.ParseFindGroup binary_input_stream with
    | none => ⟨node, [], .threw⟩
    | some (m, _) => Invoke (.FindGroup m) header (HandleMessage_FindGroup D node m header)
  | .FindGroupResponse =>
    match D.ParseFindGroupResponse binary_input_stream with
    | none => ⟨node, [], .threw⟩
    | some (m, _) =>
      Invoke (.FindGroupResponse m) header (HandleMessage_FindGroupResponse D node m header)
  | .GetData =>
    match D.ParseGetData binary_input_stream with
    | none => ⟨node, [], .threw⟩
    | some (m, _) => Invoke (.GetData m) header (HandleMessage_GetData node m header)
  | .GetDataResponse =>
    match D.ParseGetDataResponse binary_input_stream with
    | none => ⟨node, [], .threw⟩
    | some (m, _) =>
      Invoke (.GetDataResponse m) header (HandleMessage_GetDataResponse node m header)
  | .PutData =>
    match D.ParsePutData binary_input_stream with
    | none => ⟨node, [], .threw⟩
    | some (m, _) => Invoke (.PutData m) header (HandleMessage_PutData node m header)
  | .PutDataResponse =>
    match D.ParsePutDataResponse binary_input_stream with
    | none => ⟨node, [], .threw⟩
    | some (m, _) =>
      Invoke (.PutDataResponse m) header (HandleMessage_PutDataResponse node m header)
  | .PostMessage =>
    match D.ParsePostMessage binary_input_stream with
    | none => ⟨node, [], .threw⟩
    | some (m, _) => Invoke (.PostMessage m) header (HandleMessage_PostMessage node m header)
  | .Unknown _ => ⟨node, [Event.log .kWarning], .returned⟩

/-- The forwarding loop of `MessageReceived`: one `rudp_.Send` of the received
bytes per entry of `GetTarget(destination)`. -/
def Forward (D : Collaborators F C CM) (node : RoutingNode F C CM) (header : MessageHeader)
    (serialised_message : SerialisedMessage) : List Event :=
  (D.GetTarget node.connection_manager_ header.destination.1).map fun target =>
    Event.rudpSend target.id serialised_message

/-- `MessageReceived` from the forwarding loop to its end; `before` is the
trace up to that point. -/
def ForwardAndDispatch (D : Collaborators F C CM) (target : Address)
    (node : RoutingNode F C CM) (before : List Event) (header : MessageHeader)
    (tag : MessageTypeTag) (binary_input_stream : InputVectorStream)
    (serialised_message : SerialisedMessage) : Outcome (RoutingNode F C CM) :=
  let sends := Forward D node header serialised_message
  if !D.AddressInCloseGroupRange node.connection_manager_ header.destination.1 then
    ⟨node, before ++ sends, .returned⟩
  else
    let handled := Dispatch D target node tag binary_input_stream header
    ⟨handled.state, before ++ sends ++ handled.trace, handled.completion⟩

/-- `RoutingNode::MessageReceived`. The parameter `target` is the undeclared
name of the `ConnectResponse` handler. -/
def MessageReceived (D : Collaborators F C CM) (target : Address) (node : RoutingNode F C CM)
    (serialised_message : SerialisedMessage) : Outcome (RoutingNode F C CM) :=
  match D.ParseHeaderTag serialised_message with
  | none => ⟨node, [Event.log .kError], .returned⟩
  | some ((header, tag), binary_input_stream) =>
    if D.Check node.filter_ (D.FilterValue header) then
      ⟨node, [], .returned⟩
    else
      let node1 : RoutingNode F C CM :=
        { node with filter_ := D.Add node.filter_ (D.FilterValue header) }
      let first := [Event.filterAdd (D.FilterValue header)]
      if tag = .GetDataResponse then
        match D.ParseGetDataResponse binary_input_stream with
        | none => ⟨node1, first, .threw⟩
        | some (data, rest) =>
          ForwardAndDispatch D target
            { node1 with cache_ := D.CacheAdd node1.cache_ data.key data.data }
            (first ++ [Event.cacheAdd data.key data.data]) header tag rest serialised_message
      else if tag = .GetData then
        match D.ParseGetData binary_input_stream with
        | none => ⟨node1, first, .threw⟩
        | some (data, rest) =>
          let test := D.CacheGet node1.cache_ data.key
          let node2 : RoutingNode F C CM := { node1 with cache_ := test.2 }
          match test.1 with
          | some value =>
            let response : GetDataResponse := ⟨data.key, value⟩
            let message := D.Serialise (CreateReplyHeader D header) .GetDataResponse
              (.GetDataResponse response)
            ⟨node2,
              first ++ (D.GetTarget node2.connection_manager_
                  (D.HeaderAfterMove header).source.1).map
                (fun peer => Event.rudpSend peer.id message),
              .returned⟩
          | none => ForwardAndDispatch D target node2 first header tag rest serialised_message
      else
        ForwardAndDispatch D target node1 first header tag binary_input_stream serialised_message

/-! ## Vocabulary of the statements -/

/-- Whether a call is a transport send. -/
def Event.isSend : Event → Bool
  | .rudpSend _ _ => true
  | _ => false

/-- Whether a call is the entry into a `HandleMessage` overload. -/
def Event.isHandleMessage : Event → Bool
  | .handleMessage _ _ => true
  | _ => false

/-- Whether a call completes a pending task. -/
def Event.isTaskCompletion : Event → Bool
  | .timerExecuteTaskNow _ _ => true
  | _ => false

/-- The `Parse<T>` that the `switch` of `MessageReceived` selects for a tag,
applied to a stream, with the body wrapped as a `Message`; `none` when that
`Parse` throws or the tag names no message type. -/
def ParseBody (D : Collaborators F C CM) : MessageTypeTag → InputVectorStream → Option Message
  | .Connect, stream => (D.ParseConnect stream).map fun parsed => .Connect parsed.1
  | .ConnectResponse, stream =>
    (D.ParseConnectResponse stream).map fun parsed => .ConnectResponse parsed.1
  | .FindGroup, stream => (D.ParseFindGroup stream).map fun parsed => .FindGroup parsed.1
  | .FindGroupResponse, stream =>
    (D.ParseFindGroupResponse stream).map fun parsed => .FindGroupResponse parsed.1
  | .GetData, stream => (D.ParseGetData stream).map fun parsed => .GetData parsed.1
  | .GetDataResponse, stream =>
    (D.ParseGetDataResponse stream).map fun parsed => .GetDataResponse parsed.1
  | .PutData, stream => (D.ParsePutData stream).map fun parsed => .PutData parsed.1
  | .PutDataResponse, stream =>
    (D.ParsePutDataResponse stream).map fun parsed => .PutDataResponse parsed.1
  | .PostMessage, stream => (D.ParsePostMessage stream).map fun parsed => .PostMessage parsed.1
  | .Unknown _, _ => none

/-! ## A concrete set of collaborators

One instance of `Collaborators`, used to evaluate the handlers on explicit
frames. None of it is under src/; it follows the spec.

* `Wire`: the codec (`maidsafe/common/serialisation` and the `serialize`
  members of the message types), after the wire format of the spec: a frame is
  `header || tag || body`, integers are little-endian of fixed width,
  addresses have a fixed width, an optional member follows one presence byte,
  a byte string follows its length.
* `Table`: the routing table behind `ConnectionManager`
  (`connection_manager.cc`), after the operations the spec lists for it.
* `Sample`: the header methods of `message_header.h`, a list-backed filter
  and cache for `LruCache`, and a node with two peers.
-/

/-- Modelled from the spec: `Address::CloserToTarget(lhs, rhs, target)`, which
is declared in a header that is not under src/: `lhs XOR target` is below
`rhs XOR target`, the addresses read as unsigned numbers of their fixed
width. -/
def CloserToTarget (lhs rhs target : Address) : Bool :=
  decide (lhs ^^^ target < rhs ^^^ target)

namespace Wire

/-- Modelled from the spec: a fixed-width little-endian integer of the wire
format (`Serialise` and `Parse` are not under src/). -/
def putUInt : Nat → Nat → List Nat
  | 0, _ => []
  | width + 1, value => value % 256 :: putUInt width (value / 256)

/-- Modelled from the spec: reading a fixed-width little-endian integer;
`none` when the stream ends early or holds a value that is no byte. -/
def getUInt : Nat → InputVectorStream → Option (Nat × InputVectorStream)
  | 0, stream => some (0, stream)
  | _ + 1, [] => none
  | width + 1, byte :: stream =>
    if byte < 256 then
      match getUInt width stream with
      | some (value, rest) => some (byte + 256 * value, rest)
      | none => none
    else none

/-- Modelled from the spec: an optional member, one presence byte first. -/
def putOption {α : Type} (put : α → List Nat) : Option α → List Nat
  | none => [0]
  | some value => 1 :: put value

/-- Modelled from the spec: reading an optional member. -/
def getOption {α : Type} (get : InputVectorStream → Option (α × InputVectorStream)) :
    InputVectorStream → Option (Option α × InputVectorStream)
  | [] => none
  | byte :: stream =>
    if byte = 0 then some (none, stream)
    else if byte = 1 then
      match get stream with
      | some (value, rest) => some (some value, rest)
      | none => none
    else none

/-- Modelled from the spec: a byte string, its length first (four bytes). -/
def putBytes (data : SerialisedData) : List Nat :=
  putUInt 4 data.length ++ data

/-- Modelled from the spec: reading a byte string. -/
def getBytes (stream : InputVectorStream) : Option (SerialisedData × InputVectorStream) :=
  match getUInt 4 stream with
  | none => none
  | some (length, rest) =>
    if length ≤ rest.length then some (rest.take length, rest.drop length) else none

/-- Modelled from the spec: an address of `width` bytes. -/
def putAddress (width : Nat) (address : Address) : List Nat :=
  putUInt width address

/-- Modelled from the spec: reading an address of `width` bytes. -/
def getAddress (width : Nat) (stream : InputVectorStream) :
    Option (Address × InputVectorStream) :=
  getUInt width stream

/-- Modelled from the spec: the header, member after member. -/
def putHeader (width : Nat) (header : MessageHeader) : List Nat :=
  putAddress width header.destination.1
    ++ putOption (putAddress width) header.destination.2
    ++ putAddress width header.source.1
    ++ putOption
        (fun group_reply : Option Address × Option Address =>
          putOption (putAddress width) group_reply.1
            ++ putOption (putAddress width) group_reply.2)
        header.source.2
    ++ putUInt 8 header.message_id
    ++ putOption putBytes header.signature

/-- Modelled from the spec: reading the group and reply-to members of a source. -/
def getGroupReply (width : Nat) (stream : InputVectorStream) :
    Option ((Option Address × Option Address) × InputVectorStream) :=
  match getOption (getAddress width) stream with
  | none => none
  | some (group, rest) =>
    match getOption (getAddress width) rest with
    | none => none
    | some (reply, rest1) => some ((group, reply), rest1)

/-- Modelled from the spec: reading a header. -/
def getHeader (width : Nat) (stream : InputVectorStream) :
    Option (MessageHeader × InputVectorStream) :=
  match getAddress width stream with
  | none => none
  | some (destination, s1) =>
    match getOption (getAddress width) s1 with
    | none => none
    | some (reply, s2) =>
      match getAddress width s2 with
      | none => none
      | some (source, s3) =>
        match getOption (getGroupReply width) s3 with
        | none => none
        | some (group_reply, s4) =>
          match getUInt 8 s4 with
          | none => none
          | some (message_id, s5) =>
            match getOption getBytes s5 with
            | none => none
            | some (signature, s6) =>
              some (⟨(destination, reply), (source, group_reply), message_id, signature⟩, s6)

/-- Modelled from the spec: the tag byte, `Connect = 1` up to `Post = 9`. -/
def putTag : MessageTypeTag → Nat
  | .Connect => 1
  | .ConnectResponse => 2
  | .FindGroup => 3
  | .FindGroupResponse => 4
  | .GetData => 5
  | .GetDataResponse => 6
  | .PutData => 7
  | .PutDataResponse => 8
  | .PostMessage => 9
  | .Unknown value => value

/-- Modelled from the spec: reading the tag byte. -/
def getTag (byte : Nat) : MessageTypeTag :=
  if byte = 1 then .Connect
  else if byte = 2 then .ConnectResponse
  else if byte = 3 then .FindGroup
  else if byte = 4 then .FindGroupResponse
  else if byte = 5 then .GetData
  else if byte = 6 then .GetDataResponse
  else if byte = 7 then .PutData
  else if byte = 8 then .PutDataResponse
  else if byte = 9 then .PostMessage
  else .Unknown byte

/-- Modelled from the spec: `Parse(stream, header, tag)`. -/
def getHeaderTag (width : Nat) (stream : InputVectorStream) :
    Option ((MessageHeader × MessageTypeTag) × InputVectorStream) :=
  match getHeader width stream with
  | none => none
  | some (header, rest) =>
    match rest with
    | [] => none
    | byte :: rest1 => if byte < 256 then some ((header, getTag byte), rest1) else none

/-- Modelled from the spec: a key followed by a byte string. -/
def putKeyData (width : Nat) (key : Address) (data : SerialisedData) : List Nat :=
  putAddress width key ++ putBytes data

/-- Modelled from the spec: reading a key followed by a byte string. -/
def getKeyData (width : Nat) (stream : InputVectorStream) :
    Option ((Address × SerialisedData) × InputVectorStream) :=
  match getAddress width stream with
  | none => none
  | some (key, rest) =>
    match getBytes rest with
    | none => none
    | some (data, rest1) => some ((key, data), rest1)

/-- Modelled from the spec: an endpoint, four address bytes and two port bytes. -/
def putEndpoint (endpoint : Endpoint) : List Nat :=
  putUInt 4 endpoint.address ++ putUInt 2 endpoint.port

/-- Modelled from the spec: reading an endpoint. -/
def getEndpoint (stream : InputVectorStream) : Option (Endpoint × InputVectorStream) :=
  match getUInt 4 stream with
  | none => none
  | some (address, rest) =>
    match getUInt 2 rest with
    | none => none
    | some (port, rest1) => some (⟨address, port⟩, rest1)

/-- Modelled from the spec: an endpoint pair, local endpoint first. -/
def putEndpointPair (pair : EndpointPair) : List Nat :=
  putEndpoint pair.local_endpoint ++ putEndpoint pair.external_endpoint

/-- Modelled from the spec: reading an endpoint pair. -/
def getEndpointPair (stream : InputVectorStream) : Option (EndpointPair × InputVectorStream) :=
  match getEndpoint stream with
  | none => none
  | some (local_endpoint, rest) =>
    match getEndpoint rest with
    | none => none
    | some (external_endpoint, rest1) => some (⟨local_endpoint, external_endpoint⟩, rest1)

/-- Modelled from the spec: a public identity, name then key (four bytes). -/
def putFob (width : Nat) (fob : PublicPmid) : List Nat :=
  putAddress width fob.name ++ putUInt 4 fob.public_key

/-- Modelled from the spec: reading a public identity. -/
def getFob (width : Nat) (stream : InputVectorStream) : Option (PublicPmid × InputVectorStream) :=
  match getAddress width stream with
  | none => none
  | some (name, rest) =>
    match getUInt 4 rest with
    | none => none
    | some (public_key, rest1) => some (⟨name, public_key⟩, rest1)

/-- Modelled from the spec: a peer entry, id then public identity. -/
def putNodeInfo (width : Nat) (info : NodeInfo) : List Nat :=
  putAddress width info.id ++ putFob width info.dht_fob

/-- Modelled from the spec: reading a peer entry. -/
def getNodeInfo (width : Nat) (stream : InputVectorStream) :
    Option (NodeInfo × InputVectorStream) :=
  match getAddress width stream with
  | none => none
  | some (id, rest) =>
    match getFob width rest with
    | none => none
    | some (fob, rest1) => some (⟨id, fob⟩, rest1)

/-- Modelled from the spec: reading `count` peer entries. -/
def getNodeInfos (width : Nat) : Nat → InputVectorStream →
    Option (List NodeInfo × InputVectorStream)
  | 0, stream => some ([], stream)
  | count + 1, stream =>
    match getNodeInfo width stream with
    | none => none
    | some (info, rest) =>
      match getNodeInfos width count rest with
      | none => none
      | some (infos, rest1) => some (info :: infos, rest1)

/-- Modelled from the spec: `Serialise(body)` for each of the nine bodies. -/
def putBody (width : Nat) : Message → List Nat
  | .Connect m =>
    putEndpointPair m.requester_endpoints ++ putAddress width m.requester_id
      ++ putAddress width m.receiver_id ++ putFob width m.requester_fob
  | .ConnectResponse m =>
    putEndpointPair m.requester_endpoints ++ putEndpointPair m.receiver_endpoints
      ++ putAddress width m.requester_id ++ putAddress width m.receiver_id
      ++ putFob width m.receiver_fob
  | .FindGroup m => putAddress width m.requester_id ++ putAddress width m.target_id
  | .FindGroupResponse m =>
    putEndpointPair m.requester_endpoints ++ putEndpointPair m.receiver_endpoints
      ++ putAddress width m.requester_id ++ putAddress width m.receiver_id
      ++ putUInt 4 m.public_fobs.length
      ++ (m.public_fobs.map (putNodeInfo width)).flatten
  | .GetData m => putAddress width m.key
  | .GetDataResponse m => putKeyData width m.key m.data
  | .PutData m => putKeyData width m.key m.data
  | .PutDataResponse m => putAddress width m.key ++ putUInt 4 m.result
  | .PostMessage m => putKeyData width m.key m.data

/-- Modelled from the spec: `Serialise(header, tag, body)`. -/
def putFrame (width : Nat) (header : MessageHeader) (tag : MessageTypeTag) (body : Message) :
    SerialisedMessage :=
  putHeader width header ++ [putTag tag] ++ putBody width body

/-- Modelled from the spec: `Parse<Connect>`. -/
def getConnect (width : Nat) (stream : InputVectorStream) :
    Option (Connect × InputVectorStream) :=
  match getEndpointPair stream with
  | none => none
  | some (requester_endpoints, s1) =>
    match getAddress width s1 with
    | none => none
    | some (requester_id, s2) =>
      match getAddress width s2 with
      | none => none
      | some (receiver_id, s3) =>
        match getFob width s3 with
        | none => none
        | some (fob, s4) => some (⟨requester_endpoints, requester_id, receiver_id, fob⟩, s4)

/-- Modelled from the spec: `Parse<ConnectResponse>`. -/
def getConnectResponse (width : Nat) (stream : InputVectorStream) :
    Option (ConnectResponse × InputVectorStream) :=
  match getEndpointPair stream with
  | none => none
  | some (requester_endpoints, s1) =>
    match getEndpointPair s1 with
    | none => none
    | some (receiver_endpoints, s2) =>
      match getAddress width s2 with
      | none => none
      | some (requester_id, s3) =>
        match getAddress width s3 with
        | none => none
        | some (receiver_id, s4) =>
          match getFob width s4 with
          | none => none
          | some (fob, s5) =>
            some (⟨requester_endpoints, receiver_endpoints, requester_id, receiver_id, fob⟩, s5)

/-- Modelled from the spec: `Parse<FindGroup>`. -/
def getFindGroup (width : Nat) (stream : InputVectorStream) :
    Option (FindGroup × InputVectorStream) :=
  match getAddress width stream with
  | none => none
  | some (requester_id, s1) =>
    match getAddress width s1 with
    | none => none
    | some (target_id, s2) => some (⟨requester_id, target_id⟩, s2)

/-- Modelled from the spec: `Parse<FindGroupResponse>`. -/
def getFindGroupResponse (width : Nat) (stream : InputVectorStream) :
    Option (FindGroupResponse × InputVectorStream) :=
  match getEndpointPair stream with
  | none => none
  | some (requester_endpoints, s1) =>
    match getEndpointPair s1 with
    | none => none
    | some (receiver_endpoints, s2) =>
      match getAddress width s2 with
      | none => none
      | some (requester_id, s3) =>
        match getAddress width s3 with
        | none => none
        | some (receiver_id, s4) =>
          match getUInt 4 s4 with
          | none => none
          | some (count, s5) =>
            match getNodeInfos width count s5 with
            | none => none
            | some (fobs, s6) =>
              some (⟨requester_endpoints, receiver_endpoints, requester_id, receiver_id, fobs⟩,
                s6)

/-- Modelled from the spec: `Parse<GetData>`. -/
def getGetData (width : Nat) (stream : InputVectorStream) :
    Option (GetData × InputVectorStream) :=
  match getAddress width stream with
  | none => none
  | some (key, rest) => some (⟨key⟩, rest)

/-- Modelled from the spec: `Parse<GetDataResponse>`. -/
def getGetDataResponse (width : Nat) (stream : InputVectorStream) :
    Option (GetDataResponse × InputVectorStream) :=
  match getKeyData width stream with
  | none => none
  | some ((key, data), rest) => some (⟨key, data⟩, rest)

/-- Modelled from the spec: `Parse<PutData>`. -/
def getPutData (width : Nat) (stream : InputVectorStream) :
    Option (PutData × InputVectorStream) :=
  match getKeyData width stream with
  | none => none
  | some ((key, data), rest) => some (⟨key, data⟩, rest)

/-- Modelled from the spec: `Parse<PutDataResponse>`. -/
def getPutDataResponse (width : Nat) (stream : InputVectorStream) :
    Option (PutDataResponse × InputVectorStream) :=
  match getAddress width stream with
  | none => none
  | some (key, rest) =>
    match getUInt 4 rest with
    | none => none
    | some (result, rest1) => some (⟨key, result⟩, rest1)

/-- Modelled from the spec: `Parse<PostMessage>`. -/
def getPostMessage (width : Nat) (stream : InputVectorStream) :
    Option (PostMessage × InputVectorStream) :=
  match getKeyData width stream with
  | none => none
  | some ((key, data), rest) => some (⟨key, data⟩, rest)

end Wire

namespace Table

/-- Modelled from the spec: the routing table behind the connection manager
(`connection_manager.cc` is not under src/): this node's address and the
known peers. -/
structure State where
  our_id : Address
  nodes : List NodeInfo
deriving DecidableEq

/-- The value of `GROUP_SIZE`. -/
def kGroupSize : Nat := 4

/-- The value of `CLOSE_SIZE`. -/
def kCloseSize : Nat := 8

/-- The value of `MAX_TABLE`. -/
def kMaxTable : Nat := 64

/-- Insertion into a list kept ascending by XOR distance to `target`. -/
def insertByDistance (target : Address) (entry : NodeInfo) : List NodeInfo → List NodeInfo
  | [] => [entry]
  | head :: tail =>
    if CloserToTarget entry.id head.id target then entry :: head :: tail
    else head :: insertByDistance target entry tail

/-- The peers in ascending XOR distance to `target` (a stable sort). -/
def sortByDistance (target : Address) (nodes : List NodeInfo) : List NodeInfo :=
  nodes.foldr (insertByDistance target) []

/-- Modelled from the spec: `closest_nodes(target, n)`. -/
def ClosestNodes (table : State) (target : Address) (count : Nat) : List NodeInfo :=
  (sortByDistance target table.nodes).take count

/-- Modelled from the spec: `our_close_group()`. -/
def OurCloseGroup (table : State) : List NodeInfo :=
  ClosestNodes table table.our_id kCloseSize

/-- Modelled from the spec: `is_in_close_group(target)`: fewer than
`GROUP_SIZE` known peers are closer to `target` than this node. -/
def AddressInCloseGroupRange (table : State) (target : Address) : Bool :=
  decide ((table.nodes.filter fun peer =>
    CloserToTarget peer.id table.our_id target).length < kGroupSize)

/-- Modelled from the spec: `check_node(candidate)`, without the bucket rule. -/
def SuggestNodeToAdd (table : State) (candidate : Address) : Bool :=
  candidate != table.our_id
    && !(table.nodes.map NodeInfo.id).contains candidate
    && (decide (table.nodes.length < kMaxTable)
        || (sortByDistance table.our_id table.nodes).reverse.head?.any
            (fun farthest => CloserToTarget candidate farthest.id table.our_id))

/-- Modelled from the spec: `drop_node(address)`. -/
def DropNode (table : State) (address : Address) : State :=
  { table with nodes := table.nodes.filter fun peer => peer.id != address }

/-- Modelled from the spec: `add_node(info)`: the peer enters when
`check_node` accepts it; a full table evicts its farthest member. -/
def AddNodeOnly (table : State) (info : NodeInfo) : (Bool × Option NodeInfo) × State :=
  if SuggestNodeToAdd table info.id then
    if table.nodes.length < kMaxTable then
      ((true, none), { table with nodes := table.nodes ++ [info] })
    else
      match (sortByDistance table.our_id table.nodes).reverse.head? with
      | some farthest =>
        ((true, some farthest),
          { table with nodes := (DropNode table farthest.id).nodes ++ [info] })
      | none => ((false, none), table)
  else ((false, none), table)

/-- Modelled from the spec: `add_node(info, contact)`, reporting the change
of the close group. -/
def AddNode (table : State) (info : NodeInfo) (_endpoints : EndpointPair) :
    Option CloseGroupDifference × State :=
  let added := AddNodeOnly table info
  let before := (OurCloseGroup table).map NodeInfo.id
  let after := (OurCloseGroup added.2).map NodeInfo.id
  if added.1.1 && before != after then
    (some ⟨after.filter fun id => !before.contains id,
           before.filter fun id => !after.contains id⟩, added.2)
  else (none, added.2)

/-- Modelled from the spec: `get_target(dest)`: nothing for this node's own
address, the close group in close-group range, else the one closest peer. -/
def GetTarget (table : State) (destination : Address) : List NodeInfo :=
  if destination = table.our_id then []
  else if AddressInCloseGroupRange table destination then OurCloseGroup table
  else ClosestNodes table destination 1

end Table

namespace Sample

/-- Address width of the sample codec, in bytes. -/
def kWidth : Nat := 1

/-- Modelled from the spec: `FilterValue()`, the source node and the message id. -/
def FilterValue (header : MessageHeader) : FilterType :=
  (header.source.1, header.message_id)

/-- Modelled from the spec: `FromGroup()`, the group member of the source. -/
def FromGroup (header : MessageHeader) : Option Address :=
  match header.source.2 with
  | some group_reply => group_reply.1
  | none => none

/-- Modelled from the spec: `ReturnDestinationAddress()`, the source node
together with its reply-to address. -/
def ReturnDestinationAddress (header : MessageHeader) : DestinationAddress :=
  (header.source.1,
    match header.source.2 with
    | some group_reply => group_reply.2
    | none => none)

/-- A list-backed filter, a list-backed cache and the table above, with the
codec at width `kWidth`; asserts are compiled in. -/
def collaborators : Collaborators (List FilterType) (List (Address × SerialisedData))
    Table.State where
  NDEBUG := false
  ParseHeaderTag := Wire.getHeaderTag kWidth
  ParseConnect := Wire.getConnect kWidth
  ParseConnectResponse := Wire.getConnectResponse kWidth
  ParseFindGroup := Wire.getFindGroup kWidth
  ParseFindGroupResponse := Wire.getFindGroupResponse kWidth
  ParseGetData := Wire.getGetData kWidth
  ParseGetDataResponse := Wire.getGetDataResponse kWidth
  ParsePutData := Wire.getPutData kWidth
  ParsePutDataResponse := Wire.getPutDataResponse kWidth
  ParsePostMessage := Wire.getPostMessage kWidth
  Serialise := Wire.putFrame kWidth
  SerialiseBody := Wire.putBody kWidth
  FilterValue := FilterValue
  ReturnDestinationAddress := ReturnDestinationAddress
  FromGroup := FromGroup
  HeaderAfterMove := fun header => header
  Check := fun filter value => filter.contains value
  Add := fun filter value => value :: filter
  CacheAdd := fun cache key data => (key, data) :: cache
  CacheGet := fun cache key => (cache.lookup key, cache)
  GetTarget := Table.GetTarget
  AddressInCloseGroupRange := Table.AddressInCloseGroupRange
  SuggestNodeToAdd := Table.SuggestNodeToAdd
  AddNode := Table.AddNode
  AddNodeOnly := Table.AddNodeOnly
  DropNode := Table.DropNode
  OurCloseGroup := Table.OurCloseGroup
  ConnectionManagerOurId := Table.State.our_id
  OurId := 1
  NextEndpointPair := ⟨⟨10, 5483⟩, ⟨20, 5483⟩⟩
  our_public_fob := ⟨1, 77⟩
  private_key := 99
  Sign := fun data key => [key % 256, data.length % 256]
  RandomUint32 := 4242
  SendError := fun _ _ => false
  RemoveError := fun _ => false
  MakeFindGroupResponse := fun find_group =>
    ⟨⟨⟨0, 0⟩, ⟨0, 0⟩⟩, ⟨⟨0, 0⟩, ⟨0, 0⟩⟩, find_group.requester_id, find_group.target_id, []⟩
  ResponseRequesterFob := fun response => response.receiver_fob

/-- A peer entry with id `id`. -/
def peer (id : Address) : NodeInfo := ⟨id, ⟨id, id + 1000⟩⟩

/-- Node 1 with an empty filter, an empty cache and the peers 2 and 3. -/
def node : RoutingNode (List FilterType) (List (Address × SerialisedData)) Table.State :=
  ⟨[], [], ⟨1, [peer 2, peer 3]⟩⟩

/-- Header from node `source` to `destination` with message id `id`, unsigned. -/
def header (source destination : Address) (id : MessageId) : MessageHeader :=
  ⟨(destination, none), (source, none), id, none⟩

/-- The `Connect` body of requester 9 for receiver 1. -/
def connect : Connect := ⟨⟨⟨1, 2⟩, ⟨3, 4⟩⟩, 9, 1, ⟨9, 55⟩⟩

/-- A `Connect` frame from node 9 with destination 5 and message id 8. -/
def connect_frame : SerialisedMessage :=
  Wire.putFrame kWidth (header 9 5 8) .Connect (.Connect connect)

/-- The header of `connect_frame` and the tag `Connect` with no body after it. -/
def truncated_connect_frame : SerialisedMessage :=
  Wire.putHeader kWidth (header 9 5 8) ++ [Wire.putTag .Connect]

/-- A `GetDataResponse` frame from node 2 with destination 5, message id 7,
key 6 and the value `[9, 9]`. -/
def get_data_response_frame : SerialisedMessage :=
  Wire.putFrame kWidth (header 2 5 7) .GetDataResponse (.GetDataResponse ⟨6, [9, 9]⟩)

/-- A `GetData` frame from node 3 with destination 5, message id 8 and key 6. -/
def get_data_frame : SerialisedMessage :=
  Wire.putFrame kWidth (header 3 5 8) .GetData (.GetData ⟨6⟩)

/-- A `PutDataResponse` frame from node 3 with destination 5, message id 8,
key 6 and result 0. -/
def put_data_response_frame : SerialisedMessage :=
  Wire.putFrame kWidth (header 3 5 8) .PutDataResponse (.PutDataResponse ⟨6, 0⟩)

/-- The collaborators above with a header whose move constructor leaves the
header it moves from empty, as a member built from a string is after a move:
every address reads as the empty address, here 0. -/
def moved_out : Collaborators (List FilterType) (List (Address × SerialisedData))
    Table.State :=
  { collaborators with HeaderAfterMove := fun _ => ⟨(0, none), (0, none), 0, none⟩ }

/-- Node 1 with an empty filter, an empty cache and six peers. -/
def crowded : RoutingNode (List FilterType) (List (Address × SerialisedData)) Table.State :=
  ⟨[], [], ⟨1, [peer 2, peer 3, peer 8, peer 9, peer 10, peer 11]⟩⟩

/-- A `GetData` frame from node 8 with destination 5, message id 8 and key 6. -/
def get_data_frame_from_8 : SerialisedMessage :=
  Wire.putFrame kWidth (header 8 5 8) .GetData (.GetData ⟨6⟩)

/-- The header of a `GetDataResponse` frame from node 9 with destination 5
and message id 8, and the tag, with no body after it. -/
def truncated_get_data_response_frame : SerialisedMessage :=
  Wire.putHeader kWidth (header 9 5 8) ++ [Wire.putTag .GetDataResponse]

end Sample

/-! ## `timer.cc`

The pending-task registry of the older generation (`Routing::Impl`). The
mutex makes every member function one atomic step. The deadline timer that
`AddTask` arms calls `KillTask` with the task's id when it fires; here
`KillTask` is a call like any other, made at any time. A functor handed to
`io_service_.service().dispatch` is recorded as a `Dispatched`, with the
arguments it will be called with. -/

/-- The type `TaskId`. It is declared in `timer.h`, which is not under src/;
`task_id_` starts as `RandomUint32()`, and ids are the 32-bit unsigned values. -/
abbrev TaskId := Nat

/-- The type `NodeId` of the older generation; the zero id is `0`. -/
abbrev NodeId := Nat

/-- A `boost::posix_time::time_duration`, in milliseconds. -/
abbrev Duration := Nat

/-- The return codes of `return_codes.h` that `timer.cc` and
`routing_impl.cc` name; `other` is any other `int`. -/
inductive ReturnCode where
  | kSuccess
  | kResponseTimeout
  | kNetworkShuttingDown
  | kNotJoined
  | kAnonymousSessionEnded
  | kPartialJoinSessionEnded
  | other (code : Int)
deriving DecidableEq

/-- The message `protobuf::Message`: an optional member is `none` until its
setter is called, `data` is the repeated member. -/
structure ProtoMessage where
  destination_id : Option NodeId
  routing_message : Option Bool
  data : List SerialisedData
  type : Option Int
  cacheable : Option Bool
  direct : Option Bool
  client_node : Option Bool
  request : Option Bool
  hops_to_live : Option Nat
  group_claim : Option NodeId
  visited : Option Bool
  id : Option TaskId
  replication : Option Nat
  relay_id : Option NodeId
  relay_connection_id : Option NodeId
  source_id : Option NodeId
deriving DecidableEq

/-- A default-constructed `protobuf::Message`. -/
def ProtoMessage.empty : ProtoMessage :=
  { destination_id := none, routing_message := none, data := [], type := none,
    cacheable := none, direct := none, client_node := none, request := none,
    hops_to_live := none, group_claim := none, visited := none, id := none,
    replication := none, relay_id := none, relay_connection_id := none, source_id := none }

/-- A functor given to `io_service_.service().dispatch`, with the return code
and the response vector it is bound to. -/
structure Dispatched (Φ : Type) where
  functor : Φ
  return_code : ReturnCode
  data : List SerialisedData
deriving DecidableEq

/-- The members `task_id_` and `queue_` of `Timer`. An entry of the queue is a
task id with its deadline timer (the timeout) and its response functor, which
is `none` for an empty `std::function`. -/
structure Timer (Φ : Type) where
  task_id_ : TaskId
  queue_ : List (TaskId × Duration × Option Φ)

namespace Timer

variable {Φ : Type}

/-- The call `queue_.find(task_id)`. -/
def find (queue : List (TaskId × Duration × Option Φ)) (task_id : TaskId) :
    Option (Duration × Option Φ) :=
  queue.lookup task_id

/-- The call `queue_.erase(it)` for the entry found under `task_id`. -/
def erase (queue : List (TaskId × Duration × Option Φ)) (task_id : TaskId) :
    List (TaskId × Duration × Option Φ) :=
  queue.filter fun entry => entry.1 != task_id

/-- The call `queue_.insert(...)` of a `std::map`: an entry whose key is
present already is not inserted. -/
def insert (queue : List (TaskId × Duration × Option Φ))
    (entry : TaskId × Duration × Option Φ) : List (TaskId × Duration × Option Φ) :=
  if (find queue entry.1).isSome then queue else queue ++ [entry]

/-- The constructor `Timer::Timer`: `task_id_(RandomUint32())` and an empty
queue. -/
def construct (RandomUint32 : Nat) : Routing.Timer Φ :=
  ⟨RandomUint32 % 2 ^ 32, []⟩

/-- `Timer::AddTask(timeout, response_functor)`: the id returned and the timer
afterwards. -/
def AddTask (timer : Routing.Timer Φ) (timeout : Duration) (response_functor : Option Φ) :
    TaskId × Routing.Timer Φ :=
  let task_id := (timer.task_id_ + 1) % 2 ^ 32
  (task_id, ⟨task_id, insert timer.queue_ (task_id, timeout, response_functor)⟩)

/-- `Timer::KillTask(task_id)`: the timer afterwards and what is dispatched. -/
def KillTask (timer : Routing.Timer Φ) (task_id : TaskId) :
    Routing.Timer Φ × List (Dispatched Φ) :=
  match find timer.queue_ task_id with
  | some (_, task_response_functor) =>
    ({ timer with queue_ := erase timer.queue_ task_id },
      match task_response_functor with
      | some functor => [⟨functor, .kResponseTimeout, []⟩]
      | none => [])
  | none => (timer, [])

/-- `Timer::ExecuteTaskNow(message)`: the timer afterwards and what is
dispatched. -/
def ExecuteTaskNow (timer : Routing.Timer Φ) (message : ProtoMessage) :
    Routing.Timer Φ × List (Dispatched Φ) :=
  match message.id with
  | none => (timer, [])
  | some id =>
    match find timer.queue_ id with
    | some (_, task_response_functor) =>
      ({ timer with queue_ := erase timer.queue_ id },
        match task_response_functor with
        | some functor => [⟨functor, .kSuccess, message.data⟩]
        | none => [])
    | none => (timer, [])

end Timer

/-- One call of a member function of `Timer`. -/
inductive TimerCall (Φ : Type) where
  | AddTask (timeout : Duration) (response_functor : Option Φ)
  | KillTask (task_id : TaskId)
  | ExecuteTaskNow (message : ProtoMessage)

namespace Timer

variable {Φ : Type}

/-- The timer after one call, and what the call dispatches. -/
def call (timer : Routing.Timer Φ) : TimerCall Φ → Routing.Timer Φ × List (Dispatched Φ)
  | .AddTask timeout response_functor => ((timer.AddTask timeout response_functor).2, [])
  | .KillTask task_id => timer.KillTask task_id
  | .ExecuteTaskNow message => timer.ExecuteTaskNow message

/-- The timer after a sequence of calls, and everything dispatched on the way,
in order. -/
def calls (timer : Routing.Timer Φ) : List (TimerCall Φ) → Routing.Timer Φ × List (Dispatched Φ)
  | [] => (timer, [])
  | first :: rest =>
    ((calls (timer.call first).1 rest).1, (timer.call first).2 ++ (calls (timer.call first).1 rest).2)

/-- How often a sequence of calls registers the functor `functor` by `AddTask`. -/
def registrations [DecidableEq Φ] (functor : Φ) (sequence : List (TimerCall Φ)) : Nat :=
  (sequence.filter fun made =>
    match made with
    | .AddTask _ response_functor => decide (response_functor = some functor)
    | _ => false).length

/-- How many calls of a sequence are `AddTask`. -/
def additions (sequence : List (TimerCall Φ)) : Nat :=
  (sequence.filter fun made =>
    match made with
    | .AddTask _ _ => true
    | _ => false).length

/-- How many entries of a queue hold the functor `functor`. -/
def pending [DecidableEq Φ] (functor : Φ) (queue : List (TaskId × Duration × Option Φ)) : Nat :=
  (queue.filter fun entry => decide (entry.2.2 = some functor)).length

/-- How often `functor` occurs among dispatched functors. -/
def dispatched [DecidableEq Φ] (functor : Φ) (dispatches : List (Dispatched Φ)) : Nat :=
  (dispatches.filter fun entry => decide (entry.functor = functor)).length

end Timer

/-! ## `routing_impl.cc`

`Routing::Impl`, the node of the older generation. A member function maps the
state to a `Returned`: the state afterwards, the calls made to collaborators
and to the functors in program order, and the value returned (`none` when an
`assert` failed). Log statements are left out. A lambda handed to a timer, to
the transport or to `post` is recorded with what it captures and runs later,
as a call of its own. What the file uses without defining it (`NetworkUtils`,
`RoutingTable`, the three-argument `Timer::AddTask` and `Timer::CancelTask`,
`rpcs`, `Parameters`, protobuf) is the parameter `ImplCollaborators`. -/

/-- The enumeration `DestinationType`. -/
inductive DestinationType where
  | kDirect
  | kClosest
  | kGroup
deriving DecidableEq

/-- A `boost::system::error_code` as far as the code tests it. -/
inductive ErrorCode where
  | success
  | operation_aborted
  | other (value : Int)
deriving DecidableEq

/-- A `ResponseFunctor`: one supplied by the caller of `Send`, or the lambda of
`GetGroup`, which captures the promise it allocated. -/
inductive ResponseFunctor where
  | supplied (name : Nat)
  | GetGroupCallback (promise : Nat)
deriving DecidableEq

/-- The `NodeInfo` of the older generation. -/
structure LegacyNodeInfo where
  node_id : NodeId
  connection_id : NodeId
  public_key : Nat
deriving DecidableEq

/-- The members of `Functors`: whether each functor is set. -/
structure Functors where
  message_received : Bool
  network_status : Bool
  close_node_replaced : Bool
  request_public_key : Bool
  new_bootstrap_endpoint : Bool
deriving DecidableEq

/-- A `rudp::MessageSentFunctor` lambda: the one of `FindClosestNode`, which
logs, and the one of `Send` on the relay path. -/
inductive SentFunctor where
  | FindClosestNode (find_node_rpc : ProtoMessage)
  | Send (proto_message : ProtoMessage) (bootstrap_connection_id : NodeId)
deriving DecidableEq

/-- A lambda given to `async_wait`. `ReSendFindNodeRequest ignore_size` tests
the error code of the wait and then calls
`ReSendFindNodeRequest(error_code, ignore_size)`; `ReSendFindNodeRequestAgain`
is the lambda on line 639, which tests the captured `error_code`;
`FindClosestNode attempts` and `DoReBootstrap` test the error code of the wait. -/
inductive WaitHandler where
  | ReSendFindNodeRequest (ignore_size : Bool)
  | ReSendFindNodeRequestAgain (error_code : ErrorCode)
  | FindClosestNode (attempts : Nat)
  | DoReBootstrap
deriving DecidableEq

/-- One of the three `asio::deadline_timer` members. -/
inductive TimerName where
  | re_bootstrap_timer_
  | recovery_timer_
  | setup_timer_
deriving DecidableEq

/-- A task given to `asio_service_.service().post`. -/
inductive PostedTask where
  | DoOnMessageReceived (message : SerialisedData)
  | DoOnConnectionLost (lost_connection_id : NodeId)
deriving DecidableEq

/-- One call made by `Routing::Impl`. `arm` is `expires_from_now(duration)`
followed by `async_wait(handler)` on the named timer. A routing table size
passed to the network-status functor is `ReturnCode.other size`. -/
inductive ImplCall where
  | response_functor (functor : ResponseFunctor) (responses : List SerialisedData)
  | network_status (return_code : ReturnCode)
  | timer_AddTask (timeout : Duration) (functor : ResponseFunctor) (responses_needed : Nat)
      (task_id : TaskId)
  | timer_CancelTask (task_id : TaskId)
  | SendToDirect (message : ProtoMessage) (peer : NodeId) (sent : SentFunctor)
  | SendToClosestNode (message : ProtoMessage)
  | network_Remove (connection_id : NodeId)
  | clear_bootstrap_connection_info
  | Bootstrap (endpoints : List Endpoint)
  | post (task : PostedTask)
  | arm (timer : TimerName) (duration : Duration) (handler : WaitHandler)
  | cancel (timer : TimerName)
  | DropNode (node_id : NodeId)
  | InitialiseFunctors
  | set_message_received_functor (set : Bool)
  | set_request_public_key_functor (set : Bool)
  | set_new_bootstrap_endpoint_functor (set : Bool)
  | HandleMessage (message : ProtoMessage)
  | DropConnection (connection_id : NodeId)
deriving DecidableEq

/-- State after a call, the calls it made, and the value it returned; `none`
when an `assert` failed. -/
structure Returned (σ α : Type) where
  state : σ
  trace : List ImplCall
  value : Option α

/-- The static members of `Parameters` that `routing_impl.cc` reads. -/
structure Parameters where
  max_data_size : Nat
  node_group_size : Nat
  hops_to_live : Nat
  default_send_timeout : Duration
  find_node_interval : Duration
  find_close_node_interval : Duration
  re_bootstrap_time_lag : Duration
  recovery_time_lag : Duration
  maximum_find_close_node_failures : Nat
  closest_nodes_size : Nat
  greedy_fraction : Nat

/-- The members of `Routing::Impl`. `RT`, `NRT`, `N` and `T` are the states of
the routing table, the non-routing table, the network utilities and the
timer; a deadline timer holds the wait that is pending on it. -/
structure Impl (RT NRT N T : Type) where
  network_status_ : ReturnCode
  routing_table_ : RT
  kNodeId_ : NodeId
  kAnonymousNode_ : Bool
  running_ : Bool
  functors_ : Functors
  random_node_helper_ : List NodeId
  non_routing_table_ : NRT
  network_ : N
  timer_ : T
  re_bootstrap_timer_ : Option (Duration × WaitHandler)
  recovery_timer_ : Option (Duration × WaitHandler)
  setup_timer_ : Option (Duration × WaitHandler)

/-- Everything `routing_impl.cc` uses without defining it. -/
structure ImplCollaborators (RT NRT N T : Type) where
  /-- Whether `assert` is compiled out. -/
  NDEBUG : Bool
  parameters : Parameters
  /-- The value `MessageType::kNodeLevel`. -/
  kNodeLevel : Int
  /-- The call `routing_table_.size()`. -/
  size : RT → Nat
  /-- The call `routing_table_.client_mode()`. -/
  client_mode : RT → Bool
  GetClosestNode : RT → NodeId → LegacyNodeInfo
  /-- The call `routing_table_.DropNode(node_id, routing_only)`: the node
  dropped and the table afterwards. -/
  DropNode : RT → NodeId → Bool → LegacyNodeInfo × RT
  bootstrap_connection_id : N → NodeId
  this_node_relay_connection_id : N → NodeId
  /-- The call `network_.Remove(connection_id)`. -/
  Remove : N → NodeId → N
  clear_bootstrap_connection_info : N → N
  /-- The call `network_.Bootstrap(endpoints, ...)`: the value returned and
  the network afterwards. -/
  Bootstrap : N → List Endpoint → ReturnCode × N
  /-- The call `timer_.AddTask(timeout, functor, responses_needed)`. -/
  TimerAddTask : T → Duration → ResponseFunctor → Nat → TaskId × T
  /-- The call `timer_.CancelTask(task_id)`. -/
  TimerCancelTask : T → TaskId → T
  /-- The call `rpcs::FindNodes(node_id, this_node_id, num_nodes_requested,
  relay_message, relay_connection_id)`. -/
  FindNodes : NodeId → NodeId → Nat → Bool → NodeId → ProtoMessage
  /-- The call `rpcs::GetGroup(info_id, this_node_id)`. -/
  GetGroup : NodeId → NodeId → ProtoMessage
  SerializeAsString : ProtoMessage → SerialisedData
  /-- The member `group_nodes_id` of a `protobuf::GetGroup` after
  `ParseFromString(response)`. -/
  ParseGetGroup : SerialisedData → List SerialisedData
  /-- The constructor `NodeId(id)`; `none` when it throws. -/
  MakeNodeId : SerialisedData → Option NodeId
  /-- The call `routing_table_.kThresholdSize()`. -/
  kThresholdSize : RT → Nat
  /-- The call `rpcs::FindNodes(node_id, this_node_id, num_nodes_requested)`,
  with the default arguments of its declaration. -/
  FindNodesDefault : NodeId → NodeId → Nat → ProtoMessage
  /-- The call `routing_table_.GetNodeInfo(connection_id, node)`: the node
  written to the out-parameter when the call returns true. -/
  GetNodeInfo : RT → NodeId → Option LegacyNodeInfo
  /-- The call `routing_table_.IsThisNodeInRange(node_id, range)`. -/
  IsThisNodeInRange : RT → NodeId → Nat → Bool
  /-- The call `non_routing_table_.DropConnection(connection_id)`: the node
  dropped and the table afterwards. -/
  DropConnection : NRT → NodeId → LegacyNodeInfo × NRT
  /-- The call `random_node_helper_.Add(node_id)`. -/
  RandomNodeHelperAdd : List NodeId → NodeId → List NodeId
  /-- The call `random_node_helper_.Remove(node_id)`. -/
  RandomNodeHelperRemove : List NodeId → NodeId → List NodeId
  /-- The call `pb_message.ParseFromString(message)`; `none` when it returns
  false. -/
  ParseFromString : SerialisedData → Option ProtoMessage
  /-- The call `message_handler_->HandleMessage(pb_message)`: the members of
  `Routing::Impl` afterwards. -/
  HandleMessage : Impl RT NRT N T → ProtoMessage → Impl RT NRT N T

namespace Impl

variable {RT NRT N T : Type}

/-- `Routing::Impl::NotifyNetworkStatus`. -/
def NotifyNetworkStatus (impl : Impl RT NRT N T) (return_code : ReturnCode) : List ImplCall :=
  if impl.functors_.network_status then [ImplCall.network_status return_code] else []

/-- `Routing::Impl::OnMessageReceived`. -/
def OnMessageReceived (impl : Impl RT NRT N T) (message : SerialisedData) : List ImplCall :=
  if impl.running_ then [ImplCall.post (.DoOnMessageReceived message)] else []

/-- The call of the response functor with an empty vector by which `Send`
answers invalid input. -/
def Rejected (impl : Impl RT NRT N T) (response_functor : Option ResponseFunctor) :
    Returned (Impl RT NRT N T) Unit :=
  ⟨impl,
    match response_functor with
    | some functor => [ImplCall.response_functor functor []]
    | none => [],
    some ()⟩

/-- The number of responses `Send` passes to `AddTask`: lines 372 to 379. -/
def SendResponsesNeeded (D : ImplCollaborators RT NRT N T)
    (destination_type : DestinationType) : Nat :=
  if DestinationType.kGroup = destination_type then D.parameters.node_group_size else 1

/-- The message of `Send` as it stands after line 381; `task_id` is what
`AddTask` returned when it was called. `replication` is a `uint16_t`. -/
def SendMessage (D : ImplCollaborators RT NRT N T) (impl : Impl RT NRT N T)
    (destination_id group_claim : NodeId) (data : SerialisedData) (task_id : Option TaskId)
    (destination_type : DestinationType) (cacheable : Bool) : ProtoMessage :=
  { ProtoMessage.empty with
    destination_id := some destination_id
    routing_message := some false
    data := [data]
    type := some D.kNodeLevel
    cacheable := some cacheable
    direct := some (decide (DestinationType.kDirect = destination_type))
    client_node := some (D.client_mode impl.routing_table_)
    request := some true
    hops_to_live := some D.parameters.hops_to_live
    group_claim := if group_claim != 0 then some group_claim else none
    visited := if DestinationType.kGroup = destination_type then some false else none
    id := task_id
    replication := some
      (if DestinationType.kGroup = destination_type then D.parameters.node_group_size % 2 ^ 16
       else 1) }

/-- `Routing::Impl::Send` from line 383 on: the message goes to the bootstrap
connection, to the closest node or back to this node. `before` holds the
calls made so far. The `assert` on line 387 holds by the line before it. -/
def SendOut (D : ImplCollaborators RT NRT N T) (impl : Impl RT NRT N T)
    (before : List ImplCall) (proto_message : ProtoMessage) (destination_id : NodeId) :
    Returned (Impl RT NRT N T) Unit :=
  if impl.kAnonymousNode_ || D.size impl.routing_table_ == 0 then
    let relayed : ProtoMessage :=
      { proto_message with
        relay_id := some impl.kNodeId_
        relay_connection_id := some (D.this_node_relay_connection_id impl.network_) }
    let bootstrap_connection_id := D.bootstrap_connection_id impl.network_
    ⟨impl,
      before ++ [ImplCall.SendToDirect relayed bootstrap_connection_id
        (.Send relayed bootstrap_connection_id)],
      some ()⟩
  else
    let sourced : ProtoMessage := { proto_message with source_id := some impl.kNodeId_ }
    if impl.kNodeId_ != destination_id then
      ⟨impl, before ++ [ImplCall.SendToClosestNode sourced], some ()⟩
    else if D.client_mode impl.routing_table_ then
      ⟨impl, before ++ [ImplCall.SendToClosestNode sourced], some ()⟩
    else
      ⟨impl, before ++ OnMessageReceived impl (D.SerializeAsString sourced), some ()⟩

/-- The id `timer_.AddTask` returns to `Send` on lines 372 to 379; `none`
when no functor was given and `AddTask` is not called. -/
def SendTaskId (D : ImplCollaborators RT NRT N T) (impl : Impl RT NRT N T)
    (response_functor : Option ResponseFunctor) (timeout : Duration)
    (destination_type : DestinationType) : Option TaskId :=
  response_functor.map fun functor =>
    (D.TimerAddTask impl.timer_ timeout functor (SendResponsesNeeded D destination_type)).1

/-- The state after lines 372 to 379 of `Send`: the timer holds the task when
a functor was given. -/
def SendState (D : ImplCollaborators RT NRT N T) (impl : Impl RT NRT N T)
    (response_functor : Option ResponseFunctor) (timeout : Duration)
    (destination_type : DestinationType) : Impl RT NRT N T :=
  match response_functor with
  | some functor =>
    { impl with
      timer_ := (D.TimerAddTask impl.timer_ timeout functor
        (SendResponsesNeeded D destination_type)).2 }
  | none => impl

/-- The call of `timer_.AddTask` on lines 372 to 379 of `Send`. -/
def SendRegistered (D : ImplCollaborators RT NRT N T) (impl : Impl RT NRT N T)
    (response_functor : Option ResponseFunctor) (timeout : Duration)
    (destination_type : DestinationType) : List ImplCall :=
  match response_functor with
  | some functor =>
    [ImplCall.timer_AddTask timeout functor (SendResponsesNeeded D destination_type)
      (D.TimerAddTask impl.timer_ timeout functor (SendResponsesNeeded D destination_type)).1]
  | none => []

/-- `Routing::Impl::Send` from line 357 on: the message is built, a task is
added when a functor was given, and the message is sent out. -/
def SendAccepted (D : ImplCollaborators RT NRT N T) (impl : Impl RT NRT N T)
    (destination_id group_claim : NodeId) (data : SerialisedData)
    (response_functor : Option ResponseFunctor) (timeout : Duration)
    (destination_type : DestinationType) (cacheable : Bool) :
    Returned (Impl RT NRT N T) Unit :=
  SendOut D (SendState D impl response_functor timeout destination_type)
    (SendRegistered D impl response_functor timeout destination_type)
    (SendMessage D impl destination_id group_claim data
      (SendTaskId D impl response_functor timeout destination_type) destination_type cacheable)
    destination_id

/-- `Routing::Impl::Send`. -/
def Send (D : ImplCollaborators RT NRT N T) (impl : Impl RT NRT N T)
    (destination_id group_claim : NodeId) (data : SerialisedData)
    (response_functor : Option ResponseFunctor) (timeout : Duration)
    (destination_type : DestinationType) (cacheable : Bool) :
    Returned (Impl RT NRT N T) Unit :=
  if destination_id == 0 then Rejected impl response_functor
  else if data.isEmpty || decide (data.length > D.parameters.max_data_size) then
    Rejected impl response_functor
  else
    SendAccepted D impl destination_id group_claim data response_functor timeout
      destination_type cacheable

/-- The lambda that `Send` hands to `SendToDirect`, run with the transport's
result once the posted task executes. -/
def RunSendSentFunctor (D : ImplCollaborators RT NRT N T) (impl : Impl RT NRT N T)
    (proto_message : ProtoMessage) (result_ok : Bool) : Returned (Impl RT NRT N T) Unit :=
  if !result_ok then
    let impl1 : Impl RT NRT N T :=
      { impl with timer_ := D.TimerCancelTask impl.timer_ (proto_message.id.getD 0) }
    ⟨impl1,
      ImplCall.timer_CancelTask (proto_message.id.getD 0) ::
        NotifyNetworkStatus impl1
          (if impl.kAnonymousNode_ then .kAnonymousSessionEnded
           else .kPartialJoinSessionEnded),
      some ()⟩
  else ⟨impl, [], some ()⟩

/-- The `for` loop of the callback of `GetGroup`: a `NodeId` is built from
each listed id in turn; `none` when a constructor throws. -/
def MakeNodeIds (D : ImplCollaborators RT NRT N T) : List SerialisedData → Option (List NodeId)
  | [] => some []
  | id :: rest =>
    match D.MakeNodeId id with
    | none => none
    | some node_id =>
      match MakeNodeIds D rest with
      | none => none
      | some nodes_id => some (node_id :: nodes_id)

/-- The callback of `Routing::Impl::GetGroup`, run with a vector of responses
on the promise it captured, which is `none` until its value is set: the
promise afterwards, or `none` when the callback throws and sets nothing (a
`NodeId` that cannot be built, a promise that has its value already). -/
def GetGroupCallback (D : ImplCollaborators RT NRT N T) (promise : Option (List NodeId))
    (responses : List SerialisedData) : Option (Option (List NodeId)) :=
  let nodes_id : Option (List NodeId) :=
    match responses with
    | [] => some []
    | first :: _ => MakeNodeIds D (D.ParseGetGroup first)
  match nodes_id, promise with
  | some nodes, none => some (some nodes)
  | _, _ => none

/-- `Routing::Impl::GetGroup`; `promise` names the promise it allocates, whose
future it returns. -/
def GetGroup (D : ImplCollaborators RT NRT N T) (impl : Impl RT NRT N T) (promise : Nat)
    (info_id : NodeId) : Returned (Impl RT NRT N T) Nat :=
  let callback := ResponseFunctor.GetGroupCallback promise
  let added := D.TimerAddTask impl.timer_ D.parameters.default_send_timeout callback 1
  let get_group_message : ProtoMessage :=
    { D.GetGroup info_id impl.kNodeId_ with id := some added.1 }
  ⟨{ impl with timer_ := added.2 },
    [ImplCall.timer_AddTask D.parameters.default_send_timeout callback 1 added.1,
     ImplCall.SendToClosestNode get_group_message],
    some promise⟩

/-- `Routing::Impl::ReBootstrap`. -/
def ReBootstrap (D : ImplCollaborators RT NRT N T) (impl : Impl RT NRT N T) :
    Returned (Impl RT NRT N T) Unit :=
  if !impl.running_ then ⟨impl, [], some ()⟩
  else
    ⟨{ impl with
        re_bootstrap_timer_ := some (D.parameters.re_bootstrap_time_lag, .DoReBootstrap) },
      [ImplCall.arm .re_bootstrap_timer_ D.parameters.re_bootstrap_time_lag .DoReBootstrap],
      some ()⟩

/-- `Routing::Impl::FindClosestNode` from line 229 on: the find request goes to
the bootstrap connection and the setup timer is armed for the next attempt. -/
def SendFindClosestNode (D : ImplCollaborators RT NRT N T) (impl : Impl RT NRT N T)
    (before : List ImplCall) (attempts : Nat) : Returned (Impl RT NRT N T) Unit :=
  let find_node_rpc := D.FindNodes impl.kNodeId_ impl.kNodeId_ 1 true
    (D.this_node_relay_connection_id impl.network_)
  let sent := ImplCall.SendToDirect find_node_rpc (D.bootstrap_connection_id impl.network_)
    (.FindClosestNode find_node_rpc)
  if !impl.running_ then ⟨impl, before ++ [sent], some ()⟩
  else
    ⟨{ impl with
        setup_timer_ :=
          some (D.parameters.find_close_node_interval, .FindClosestNode (attempts + 1)) },
      before ++ [sent,
        ImplCall.arm .setup_timer_ D.parameters.find_close_node_interval
          (.FindClosestNode (attempts + 1))],
      some ()⟩

/-- `Routing::Impl::FindClosestNode`. -/
def FindClosestNode (D : ImplCollaborators RT NRT N T) (impl : Impl RT NRT N T)
    (error_code : ErrorCode) (attempts : Nat) : Returned (Impl RT NRT N T) Unit :=
  if !impl.running_ then ⟨impl, [], some ()⟩
  else if error_code = .operation_aborted then ⟨impl, [], some ()⟩
  else if !D.NDEBUG && impl.kAnonymousNode_ then ⟨impl, [], none⟩
  else if attempts = 0 then
    if !D.NDEBUG && (D.bootstrap_connection_id impl.network_ == 0
        || D.this_node_relay_connection_id impl.network_ == 0) then
      ⟨impl, [], none⟩
    else SendFindClosestNode D impl [] attempts
  else if D.size impl.routing_table_ > 0 then
    if !impl.running_ then ⟨impl, [], some ()⟩
    else
      ⟨{ impl with
          recovery_timer_ :=
            some (D.parameters.find_node_interval, .ReSendFindNodeRequest false) },
        [ImplCall.arm .recovery_timer_ D.parameters.find_node_interval
          (.ReSendFindNodeRequest false)],
        some ()⟩
  else if attempts ≥ D.parameters.maximum_find_close_node_failures then
    let scheduled := ReBootstrap D impl
    SendFindClosestNode D scheduled.state scheduled.trace attempts
  else SendFindClosestNode D impl [] attempts

/-- `Routing::Impl::DoBootstrap`: the value is the `int` it returns. -/
def DoBootstrap (D : ImplCollaborators RT NRT N T) (impl : Impl RT NRT N T)
    (endpoints : List Endpoint) : Returned (Impl RT NRT N T) ReturnCode :=
  if !D.NDEBUG && !(D.size impl.routing_table_ == 0) then ⟨impl, [], none⟩
  else
    let cancelled : Impl RT NRT N T :=
      { impl with recovery_timer_ := none, setup_timer_ := none }
    let cancels := [ImplCall.cancel .recovery_timer_, ImplCall.cancel .setup_timer_]
    if !impl.running_ then ⟨cancelled, cancels, some .kNetworkShuttingDown⟩
    else if D.bootstrap_connection_id impl.network_ != 0 then
      let cleared := D.clear_bootstrap_connection_info
        (D.Remove impl.network_ (D.bootstrap_connection_id impl.network_))
      let started := D.Bootstrap cleared endpoints
      ⟨{ cancelled with network_ := started.2 },
        cancels ++ [ImplCall.network_Remove (D.bootstrap_connection_id impl.network_),
          ImplCall.clear_bootstrap_connection_info, ImplCall.Bootstrap endpoints],
        some started.1⟩
    else
      let started := D.Bootstrap impl.network_ endpoints
      ⟨{ cancelled with network_ := started.2 }, cancels ++ [ImplCall.Bootstrap endpoints],
        some started.1⟩

/-- `Routing::Impl::DoJoin`. -/
def DoJoin (D : ImplCollaborators RT NRT N T) (impl : Impl RT NRT N T)
    (endpoints : List Endpoint) : Returned (Impl RT NRT N T) Unit :=
  let bootstrapped := DoBootstrap D impl endpoints
  match bootstrapped.value with
  | none => ⟨bootstrapped.state, bootstrapped.trace, none⟩
  | some return_value =>
    if ReturnCode.kSuccess ≠ return_value then
      ⟨bootstrapped.state,
        bootstrapped.trace ++ NotifyNetworkStatus bootstrapped.state return_value, some ()⟩
    else if !D.NDEBUG && D.bootstrap_connection_id bootstrapped.state.network_ == 0 then
      ⟨bootstrapped.state, bootstrapped.trace, none⟩
    else if impl.kAnonymousNode_ then
      ⟨bootstrapped.state,
        bootstrapped.trace ++ NotifyNetworkStatus bootstrapped.state return_value, some ()⟩
    else
      let found := FindClosestNode D bootstrapped.state .success 0
      match found.value with
      | none => ⟨found.state, bootstrapped.trace ++ found.trace, none⟩
      | some _ =>
        ⟨found.state,
          bootstrapped.trace ++ found.trace ++ NotifyNetworkStatus found.state return_value,
          some ()⟩

/-- `Routing::Impl::ConnectFunctors`. -/
def ConnectFunctors (impl : Impl RT NRT N T) (functors : Functors) :
    Impl RT NRT N T × List ImplCall :=
  ({ impl with functors_ := functors },
    [ImplCall.InitialiseFunctors,
     ImplCall.set_message_received_functor functors.message_received,
     ImplCall.set_request_public_key_functor functors.request_public_key,
     ImplCall.set_new_bootstrap_endpoint_functor functors.new_bootstrap_endpoint])

/-- The `for` loop of `BootstrapFromTheseEndpoints`, with the 16-bit counter
`i`: as long as `i < routing_table_.size()` the node closest to this node is
removed from the network and dropped from the table. `rounds` bounds the
number of rounds looked at. -/
def DropClosestNodes (D : ImplCollaborators RT NRT N T) :
    Nat → Nat → Impl RT NRT N T → List ImplCall → Impl RT NRT N T × List ImplCall
  | 0, _, impl, calls => (impl, calls)
  | rounds + 1, i, impl, calls =>
    if i < D.size impl.routing_table_ then
      let remove_node := D.GetClosestNode impl.routing_table_ impl.kNodeId_
      DropClosestNodes D rounds ((i + 1) % 2 ^ 16)
        { impl with
          network_ := D.Remove impl.network_ remove_node.connection_id
          routing_table_ := (D.DropNode impl.routing_table_ remove_node.node_id true).2 }
        (calls ++ [ImplCall.network_Remove remove_node.connection_id,
          ImplCall.DropNode remove_node.node_id])
    else (impl, calls)

/-- `Routing::Impl::BootstrapFromTheseEndpoints`. The loop is followed for at
most `2 ^ 16` rounds, the number of values of its counter. -/
def BootstrapFromTheseEndpoints (D : ImplCollaborators RT NRT N T) (impl : Impl RT NRT N T)
    (endpoints : List Endpoint) : Returned (Impl RT NRT N T) Unit :=
  if D.size impl.routing_table_ > 0 then
    let dropped := DropClosestNodes D (2 ^ 16) 0 impl []
    let notified := dropped.2 ++ NotifyNetworkStatus dropped.1
      (.other (D.size dropped.1.routing_table_))
    let joined := DoJoin D dropped.1 endpoints
    ⟨joined.state, notified ++ joined.trace, joined.value⟩
  else DoJoin D impl endpoints

/-- `Routing::Impl::Join`. -/
def Join (D : ImplCollaborators RT NRT N T) (impl : Impl RT NRT N T) (functors : Functors)
    (peer_endpoints : List Endpoint) : Returned (Impl RT NRT N T) Unit :=
  let connected := ConnectFunctors impl functors
  let joined :=
    if !peer_endpoints.isEmpty then BootstrapFromTheseEndpoints D connected.1 peer_endpoints
    else DoJoin D connected.1 peer_endpoints
  ⟨joined.state, connected.2 ++ joined.trace, joined.value⟩

end Impl

/-! ## `routing_impl.cc`: the posted handlers

The handlers that run from the io service: on a message, on a lost
connection, on a tick of the recovery timer and on a tick of the
re-bootstrap timer. `RunWaitHandler` is the body of a lambda given to
`async_wait`, and `Fire` a tick of a timer: the wait that is pending on it
ends and its handler runs. -/

namespace Impl

variable {RT NRT N T : Type}

/-- `Routing::Impl::DoOnMessageReceived` from line 481 on. -/
def HandleWhileRunning (D : ImplCollaborators RT NRT N T) (impl : Impl RT NRT N T)
    (pb_message : ProtoMessage) : Returned (Impl RT NRT N T) Completion :=
  if !impl.running_ then ⟨impl, [], some .returned⟩
  else ⟨D.HandleMessage impl pb_message, [ImplCall.HandleMessage pb_message], some .returned⟩

/-- `Routing::Impl::DoOnMessageReceived`. The value is how the call ended:
the constructor `NodeId(pb_message.source_id())` may throw. An unset
`source_id` reads as the empty string, an unset boolean as false. -/
def DoOnMessageReceived (D : ImplCollaborators RT NRT N T) (impl : Impl RT NRT N T)
    (message : SerialisedData) : Returned (Impl RT NRT N T) Completion :=
  match D.ParseFromString message with
  | none => ⟨impl, [], some .returned⟩
  | some pb_message =>
    if ((impl.kAnonymousNode_ || !(pb_message.client_node.getD false))
          && pb_message.source_id.isSome)
        || (!(pb_message.direct.getD false) && !(pb_message.request.getD false)) then
      let constructed : Option NodeId :=
        match pb_message.source_id with
        | some id => some id
        | none => D.MakeNodeId []
      match constructed with
      | none => ⟨impl, [], some .threw⟩
      | some source_id =>
        if source_id != 0 then
          HandleWhileRunning D
            { impl with
              random_node_helper_ := D.RandomNodeHelperAdd impl.random_node_helper_ source_id }
            pb_message
        else HandleWhileRunning D impl pb_message
    else HandleWhileRunning D impl pb_message

/-- `Routing::Impl::OnConnectionLost`. -/
def OnConnectionLost (impl : Impl RT NRT N T) (lost_connection_id : NodeId) : List ImplCall :=
  if impl.running_ then [ImplCall.post (.DoOnConnectionLost lost_connection_id)] else []

/-- `Routing::Impl::DoOnConnectionLost` from line 551 on: the recovery timer
is armed when `resend` is set. -/
def ResendAfterLoss (D : ImplCollaborators RT NRT N T) (impl : Impl RT NRT N T)
    (before : List ImplCall) (resend : Bool) : Returned (Impl RT NRT N T) Unit :=
  if resend then
    if !impl.running_ then ⟨impl, before, some ()⟩
    else
      ⟨{ impl with
          recovery_timer_ :=
            some (D.parameters.recovery_time_lag, .ReSendFindNodeRequest true) },
        before ++ [ImplCall.arm .recovery_timer_ D.parameters.recovery_time_lag
          (.ReSendFindNodeRequest true)],
        some ()⟩
  else ⟨impl, before, some ()⟩

/-- `Routing::Impl::DoOnConnectionLost`. Line 534 holds the comment
`TODO(Prakash) cancel all pending tasks` and no statement. -/
def DoOnConnectionLost (D : ImplCollaborators RT NRT N T) (impl : Impl RT NRT N T)
    (lost_connection_id : NodeId) : Returned (Impl RT NRT N T) Unit :=
  if !impl.running_ then ⟨impl, [], some ()⟩
  else
    let resend : Bool :=
      match D.GetNodeInfo impl.routing_table_ lost_connection_id with
      | some dropped_node =>
        D.IsThisNodeInRange impl.routing_table_ dropped_node.node_id
          D.parameters.closest_nodes_size
      | none => false
    let dropped := D.DropNode impl.routing_table_ lost_connection_id true
    let impl1 : Impl RT NRT N T := { impl with routing_table_ := dropped.2 }
    let calls1 := [ImplCall.DropNode lost_connection_id]
    if dropped.1.node_id != 0 then
      ResendAfterLoss D
        { impl1 with
          random_node_helper_ :=
            D.RandomNodeHelperRemove impl.random_node_helper_ dropped.1.node_id }
        calls1 resend
    else
      let dropped_connection := D.DropConnection impl.non_routing_table_ lost_connection_id
      let impl2 : Impl RT NRT N T := { impl1 with non_routing_table_ := dropped_connection.2 }
      let calls2 := calls1 ++ [ImplCall.DropConnection lost_connection_id]
      if dropped_connection.1.node_id != 0 then ResendAfterLoss D impl2 calls2 false
      else if D.bootstrap_connection_id impl.network_ != 0
          && lost_connection_id == D.bootstrap_connection_id impl.network_ then
        if !impl.running_ then ⟨impl2, calls2, some ()⟩
        else
          let impl3 : Impl RT NRT N T :=
            { impl2 with network_ := D.clear_bootstrap_connection_info impl.network_ }
          let calls3 := calls2 ++ [ImplCall.clear_bootstrap_connection_info]
          if impl.kAnonymousNode_ then
            ⟨impl3, calls3 ++ NotifyNetworkStatus impl3 .kAnonymousSessionEnded, some ()⟩
          else if D.size impl3.routing_table_ == 0 then ResendAfterLoss D impl3 calls3 true
          else ResendAfterLoss D impl3 calls3 false
      else ResendAfterLoss D impl2 calls2 false

/-- `Routing::Impl::ReSendFindNodeRequest`. The lambda it gives to
`async_wait` tests the `error_code` of this call, not its own argument. -/
def ReSendFindNodeRequest (D : ImplCollaborators RT NRT N T) (impl : Impl RT NRT N T)
    (error_code : ErrorCode) (ignore_size : Bool) : Returned (Impl RT NRT N T) Unit :=
  if error_code = .operation_aborted then ⟨impl, [], some ()⟩
  else if D.size impl.routing_table_ == 0 then ReBootstrap D impl
  else if ignore_size
      || decide (D.size impl.routing_table_ < D.kThresholdSize impl.routing_table_) then
    let num_nodes_requested : Nat :=
      if ignore_size
          && decide (D.size impl.routing_table_ > D.kThresholdSize impl.routing_table_) then
        D.parameters.closest_nodes_size
      else D.parameters.greedy_fraction
    let find_node_rpc := D.FindNodesDefault impl.kNodeId_ impl.kNodeId_ num_nodes_requested
    if !impl.running_ then ⟨impl, [ImplCall.SendToClosestNode find_node_rpc], some ()⟩
    else
      ⟨{ impl with
          recovery_timer_ :=
            some (D.parameters.find_node_interval, .ReSendFindNodeRequestAgain error_code) },
        [ImplCall.SendToClosestNode find_node_rpc,
         ImplCall.arm .recovery_timer_ D.parameters.find_node_interval
          (.ReSendFindNodeRequestAgain error_code)],
        some ()⟩
  else ⟨impl, [], some ()⟩

/-- `Routing::Impl::DoReBootstrap`. -/
def DoReBootstrap (D : ImplCollaborators RT NRT N T) (impl : Impl RT NRT N T)
    (error_code : ErrorCode) : Returned (Impl RT NRT N T) Unit :=
  if error_code = .operation_aborted then ⟨impl, [], some ()⟩
  else if !impl.running_ then ⟨impl, [], some ()⟩
  else DoJoin D impl []

/-- The body of a lambda given to `async_wait`, run with the error code of
the wait. -/
def RunWaitHandler (D : ImplCollaborators RT NRT N T) (impl : Impl RT NRT N T) :
    WaitHandler → ErrorCode → Returned (Impl RT NRT N T) Unit
  | .ReSendFindNodeRequest ignore_size, error_code =>
    if error_code ≠ .operation_aborted then ReSendFindNodeRequest D impl error_code ignore_size
    else ⟨impl, [], some ()⟩
  | .ReSendFindNodeRequestAgain error_code, error_code_local =>
    if error_code ≠ .operation_aborted then ReSendFindNodeRequest D impl error_code_local false
    else ⟨impl, [], some ()⟩
  | .FindClosestNode attempts, error_code_local =>
    if error_code_local ≠ .operation_aborted then FindClosestNode D impl error_code_local attempts
    else ⟨impl, [], some ()⟩
  | .DoReBootstrap, error_code_local =>
    if error_code_local ≠ .operation_aborted then DoReBootstrap D impl error_code_local
    else ⟨impl, [], some ()⟩

/-- The wait that is pending on a timer. -/
def PendingWait (impl : Impl RT NRT N T) : TimerName → Option (Duration × WaitHandler)
  | .re_bootstrap_timer_ => impl.re_bootstrap_timer_
  | .recovery_timer_ => impl.recovery_timer_
  | .setup_timer_ => impl.setup_timer_

/-- A tick of a timer: the wait that is pending on it ends with `error_code`
and its handler runs; nothing happens on a timer without a pending wait. -/
def Fire (D : ImplCollaborators RT NRT N T) (impl : Impl RT NRT N T) (timer : TimerName)
    (error_code : ErrorCode) : Returned (Impl RT NRT N T) Unit :=
  match PendingWait impl timer with
  | none => ⟨impl, [], some ()⟩
  | some wait =>
    RunWaitHandler D
      (match timer with
        | .re_bootstrap_timer_ => { impl with re_bootstrap_timer_ := none }
        | .recovery_timer_ => { impl with recovery_timer_ := none }
        | .setup_timer_ => { impl with setup_timer_ := none })
      wait.2 error_code

end Impl

/-! ## Vocabulary of the statements on `Routing::Impl` -/

/-- A transport send: `SendToDirect` or `SendToClosestNode`. -/
def ImplCall.isSend : ImplCall → Bool
  | .SendToDirect _ _ _ => true
  | .SendToClosestNode _ => true
  | _ => false

/-- A local delivery: `DoOnMessageReceived` posted to the io service. -/
def ImplCall.isLocalDelivery : ImplCall → Bool
  | .post (.DoOnMessageReceived _) => true
  | _ => false

/-- A call of `timer_.AddTask`. -/
def ImplCall.isAddTask : ImplCall → Bool
  | .timer_AddTask _ _ _ _ => true
  | _ => false

/-- A call of the network-status functor. -/
def ImplCall.isNetworkStatus : ImplCall → Bool
  | .network_status _ => true
  | _ => false

/-- A call of a response functor. -/
def ImplCall.isResponse : ImplCall → Bool
  | .response_functor _ _ => true
  | _ => false

/-- A wait started on the setup timer or on the recovery timer. -/
def ImplCall.isSetupOrRecoveryArm : ImplCall → Bool
  | .arm .setup_timer_ _ _ => true
  | .arm .recovery_timer_ _ _ => true
  | _ => false

/-- The message of a transport send. -/
def ImplCall.message? : ImplCall → Option ProtoMessage
  | .SendToDirect message _ _ => some message
  | .SendToClosestNode message => some message
  | _ => none

/-! ## A concrete `Routing::Impl`

Modelled from the spec: `network_utils.cc`, `routing_table.cc`, `rpcs.cc`,
`parameters.cc`, the protobuf classes and the `Timer` with `CancelTask` and a
three-argument `AddTask` are not under `src/`. This instance gives the
collaborators the behaviour the specification describes, on one-byte node
ids, with the timer of `timer.cc` underneath. -/

namespace SampleImpl

/-- The state of the network utilities: the two connection ids. -/
structure Network where
  bootstrap_connection_id : NodeId
  this_node_relay_connection_id : NodeId
deriving DecidableEq

/-- Sample values of `Parameters`. -/
def parameters : Parameters where
  max_data_size := 3
  node_group_size := 4
  hops_to_live := 50
  default_send_timeout := 10000
  find_node_interval := 10000
  find_close_node_interval := 3000
  re_bootstrap_time_lag := 10000
  recovery_time_lag := 5000
  maximum_find_close_node_failures := 10
  closest_nodes_size := 8
  greedy_fraction := 16

/-- Sample collaborators: the routing table is the list of its nodes, closest
first; bootstrapping succeeds on the connection `(9, 10)` exactly when an
endpoint is given; a task is added by `Timer::AddTask` of `timer.cc`, which
has no parameter for the number of responses, and cancelled by erasing it; a
`GetGroup` response lists one node id per byte; the threshold size of the
table is 2, a node is in range when it is among the first `range` of the
table, the random-node helper is the list of the ids added, and a received
message is three bytes: destination, source (0 for none) and payload. -/
def collaborators :
    ImplCollaborators (List LegacyNodeInfo) Unit Network (Timer ResponseFunctor) where
  NDEBUG := false
  parameters := parameters
  kNodeLevel := 101
  size := List.length
  client_mode := fun _ => false
  GetClosestNode := fun table _ => table.headD ⟨0, 0, 0⟩
  DropNode := fun table node_id _ =>
    ((table.find? fun node => node.node_id == node_id).getD ⟨0, 0, 0⟩,
      table.eraseP fun node => node.node_id == node_id)
  bootstrap_connection_id := fun network => network.bootstrap_connection_id
  this_node_relay_connection_id := fun network => network.this_node_relay_connection_id
  Remove := fun network _ => network
  clear_bootstrap_connection_info := fun _ => ⟨0, 0⟩
  Bootstrap := fun network endpoints =>
    if endpoints.isEmpty then (.kNotJoined, network) else (.kSuccess, ⟨9, 10⟩)
  TimerAddTask := fun timer timeout functor _ => timer.AddTask timeout (some functor)
  TimerCancelTask := fun timer task_id =>
    { timer with queue_ := Timer.erase timer.queue_ task_id }
  FindNodes := fun node_id this_node_id num_nodes_requested _ relay_connection_id =>
    { ProtoMessage.empty with
      destination_id := some node_id
      routing_message := some true
      data := [[node_id, num_nodes_requested]]
      type := some 3
      request := some true
      relay_id := some this_node_id
      relay_connection_id := some relay_connection_id }
  GetGroup := fun info_id this_node_id =>
    { ProtoMessage.empty with
      destination_id := some info_id
      routing_message := some true
      data := [[info_id]]
      type := some 9
      request := some true
      source_id := some this_node_id }
  SerializeAsString := fun message => message.destination_id.getD 0 :: message.data.flatten
  ParseGetGroup := fun response => response.map fun byte => [byte]
  MakeNodeId := fun id =>
    match id with
    | [byte] => some byte
    | _ => none
  kThresholdSize := fun _ => 2
  FindNodesDefault := fun node_id this_node_id num_nodes_requested =>
    { ProtoMessage.empty with
      destination_id := some node_id
      routing_message := some true
      data := [[node_id, num_nodes_requested]]
      type := some 3
      request := some true
      source_id := some this_node_id }
  GetNodeInfo := fun table connection_id =>
    table.find? fun node => node.connection_id == connection_id
  IsThisNodeInRange := fun table node_id range =>
    ((table.take range).map fun node => node.node_id).contains node_id
  DropConnection := fun table _ => (⟨0, 0, 0⟩, table)
  RandomNodeHelperAdd := fun helper node_id => helper ++ [node_id]
  RandomNodeHelperRemove := fun helper node_id => helper.filter fun held => held != node_id
  ParseFromString := fun message =>
    match message with
    | [destination, source, payload] =>
      some { ProtoMessage.empty with
        destination_id := some destination
        source_id := if source = 0 then none else some source
        data := [[payload]]
        request := some true }
    | _ => none
  HandleMessage := fun impl _ => impl

/-- The functors of a node that listens to the network status. -/
def functors : Functors := ⟨true, true, false, true, false⟩

/-- Node 1, joined, with the nodes 2 and 3 in its routing table. -/
def joined : Impl (List LegacyNodeInfo) Unit Network (Timer ResponseFunctor) where
  network_status_ := .kNotJoined
  routing_table_ := [⟨2, 2, 0⟩, ⟨3, 3, 0⟩]
  kNodeId_ := 1
  kAnonymousNode_ := false
  running_ := true
  functors_ := functors
  random_node_helper_ := []
  non_routing_table_ := ()
  network_ := ⟨9, 10⟩
  timer_ := Timer.construct 41
  re_bootstrap_timer_ := none
  recovery_timer_ := none
  setup_timer_ := none

/-- Node 1 before it has joined: an empty routing table, no bootstrap
connection. -/
def fresh : Impl (List LegacyNodeInfo) Unit Network (Timer ResponseFunctor) :=
  { joined with routing_table_ := [], network_ := ⟨0, 0⟩ }

/-- Node 1, bootstrapped with an empty routing table. -/
def partlyJoined : Impl (List LegacyNodeInfo) Unit Network (Timer ResponseFunctor) :=
  { joined with routing_table_ := [] }

/-- Node 1 with node 2 alone in its routing table. -/
def thin : Impl (List LegacyNodeInfo) Unit Network (Timer ResponseFunctor) :=
  { joined with routing_table_ := [⟨2, 2, 0⟩] }

/-- Node 1 after it was stopped, its routing table as before. -/
def stopped : Impl (List LegacyNodeInfo) Unit Network (Timer ResponseFunctor) :=
  { joined with running_ := false }

/-- Node 1 as an anonymous node, bootstrapped on connection 9 with an empty
routing table and one task pending in its timer. -/
def anonymous : Impl (List LegacyNodeInfo) Unit Network (Timer ResponseFunctor) :=
  { joined with
    routing_table_ := []
    kAnonymousNode_ := true
    timer_ := ⟨42, [(42, 10000, some (.supplied 7))]⟩ }

end SampleImpl

/-! ## `tests/old/routing_table_func_test.cc`

`RoutingTableInfo::GetGroup` of the test. `std::partial_sort` and `std::sort`
are taken as the insertion sort by the comparator they are given: for
`std::partial_sort` the order it leaves behind the sorted part is unspecified
and is not read by `GetGroup`. -/

/-- Insertion of `entry` in front of the first member it is `closer` than. -/
def SortedInsert {α : Type} (closer : α → α → Bool) (entry : α) : List α → List α
  | [] => [entry]
  | head :: tail =>
    if closer entry head then entry :: head :: tail
    else head :: SortedInsert closer entry tail

/-- The call `std::sort(begin, end, closer)`. -/
def StdSort {α : Type} (closer : α → α → Bool) (range : List α) : List α :=
  range.foldr (SortedInsert closer) []

/-- The call `std::partial_sort(begin, begin + middle, end, closer)`: the
first `middle` members are the least of the range, in order. -/
def StdPartialSort {α : Type} (closer : α → α → Bool) (middle : Nat) (range : List α) :
    List α :=
  (StdSort closer range).take middle ++ (StdSort closer range).drop middle

/-- The struct `RoutingTableInfo` of the test, as far as `GetGroup` reads it:
`routing_table->nodes_` and `routing_table->kAddress()`. -/
structure RoutingTableInfo where
  nodes_ : List NodeInfo
  kAddress : Address
deriving DecidableEq

/-- `RoutingTableInfo::GetGroup(target)` with `Parameters::group_size` as a
parameter: the group returned and the table, which `std::partial_sort` has
reordered. `none` when the table holds fewer than `group_size` nodes, where
`begin + group_size` is past the end. -/
def RoutingTableInfo.GetGroup (group_size : Nat) (info : RoutingTableInfo) (target : Address) :
    Option (List Address × RoutingTableInfo) :=
  if info.nodes_.length < group_size then none
  else
    let nodes := StdPartialSort (fun lhs rhs => CloserToTarget lhs.id rhs.id target)
      group_size info.nodes_
    let group_ids := (nodes.take group_size).map (fun node => node.id) ++ [info.kAddress]
    let sorted := StdSort (fun lhs rhs => CloserToTarget lhs rhs target) group_ids
    some (sorted.take group_size, { info with nodes_ := nodes })

/-- A routing table that holds every address of `network` but the node's
own, in the order of `network`. -/
def RoutingTableInfo.complete (network : List Address) (address : Address) :
    RoutingTableInfo :=
  ⟨(network.filter fun other => other != address).map fun other => ⟨other, ⟨other, 0⟩⟩,
    address⟩

/-! ## Vocabulary of the statements on the codec -/

namespace Wire

/-- An optional member fits when it is absent or its value fits. -/
def fitsOption {α : Type} (fits : α → Bool) : Option α → Bool
  | none => true
  | some value => fits value

/-- An endpoint fits the wire format: four address bytes, two port bytes. -/
def fitsEndpoint (endpoint : Endpoint) : Bool :=
  decide (endpoint.address < 256 ^ 4) && decide (endpoint.port < 256 ^ 2)

/-- Both endpoints of a pair fit. -/
def fitsEndpointPair (pair : EndpointPair) : Bool :=
  fitsEndpoint pair.local_endpoint && fitsEndpoint pair.external_endpoint

/-- A peer entry fits: addresses of `width` bytes, a key of four bytes. -/
def fitsNodeInfo (width : Nat) (info : NodeInfo) : Bool :=
  decide (info.id < 256 ^ width) && decide (info.dht_fob.name < 256 ^ width)
    && decide (info.dht_fob.public_key < 256 ^ 4)

/-- A header fits: addresses of `width` bytes, a message id of eight bytes,
a signature whose length fits four bytes. -/
def fitsHeader (width : Nat) (header : MessageHeader) : Bool :=
  decide (header.destination.1 < 256 ^ width)
    && fitsOption (fun reply => decide (reply < 256 ^ width)) header.destination.2
    && decide (header.source.1 < 256 ^ width)
    && fitsOption
        (fun group_reply : Option Address × Option Address =>
          fitsOption (fun group => decide (group < 256 ^ width)) group_reply.1
            && fitsOption (fun reply => decide (reply < 256 ^ width)) group_reply.2)
        header.source.2
    && decide (header.message_id < 256 ^ 8)
    && fitsOption (fun signature : List Nat => decide (signature.length < 256 ^ 4))
        header.signature

/-- A tag fits: one of the nine named tags, or a byte that names none. -/
def fitsTag : MessageTypeTag → Bool
  | .Unknown value => decide (value < 256) && (decide (value = 0) || decide (9 < value))
  | _ => true

/-- A `FindGroupResponse` fits: endpoints and addresses as above, and a list
of peer entries whose length fits four bytes. -/
def fitsFindGroupResponse (width : Nat) (message : FindGroupResponse) : Bool :=
  fitsEndpointPair message.requester_endpoints
    && fitsEndpointPair message.receiver_endpoints
    && decide (message.requester_id < 256 ^ width)
    && decide (message.receiver_id < 256 ^ width)
    && decide (message.public_fobs.length < 256 ^ 4)
    && message.public_fobs.all (fitsNodeInfo width)

end Wire

/-! ## The pending-task registry of the specification

Modelled from the spec: the `Timer` that `routing_impl.cc` calls, with
`AddTask(timeout, functor, responses_needed)` and `CancelTask`, is not under
`src/`; `timer.cc` holds a `Timer` whose `AddTask` takes a timeout and a
functor only and whose every task waits for one response. The registry
below follows section 4.4 of the specification. -/

namespace PendingTasks

variable {Φ : Type}

end PendingTasks

/-! # Theorems -/

/-! ## Lemmas on the handlers -/

/-- The `FindGroupResponse` handler changes nothing and makes no call, whatever
the entries. -/
theorem HandleMessage_FindGroupResponse_eq (D : Collaborators F C CM) (node : RoutingNode F C CM)
    (m : FindGroupResponse) (h : MessageHeader) :
    HandleMessage_FindGroupResponse D node m h = ⟨node, [], .returned⟩ := by
  unfold HandleMessage_FindGroupResponse
  generalize m.public_fobs = entries
  generalize (⟨node, [], .returned⟩ : Outcome (RoutingNode F C CM)) = start
  induction entries generalizing start with
  | nil => rfl
  | cons entry rest ih => rw [List.foldl_cons, ite_self]; exact ih start

/-- The `Connect` handler leaves the filter and the cache alone. -/
theorem HandleMessage_Connect_filter (D : Collaborators F C CM) (node : RoutingNode F C CM)
    (m : Connect) (h : MessageHeader) :
    (HandleMessage_Connect D node m h).state.filter_ = node.filter_ ∧
    (HandleMessage_Connect D node m h).state.cache_ = node.cache_ := by
  unfold HandleMessage_Connect
  split
  · exact ⟨rfl, rfl⟩
  · split
    · exact ⟨rfl, rfl⟩
    · dsimp only
      split <;> exact ⟨rfl, rfl⟩

/-- The `ConnectResponse` handler leaves the filter and the cache alone. -/
theorem HandleMessage_ConnectResponse_filter (D : Collaborators F C CM) (t : Address)
    (node : RoutingNode F C CM) (m : ConnectResponse) (h : MessageHeader) :
    (HandleMessage_ConnectResponse D t node m h).state.filter_ = node.filter_ ∧
    (HandleMessage_ConnectResponse D t node m h).state.cache_ = node.cache_ := by
  unfold HandleMessage_ConnectResponse
  split
  · exact ⟨rfl, rfl⟩
  · dsimp only
    split <;> exact ⟨rfl, rfl⟩

/-- No handler reached through the `switch` touches the filter or the cache. -/
theorem Dispatch_filter (D : Collaborators F C CM) (t : Address) (node : RoutingNode F C CM)
    (tag : MessageTypeTag) (stream : InputVectorStream) (h : MessageHeader) :
    (Dispatch D t node tag stream h).state.filter_ = node.filter_ ∧
    (Dispatch D t node tag stream h).state.cache_ = node.cache_ := by
  unfold Dispatch
  split
  all_goals first
    | exact ⟨rfl, rfl⟩
    | (split
       · exact ⟨rfl, rfl⟩
       · first
          | exact ⟨rfl, rfl⟩
          | exact HandleMessage_Connect_filter D node _ h
          | exact HandleMessage_ConnectResponse_filter D t node _ h
          | (rw [HandleMessage_FindGroupResponse_eq]; exact ⟨rfl, rfl⟩))

/-- Forwarding and dispatch leave the filter and the cache alone. -/
theorem ForwardAndDispatch_filter (D : Collaborators F C CM) (t : Address)
    (node : RoutingNode F C CM) (before : List Event) (h : MessageHeader) (tag : MessageTypeTag)
    (stream : InputVectorStream) (msg : SerialisedMessage) :
    (ForwardAndDispatch D t node before h tag stream msg).state.filter_ = node.filter_ ∧
    (ForwardAndDispatch D t node before h tag stream msg).state.cache_ = node.cache_ := by
  unfold ForwardAndDispatch
  dsimp only
  split
  · exact ⟨rfl, rfl⟩
  · exact Dispatch_filter D t node tag stream h

/-- The trace of forwarding and dispatch: what came before, one send per target,
then the dispatch when the destination is in close-group range. -/
theorem ForwardAndDispatch_trace (D : Collaborators F C CM) (t : Address)
    (node : RoutingNode F C CM) (before : List Event) (h : MessageHeader) (tag : MessageTypeTag)
    (stream : InputVectorStream) (msg : SerialisedMessage) :
    (ForwardAndDispatch D t node before h tag stream msg).trace =
      before ++ Forward D node h msg ++
        (if D.AddressInCloseGroupRange node.connection_manager_ h.destination.1 then
          (Dispatch D t node tag stream h).trace else []) := by
  unfold ForwardAndDispatch
  dsimp only
  cases D.AddressInCloseGroupRange node.connection_manager_ h.destination.1 <;> simp

/-- A first-seen frame ends with its filter value added, and that addition is the
first call. -/
theorem MessageReceived_filter (D : Collaborators F C CM) (t : Address)
    (node : RoutingNode F C CM) (msg : SerialisedMessage) (h : MessageHeader)
    (tag : MessageTypeTag) (stream : InputVectorStream)
    (parsed : D.ParseHeaderTag msg = some ((h, tag), stream))
    (unseen : D.Check node.filter_ (D.FilterValue h) = false) :
    (MessageReceived D t node msg).state.filter_ = D.Add node.filter_ (D.FilterValue h) ∧
    ∃ later, (MessageReceived D t node msg).trace = Event.filterAdd (D.FilterValue h) :: later := by
  have forwarded : ∀ (state : RoutingNode F C CM) (calls : List Event) (rest : InputVectorStream),
      state.filter_ = D.Add node.filter_ (D.FilterValue h) →
      (ForwardAndDispatch D t state (Event.filterAdd (D.FilterValue h) :: calls) h tag rest
          msg).state.filter_ = D.Add node.filter_ (D.FilterValue h) ∧
      ∃ later, (ForwardAndDispatch D t state (Event.filterAdd (D.FilterValue h) :: calls) h tag
          rest msg).trace = Event.filterAdd (D.FilterValue h) :: later := by
    intro state calls rest kept
    refine ⟨((ForwardAndDispatch_filter ..).1).trans kept, ?_⟩
    rw [ForwardAndDispatch_trace]
    simp only [List.cons_append, List.append_assoc]
    exact ⟨_, rfl⟩
  unfold MessageReceived
  simp only [parsed, unseen, Bool.false_eq_true, if_false]
  split
  · split
    · exact ⟨rfl, _, rfl⟩
    · exact forwarded _ _ _ rfl
  · split
    · split
      · exact ⟨rfl, _, rfl⟩
      · split
        · exact ⟨rfl, _, rfl⟩
        · exact forwarded _ _ _ rfl
    · exact forwarded _ _ _ rfl

/-- Dispatching a `GetDataResponse` leaves the node as it was. -/
theorem Dispatch_GetDataResponse_state (D : Collaborators F C CM) (t : Address)
    (node : RoutingNode F C CM) (stream : InputVectorStream) (h : MessageHeader) :
    (Dispatch D t node .GetDataResponse stream h).state = node := by
  unfold Dispatch
  dsimp only
  split <;> rfl

/-- When the body parses at dispatch, the dispatch begins with the entry into the
overload for that body. -/
theorem Dispatch_trace_some (D : Collaborators F C CM) (t : Address)
    (node : RoutingNode F C CM) (tag : MessageTypeTag) (stream : InputVectorStream)
    (h : MessageHeader) (body : Message) (ok : ParseBody D tag stream = some body) :
    ∃ effects, (Dispatch D t node tag stream h).trace = Event.handleMessage body h :: effects := by
  cases tag <;> simp only [ParseBody, Option.map_eq_some', reduceCtorEq] at ok
  all_goals
    obtain ⟨parsed, found, rfl⟩ := ok
    obtain ⟨m, rest⟩ := parsed
    simp only [Dispatch, found, Invoke]
    exact ⟨_, rfl⟩

/-- When the body does not parse at dispatch, or the tag is unknown, no overload
is entered. -/
theorem Dispatch_trace_none (D : Collaborators F C CM) (t : Address)
    (node : RoutingNode F C CM) (tag : MessageTypeTag) (stream : InputVectorStream)
    (h : MessageHeader) (bad : ParseBody D tag stream = none) :
    ∀ call ∈ (Dispatch D t node tag stream h).trace, call.isHandleMessage = false := by
  cases tag <;> simp only [ParseBody, Option.map_eq_none'] at bad
  all_goals simp [Dispatch, bad, Event.isHandleMessage]

/-- The blocking sends complete no pending task. -/
theorem SendBlocking_no_task (D : Collaborators F C CM) (message : SerialisedMessage)
    (targets : List NodeInfo) :
    ∀ call ∈ (SendBlocking D message targets).1, call.isTaskCompletion = false := by
  induction targets with
  | nil => simp [SendBlocking]
  | cons head tail ih =>
    unfold SendBlocking
    split
    · simp [Event.isTaskCompletion]
    · simpa [Event.isTaskCompletion] using ih

/-- The `Connect` handler completes no pending task. -/
theorem HandleMessage_Connect_no_task (D : Collaborators F C CM) (node : RoutingNode F C CM)
    (m : Connect) (h : MessageHeader) :
    ∀ call ∈ (HandleMessage_Connect D node m h).trace, call.isTaskCompletion = false := by
  unfold HandleMessage_Connect
  split
  · simp
  · split
    · simp
    · dsimp only
      split
      · simp only [List.mem_append, List.mem_map, List.mem_cons, List.not_mem_nil, or_false]
        rintro call ((⟨peer, _, rfl⟩ | rfl | rfl) | rfl) <;> rfl
      · simp only [List.mem_append, List.mem_map, List.mem_cons, List.not_mem_nil, or_false]
        rintro call (⟨peer, _, rfl⟩ | rfl | rfl) <;> rfl

/-- The `ConnectResponse` handler completes no pending task. -/
theorem HandleMessage_ConnectResponse_no_task (D : Collaborators F C CM) (t : Address)
    (node : RoutingNode F C CM) (m : ConnectResponse) (h : MessageHeader) :
    ∀ call ∈ (HandleMessage_ConnectResponse D t node m h).trace,
      call.isTaskCompletion = false := by
  unfold HandleMessage_ConnectResponse
  split
  · simp
  · dsimp only
    split
    · simp only [List.mem_cons, List.not_mem_nil, or_false]
      rintro call (rfl | rfl) <;> rfl
    · simp only [List.mem_cons, List.not_mem_nil, or_false]
      rintro call rfl
      rfl

/-- Entering an overload adds no task completion. -/
theorem Invoke_no_task (body : Message) (h : MessageHeader)
    (handled : Outcome (RoutingNode F C CM))
    (quiet : ∀ call ∈ handled.trace, call.isTaskCompletion = false) :
    ∀ call ∈ (Invoke body h handled).trace, call.isTaskCompletion = false := by
  intro call found
  simp only [Invoke, List.mem_cons] at found
  rcases found with rfl | later
  · rfl
  · exact quiet call later

/-- No handler reached through the `switch` completes a pending task. -/
theorem Dispatch_no_task (D : Collaborators F C CM) (t : Address) (node : RoutingNode F C CM)
    (tag : MessageTypeTag) (stream : InputVectorStream) (h : MessageHeader) :
    ∀ call ∈ (Dispatch D t node tag stream h).trace, call.isTaskCompletion = false := by
  have nothing : ∀ call ∈ ([] : List Event), call.isTaskCompletion = false := by simp
  cases tag <;> simp only [Dispatch]
  case Unknown value => simp [Event.isTaskCompletion]
  all_goals split
  all_goals first
    | exact nothing
    | exact Invoke_no_task _ _ _ (HandleMessage_Connect_no_task D node _ h)
    | exact Invoke_no_task _ _ _ (HandleMessage_ConnectResponse_no_task D t node _ h)
    | exact Invoke_no_task _ _ _ (SendBlocking_no_task D _ _)
    | (rw [HandleMessage_FindGroupResponse_eq]; exact Invoke_no_task _ _ _ nothing)
    | exact Invoke_no_task _ _ _ nothing

/-- No run of `MessageReceived` completes a pending task: `RoutingNode` has no
pending-task registry. -/
theorem MessageReceived_no_task (D : Collaborators F C CM) (t : Address)
    (node : RoutingNode F C CM) (msg : SerialisedMessage) :
    ∀ call ∈ (MessageReceived D t node msg).trace, call.isTaskCompletion = false := by
  have forwarded : ∀ (state : RoutingNode F C CM) (calls : List Event) (h : MessageHeader)
      (tag : MessageTypeTag) (rest : InputVectorStream),
      (∀ call ∈ calls, call.isTaskCompletion = false) →
      ∀ call ∈ (ForwardAndDispatch D t state calls h tag rest msg).trace,
        call.isTaskCompletion = false := by
    intro state calls h tag rest quiet call found
    rw [ForwardAndDispatch_trace, List.mem_append, List.mem_append] at found
    rcases found with (early | sent) | handled
    · exact quiet call early
    · simp only [Forward, List.mem_map] at sent
      obtain ⟨peer, _, rfl⟩ := sent
      rfl
    · split at handled
      · exact Dispatch_no_task D t state tag rest h call handled
      · simp at handled
  unfold MessageReceived
  split
  · simp [Event.isTaskCompletion]
  · split
    · simp
    · dsimp only
      split
      · split
        · simp [Event.isTaskCompletion]
        · exact forwarded _ _ _ _ _ (by simp [Event.isTaskCompletion])
      · split
        · split
          · simp [Event.isTaskCompletion]
          · split
            · simp [Event.isTaskCompletion]
            · exact forwarded _ _ _ _ _ (by simp [Event.isTaskCompletion])
        · exact forwarded _ _ _ _ _ (by simp [Event.isTaskCompletion])

/-! ## The claims on `RoutingNode` -/

/-- Claim C1 (at-most-once processing). For every filter state and every frame
whose header parses: if `filter_.Check(header.FilterValue())` is true,
`MessageReceived` returns with the node unchanged and no call made (no send,
no cache update, no handler, filter unchanged); otherwise the first call is
`filter_.Add` of the filter value and the filter ends as that addition. Hence,
for a filter that remembers what was added, a second delivery of the same
frame right after the first makes no call and changes nothing. -/
theorem C1_at_most_once (D : Collaborators F C CM) (target : Address)
    (node : RoutingNode F C CM) (serialised_message : SerialisedMessage)
    (header : MessageHeader) (tag : MessageTypeTag) (stream : InputVectorStream)
    (parsed : D.ParseHeaderTag serialised_message = some ((header, tag), stream)) :
    (D.Check node.filter_ (D.FilterValue header) = true →
      MessageReceived D target node serialised_message = ⟨node, [], .returned⟩) ∧
    (D.Check node.filter_ (D.FilterValue header) = false →
      (∃ later, (MessageReceived D target node serialised_message).trace =
        Event.filterAdd (D.FilterValue header) :: later) ∧
      (MessageReceived D target node serialised_message).state.filter_ =
        D.Add node.filter_ (D.FilterValue header)) ∧
    ((∀ filter value, D.Check (D.Add filter value) value = true) →
      MessageReceived D target (MessageReceived D target node serialised_message).state
          serialised_message =
        ⟨(MessageReceived D target node serialised_message).state, [], .returned⟩) := by
  have dropped : ∀ state : RoutingNode F C CM,
      D.Check state.filter_ (D.FilterValue header) = true →
      MessageReceived D target state serialised_message = ⟨state, [], .returned⟩ := by
    intro state seen
    unfold MessageReceived
    simp only [parsed, seen, if_true]
  refine ⟨dropped node, ?_, ?_⟩
  · intro unseen
    have := MessageReceived_filter D target node serialised_message header tag stream parsed unseen
    exact ⟨this.2, this.1⟩
  · intro remembers
    apply dropped
    cases seen : D.Check node.filter_ (D.FilterValue header)
    · rw [(MessageReceived_filter D target node serialised_message header tag stream parsed
        seen).1]
      exact remembers _ _
    · rw [dropped node seen]
      exact seen

/-- Claim C1 at a `Connect` frame delivered twice to the sample node: the first
delivery makes calls, the second makes none. -/
theorem C1_at_most_once_witness :
    Sample.collaborators.ParseHeaderTag Sample.connect_frame =
      some ((Sample.header 9 5 8, .Connect), Wire.putBody 1 (.Connect Sample.connect)) ∧
    (MessageReceived Sample.collaborators 9 Sample.node Sample.connect_frame).trace ≠ [] ∧
    MessageReceived Sample.collaborators 9
        (MessageReceived Sample.collaborators 9 Sample.node Sample.connect_frame).state
        Sample.connect_frame =
      ⟨(MessageReceived Sample.collaborators 9 Sample.node Sample.connect_frame).state, [],
        .returned⟩ :=
  ⟨rfl, by decide,
    (C1_at_most_once Sample.collaborators 9 Sample.node Sample.connect_frame _ _ _ rfl).2.2
      (fun filter value => by simp [Sample.collaborators])⟩

/-- Claim C2 fails on the code. Only the `Parse` of header and tag is inside
`try`. For a first-seen frame with the tag `Connect` whose destination is in
close-group range and whose body does not parse, the frame is forwarded to
every peer of `GetTarget(destination)` and then the `Parse<Connect>` of the
`switch` throws: `MessageReceived` ends by exception after having sent. -/
theorem C2_body_parse_failure_leaves_the_function (D : Collaborators F C CM) (target : Address)
    (node : RoutingNode F C CM) (serialised_message : SerialisedMessage)
    (header : MessageHeader) (stream : InputVectorStream)
    (parsed : D.ParseHeaderTag serialised_message = some ((header, .Connect), stream))
    (unseen : D.Check node.filter_ (D.FilterValue header) = false)
    (in_range : D.AddressInCloseGroupRange node.connection_manager_ header.destination.1 = true)
    (bad_body : D.ParseConnect stream = none) :
    (MessageReceived D target node serialised_message).completion = .threw ∧
    (MessageReceived D target node serialised_message).trace =
      Event.filterAdd (D.FilterValue header) ::
        (D.GetTarget node.connection_manager_ header.destination.1).map
          (fun peer => Event.rudpSend peer.id serialised_message) := by
  unfold MessageReceived
  simp only [parsed, unseen, Bool.false_eq_true, if_false, reduceCtorEq]
  unfold ForwardAndDispatch
  simp only [in_range, Bool.not_true, Bool.false_eq_true, if_false, Dispatch, bad_body, Forward,
    List.append_nil, List.cons_append, List.nil_append, and_self]

/-- Claim C2 at the failing input: the frame `truncated_connect_frame` has a
header that parses, the tag `Connect` and no body. Delivered to the sample
node it is sent on to the peers 3 and 2 and the call ends by exception. A
frame that ends after the tag `GetDataResponse` throws before anything is
sent. -/
theorem C2_body_parse_failure_leaves_the_function_witness :
    Sample.truncated_connect_frame = [5, 0, 9, 0, 8, 0, 0, 0, 0, 0, 0, 0, 0, 1] ∧
    Sample.collaborators.ParseHeaderTag Sample.truncated_connect_frame =
      some ((Sample.header 9 5 8, .Connect), []) ∧
    Sample.collaborators.ParseConnect [] = none ∧
    (MessageReceived Sample.collaborators 9 Sample.node Sample.truncated_connect_frame).completion
      = .threw ∧
    (MessageReceived Sample.collaborators 9 Sample.node Sample.truncated_connect_frame).trace
      = [Event.filterAdd (9, 8),
         Event.rudpSend 3 [5, 0, 9, 0, 8, 0, 0, 0, 0, 0, 0, 0, 0, 1],
         Event.rudpSend 2 [5, 0, 9, 0, 8, 0, 0, 0, 0, 0, 0, 0, 0, 1]] ∧
    (MessageReceived Sample.collaborators 9 Sample.node
      [5, 0, 9, 0, 8, 0, 0, 0, 0, 0, 0, 0, 0, 6]).completion = .threw ∧
    (MessageReceived Sample.collaborators 9 Sample.node
      [5, 0, 9, 0, 8, 0, 0, 0, 0, 0, 0, 0, 0, 6]).trace = [Event.filterAdd (9, 8)] :=
  have thrown := C2_body_parse_failure_leaves_the_function Sample.collaborators 9 Sample.node
    Sample.truncated_connect_frame (Sample.header 9 5 8) [] rfl rfl rfl rfl
  ⟨rfl, rfl, rfl, thrown.1, thrown.2, rfl, rfl⟩

/-- Claim C3 fails on the code. Let a first-seen `GetDataResponse` frame with
key `key` and value `value` be processed, and let a first-seen `GetData`
frame for `key` arrive next while the entry is fresh (`cache_.Get` after
`cache_.Add` finds the value). The second delivery adds to the filter, sends
`Serialise(CreateReplyHeader(header), GetDataResponse, (key, value))`, whose
header has the request's message id and return destination, and returns:
nothing is forwarded and no handler is entered. But the peers it sends to
are `GetTarget` of the source address read from `header` after
`std::move(header)` has handed the header to `CreateReplyHeader`: the
targets are those of whatever the moved-from header holds, not those of the
source node address of the request. -/
theorem C3_reply_targets_read_the_moved_header (D : Collaborators F C CM) (target : Address)
    (node : RoutingNode F C CM) (response_frame request_frame : SerialisedMessage)
    (response_header request_header : MessageHeader)
    (response_stream response_rest request_stream request_rest : InputVectorStream)
    (key : Address) (value : SerialisedData)
    (response_parsed : D.ParseHeaderTag response_frame =
      some ((response_header, .GetDataResponse), response_stream))
    (response_body : D.ParseGetDataResponse response_stream = some (⟨key, value⟩, response_rest))
    (response_unseen : D.Check node.filter_ (D.FilterValue response_header) = false)
    (request_parsed : D.ParseHeaderTag request_frame =
      some ((request_header, .GetData), request_stream))
    (request_body : D.ParseGetData request_stream = some (⟨key⟩, request_rest))
    (request_unseen : D.Check (MessageReceived D target node response_frame).state.filter_
      (D.FilterValue request_header) = false)
    (fresh : ∀ cache, (D.CacheGet (D.CacheAdd cache key value) key).1 = some value) :
    (MessageReceived D target (MessageReceived D target node response_frame).state
        request_frame).trace =
      Event.filterAdd (D.FilterValue request_header) ::
        (D.GetTarget node.connection_manager_ (D.HeaderAfterMove request_header).source.1).map
          (fun peer =>
            Event.rudpSend peer.id
              (D.Serialise (CreateReplyHeader D request_header) .GetDataResponse
                (.GetDataResponse ⟨key, value⟩))) ∧
    (MessageReceived D target (MessageReceived D target node response_frame).state
        request_frame).completion = .returned ∧
    (CreateReplyHeader D request_header).message_id = request_header.message_id ∧
    (CreateReplyHeader D request_header).destination =
      D.ReturnDestinationAddress request_header := by
  have first : (MessageReceived D target node response_frame).state.cache_ =
        D.CacheAdd node.cache_ key value ∧
      (MessageReceived D target node response_frame).state.connection_manager_ =
        node.connection_manager_ := by
    unfold MessageReceived
    simp only [response_parsed, response_unseen, Bool.false_eq_true, if_false, if_true,
      response_body]
    unfold ForwardAndDispatch
    dsimp only
    split
    · exact ⟨rfl, rfl⟩
    · rw [Dispatch_GetDataResponse_state]
      exact ⟨rfl, rfl⟩
  generalize MessageReceived D target node response_frame = after at first request_unseen ⊢
  obtain ⟨cached, same_table⟩ := first
  have hit := fresh node.cache_
  rw [← cached] at hit
  unfold MessageReceived
  simp only [request_parsed, request_unseen, Bool.false_eq_true, if_false, if_true,
    request_body, reduceCtorEq, hit, same_table]
  exact ⟨rfl, trivial, rfl, rfl⟩

/-- Claim C3 at the failing input: node 1 with six peers has cached the value
`[9, 9]` for key 6 and receives a `GetData` for key 6 from node 8, with a
header that is empty after the move. `GetTarget` of the source node address
8 is the peer 8 alone, but the reply goes to the six peers of the close
group, the targets of the empty address. With a header that keeps its
members through the move the reply goes to peer 8. -/
theorem C3_reply_targets_read_the_moved_header_witness :
    Sample.collaborators.ParseHeaderTag Sample.get_data_frame_from_8 =
      some ((Sample.header 8 5 8, .GetData), [6]) ∧
    (Sample.collaborators.GetTarget Sample.crowded.connection_manager_ 8).map
      (fun peer => peer.id) = [8] ∧
    (MessageReceived Sample.moved_out 9
        (MessageReceived Sample.moved_out 9 Sample.crowded
          Sample.get_data_response_frame).state
        Sample.get_data_frame_from_8).trace.filterMap
      (fun call => match call with
        | .rudpSend peer _ => some peer
        | _ => none) = [3, 2, 9, 8, 11, 10] ∧
    (MessageReceived Sample.collaborators 9
        (MessageReceived Sample.collaborators 9 Sample.crowded
          Sample.get_data_response_frame).state
        Sample.get_data_frame_from_8).trace.filterMap
      (fun call => match call with
        | .rudpSend peer _ => some peer
        | _ => none) = [8] ∧
    (MessageReceived Sample.moved_out 9
        (MessageReceived Sample.moved_out 9 Sample.crowded
          Sample.get_data_response_frame).state
        Sample.get_data_frame_from_8).trace =
      Event.filterAdd (8, 8) ::
        (Sample.moved_out.GetTarget Sample.crowded.connection_manager_ 0).map (fun peer =>
          Event.rudpSend peer.id
            (Sample.moved_out.Serialise (CreateReplyHeader Sample.moved_out (Sample.header 8 5 8))
              .GetDataResponse (.GetDataResponse ⟨6, [9, 9]⟩))) :=
  ⟨rfl, by decide, by decide, by decide,
    (C3_reply_targets_read_the_moved_header Sample.moved_out 9 Sample.crowded
      Sample.get_data_response_frame Sample.get_data_frame_from_8 (Sample.header 2 5 7)
      (Sample.header 8 5 8) [6, 2, 0, 0, 0, 9, 9] [] [6] [] 6 [9, 9] rfl rfl rfl rfl rfl rfl
      (fun cache => by simp [Sample.moved_out, Sample.collaborators])).1⟩

/-- Forwarding of the frames that reach the forwarding loop: a first-seen
frame of any tag other than `GetData` and `GetDataResponse`, a
`GetDataResponse` whose body parses, a `GetData` whose body parses and whose
key misses the cache. The trace is `before ++ sends ++ handled` where `sends`
is exactly one `rudp_.Send` per entry of `GetTarget(header destination
address)`, each carrying the received bytes unchanged, `before` holds no send
and no handler entry, and `handled` is empty outside the close-group range.
Inside the range, when the body parses at dispatch `handled` starts with the
entry into the overload, after all of these sends; when it does not, no
overload is entered. -/
theorem MessageReceived_forwards (D : Collaborators F C CM) (target : Address)
    (node : RoutingNode F C CM) (serialised_message : SerialisedMessage)
    (header : MessageHeader) (tag : MessageTypeTag) (stream at_dispatch : InputVectorStream)
    (parsed : D.ParseHeaderTag serialised_message = some ((header, tag), stream))
    (unseen : D.Check node.filter_ (D.FilterValue header) = false)
    (not_answered :
      (tag ≠ .GetData ∧ tag ≠ .GetDataResponse ∧ at_dispatch = stream) ∨
      (tag = .GetDataResponse ∧
        ∃ data, D.ParseGetDataResponse stream = some (data, at_dispatch)) ∨
      (tag = .GetData ∧
        ∃ data, D.ParseGetData stream = some (data, at_dispatch) ∧
          (D.CacheGet node.cache_ data.key).1 = none)) :
    ∃ before handled,
      (MessageReceived D target node serialised_message).trace =
        before ++ (D.GetTarget node.connection_manager_ header.destination.1).map
          (fun peer => Event.rudpSend peer.id serialised_message) ++ handled ∧
      (∀ call ∈ before, call.isSend = false ∧ call.isHandleMessage = false) ∧
      (D.AddressInCloseGroupRange node.connection_manager_ header.destination.1 = false →
        handled = []) ∧
      (D.AddressInCloseGroupRange node.connection_manager_ header.destination.1 = true →
        (∀ body, ParseBody D tag at_dispatch = some body →
          ∃ effects, handled = Event.handleMessage body header :: effects) ∧
        (ParseBody D tag at_dispatch = none →
          ∀ call ∈ handled, call.isHandleMessage = false)) := by
  have forwarded : ∀ (state : RoutingNode F C CM) (calls : List Event),
      state.connection_manager_ = node.connection_manager_ →
      (∀ call ∈ calls, call.isSend = false ∧ call.isHandleMessage = false) →
      ∃ before handled,
        (ForwardAndDispatch D target state calls header tag at_dispatch
            serialised_message).trace =
          before ++ (D.GetTarget node.connection_manager_ header.destination.1).map
            (fun peer => Event.rudpSend peer.id serialised_message) ++ handled ∧
        (∀ call ∈ before, call.isSend = false ∧ call.isHandleMessage = false) ∧
        (D.AddressInCloseGroupRange node.connection_manager_ header.destination.1 = false →
          handled = []) ∧
        (D.AddressInCloseGroupRange node.connection_manager_ header.destination.1 = true →
          (∀ body, ParseBody D tag at_dispatch = some body →
            ∃ effects, handled = Event.handleMessage body header :: effects) ∧
          (ParseBody D tag at_dispatch = none →
            ∀ call ∈ handled, call.isHandleMessage = false)) := by
    intro state calls same quiet
    refine ⟨calls,
      if D.AddressInCloseGroupRange node.connection_manager_ header.destination.1 then
        (Dispatch D target state tag at_dispatch header).trace else [],
      ?_, quiet, ?_, ?_⟩
    · rw [ForwardAndDispatch_trace, Forward, same]
    · intro outside
      rw [outside]
      rfl
    · intro inside
      rw [inside, if_pos rfl]
      exact ⟨fun body ok => Dispatch_trace_some D target state tag at_dispatch header body ok,
        fun bad => Dispatch_trace_none D target state tag at_dispatch header bad⟩
  unfold MessageReceived
  simp only [parsed, unseen, Bool.false_eq_true, if_false]
  rcases not_answered with ⟨not_get, not_response, rfl⟩ | ⟨rfl, data, body⟩ |
    ⟨rfl, data, body, miss⟩
  · rw [if_neg not_response, if_neg not_get]
    exact forwarded _ [Event.filterAdd (D.FilterValue header)] rfl
      (by simp [Event.isSend, Event.isHandleMessage])
  · rw [if_pos rfl]
    simp only [body]
    exact forwarded _
      ([Event.filterAdd (D.FilterValue header)] ++ [Event.cacheAdd data.key data.data]) rfl
      (by simp [Event.isSend, Event.isHandleMessage])
  · rw [if_neg (by decide), if_pos rfl]
    simp only [body, miss]
    exact forwarded _ [Event.filterAdd (D.FilterValue header)] rfl
      (by simp [Event.isSend, Event.isHandleMessage])

/-- Claim C4 fails on the code for the two tags whose body is read before the
forwarding loop. For a first-seen frame of any other tag the claim holds:
one send per peer of `GetTarget(header destination address)`, each with the
bytes received, before any handler, and in close-group range the overload
is entered after these sends when the body parses. But a first-seen
`GetDataResponse` frame, or `GetData` frame that misses the cache, whose
destination is in close-group range is forwarded and not dispatched: the
`switch` parses the body a second time from what the first `Parse` left, and
when nothing more can be parsed there, as for a well-formed frame, the call
ends by exception after the sends with no handler entered. And a first-seen
frame of these two tags whose body does not parse is not forwarded at all:
the call ends by exception after the filter addition. -/
theorem C4_forwarded_but_not_dispatched (D : Collaborators F C CM) (target : Address)
    (node : RoutingNode F C CM) (serialised_message : SerialisedMessage)
    (header : MessageHeader) (tag : MessageTypeTag) (stream : InputVectorStream)
    (parsed : D.ParseHeaderTag serialised_message = some ((header, tag), stream))
    (unseen : D.Check node.filter_ (D.FilterValue header) = false) :
    (tag ≠ .GetData → tag ≠ .GetDataResponse →
      ∃ before handled,
        (MessageReceived D target node serialised_message).trace =
          before ++ (D.GetTarget node.connection_manager_ header.destination.1).map
            (fun peer => Event.rudpSend peer.id serialised_message) ++ handled ∧
        (∀ call ∈ before, call.isSend = false ∧ call.isHandleMessage = false) ∧
        (D.AddressInCloseGroupRange node.connection_manager_ header.destination.1 = false →
          handled = []) ∧
        (D.AddressInCloseGroupRange node.connection_manager_ header.destination.1 = true →
          (∀ body, ParseBody D tag stream = some body →
            ∃ effects, handled = Event.handleMessage body header :: effects) ∧
          (ParseBody D tag stream = none →
            ∀ call ∈ handled, call.isHandleMessage = false))) ∧
    (tag = .GetDataResponse → ∀ data rest,
      D.ParseGetDataResponse stream = some (data, rest) →
      D.AddressInCloseGroupRange node.connection_manager_ header.destination.1 = true →
      D.ParseGetDataResponse rest = none →
      (MessageReceived D target node serialised_message).trace =
        Event.filterAdd (D.FilterValue header) :: Event.cacheAdd data.key data.data ::
          (D.GetTarget node.connection_manager_ header.destination.1).map
            (fun peer => Event.rudpSend peer.id serialised_message) ∧
      (MessageReceived D target node serialised_message).completion = .threw ∧
      (∀ call ∈ (MessageReceived D target node serialised_message).trace,
        call.isHandleMessage = false)) ∧
    (tag = .GetData → ∀ data rest,
      D.ParseGetData stream = some (data, rest) →
      (D.CacheGet node.cache_ data.key).1 = none →
      D.AddressInCloseGroupRange node.connection_manager_ header.destination.1 = true →
      D.ParseGetData rest = none →
      (MessageReceived D target node serialised_message).trace =
        Event.filterAdd (D.FilterValue header) ::
          (D.GetTarget node.connection_manager_ header.destination.1).map
            (fun peer => Event.rudpSend peer.id serialised_message) ∧
      (MessageReceived D target node serialised_message).completion = .threw ∧
      (∀ call ∈ (MessageReceived D target node serialised_message).trace,
        call.isHandleMessage = false)) ∧
    (tag = .GetDataResponse → D.ParseGetDataResponse stream = none →
      (MessageReceived D target node serialised_message).trace =
        [Event.filterAdd (D.FilterValue header)] ∧
      (MessageReceived D target node serialised_message).completion = .threw) ∧
    (tag = .GetData → D.ParseGetData stream = none →
      (MessageReceived D target node serialised_message).trace =
        [Event.filterAdd (D.FilterValue header)] ∧
      (MessageReceived D target node serialised_message).completion = .threw) := by
  refine ⟨?_, ?_, ?_, ?_, ?_⟩
  · intro not_get not_response
    exact MessageReceived_forwards D target node serialised_message header tag stream stream
      parsed unseen (Or.inl ⟨not_get, not_response, rfl⟩)
  · intro named data rest body in_range consumed
    subst named
    have shape : (MessageReceived D target node serialised_message).trace =
          Event.filterAdd (D.FilterValue header) :: Event.cacheAdd data.key data.data ::
            (D.GetTarget node.connection_manager_ header.destination.1).map
              (fun peer => Event.rudpSend peer.id serialised_message) ∧
        (MessageReceived D target node serialised_message).completion = .threw := by
      unfold MessageReceived
      simp only [parsed, unseen, Bool.false_eq_true, if_false, if_true, body]
      unfold ForwardAndDispatch
      simp only [in_range, Bool.not_true, Bool.false_eq_true, if_false, Dispatch, consumed,
        Forward, List.append_nil, List.cons_append, List.nil_append, and_self]
    refine ⟨shape.1, shape.2, ?_⟩
    rw [shape.1]
    intro call found
    simp only [List.mem_cons, List.mem_map] at found
    rcases found with rfl | rfl | ⟨peer, _, rfl⟩ <;> rfl
  · intro named data rest body miss in_range consumed
    subst named
    have shape : (MessageReceived D target node serialised_message).trace =
          Event.filterAdd (D.FilterValue header) ::
            (D.GetTarget node.connection_manager_ header.destination.1).map
              (fun peer => Event.rudpSend peer.id serialised_message) ∧
        (MessageReceived D target node serialised_message).completion = .threw := by
      unfold MessageReceived
      simp only [parsed, unseen, Bool.false_eq_true, if_false, if_true, body, miss,
        reduceCtorEq]
      unfold ForwardAndDispatch
      simp only [in_range, Bool.not_true, Bool.false_eq_true, if_false, Dispatch, consumed,
        Forward, List.append_nil, List.cons_append, List.nil_append, and_self]
    refine ⟨shape.1, shape.2, ?_⟩
    rw [shape.1]
    intro call found
    simp only [List.mem_cons, List.mem_map] at found
    rcases found with rfl | ⟨peer, _, rfl⟩ <;> rfl
  · intro named bad
    subst named
    unfold MessageReceived
    simp only [parsed, unseen, Bool.false_eq_true, if_false, if_true, bad, and_self]
  · intro named bad
    subst named
    unfold MessageReceived
    simp only [parsed, unseen, Bool.false_eq_true, if_false, if_true, bad, reduceCtorEq,
      and_self]

/-- Claim C4 at the failing inputs, delivered to the sample node: the
well-formed `GetDataResponse` frame for destination 5, which is in
close-group range, goes to the peers 3 and 2 and then ends by exception with
no handler entered; the header and tag of a `GetDataResponse` with no body
after them are not forwarded at all. The `Connect` frame for destination 5
goes to the peers 3 and 2 and then enters the `Connect` overload. -/
theorem C4_forwarded_but_not_dispatched_witness :
    Sample.collaborators.AddressInCloseGroupRange Sample.node.connection_manager_ 5 = true ∧
    ((MessageReceived Sample.collaborators 9 Sample.node Sample.get_data_response_frame).trace =
        [Event.filterAdd (2, 7), Event.cacheAdd 6 [9, 9],
         Event.rudpSend 3 Sample.get_data_response_frame,
         Event.rudpSend 2 Sample.get_data_response_frame] ∧
      (MessageReceived Sample.collaborators 9 Sample.node
        Sample.get_data_response_frame).completion = .threw ∧
      ∀ call ∈ (MessageReceived Sample.collaborators 9 Sample.node
          Sample.get_data_response_frame).trace, call.isHandleMessage = false) ∧
    ((MessageReceived Sample.collaborators 9 Sample.node
        Sample.truncated_get_data_response_frame).trace = [Event.filterAdd (9, 8)] ∧
      (MessageReceived Sample.collaborators 9 Sample.node
        Sample.truncated_get_data_response_frame).completion = .threw) ∧
    (MessageReceived Sample.collaborators 9 Sample.node Sample.connect_frame).trace.take 4 =
      [Event.filterAdd (9, 8), Event.rudpSend 3 Sample.connect_frame,
       Event.rudpSend 2 Sample.connect_frame,
       Event.handleMessage (.Connect Sample.connect) (Sample.header 9 5 8)] :=
  ⟨rfl,
    (C4_forwarded_but_not_dispatched Sample.collaborators 9 Sample.node
      Sample.get_data_response_frame (Sample.header 2 5 7) .GetDataResponse
      (Wire.putBody 1 (.GetDataResponse ⟨6, [9, 9]⟩)) rfl rfl).2.1 rfl ⟨6, [9, 9]⟩ [] rfl rfl rfl,
    (C4_forwarded_but_not_dispatched Sample.collaborators 9 Sample.node
      Sample.truncated_get_data_response_frame (Sample.header 9 5 8) .GetDataResponse [] rfl
      rfl).2.2.2.1 rfl rfl,
    by decide⟩

/-- Claim C5 fails on the code. For a first-seen `GetDataResponse` frame whose
destination is in close-group range, the body is read once for the cache,
the frame is forwarded, and the `switch` then parses a `GetDataResponse`
again from what the first `Parse` left of the stream. When nothing more can
be parsed there, as for a well-formed frame, no handler is entered although
the range test holds and the tag is known: the call ends by exception. -/
theorem C5_second_parse_skips_the_handler (D : Collaborators F C CM) (target : Address)
    (node : RoutingNode F C CM) (serialised_message : SerialisedMessage)
    (header : MessageHeader) (stream rest : InputVectorStream) (data : GetDataResponse)
    (parsed : D.ParseHeaderTag serialised_message = some ((header, .GetDataResponse), stream))
    (unseen : D.Check node.filter_ (D.FilterValue header) = false)
    (in_range : D.AddressInCloseGroupRange node.connection_manager_ header.destination.1 = true)
    (body : D.ParseGetDataResponse stream = some (data, rest))
    (consumed : D.ParseGetDataResponse rest = none) :
    (∀ call ∈ (MessageReceived D target node serialised_message).trace,
      call.isHandleMessage = false) ∧
    (MessageReceived D target node serialised_message).completion = .threw ∧
    (MessageReceived D target node serialised_message).trace =
      Event.filterAdd (D.FilterValue header) :: Event.cacheAdd data.key data.data ::
        (D.GetTarget node.connection_manager_ header.destination.1).map
          (fun peer => Event.rudpSend peer.id serialised_message) := by
  have shape : (MessageReceived D target node serialised_message).completion = .threw ∧
      (MessageReceived D target node serialised_message).trace =
        Event.filterAdd (D.FilterValue header) :: Event.cacheAdd data.key data.data ::
          (D.GetTarget node.connection_manager_ header.destination.1).map
            (fun peer => Event.rudpSend peer.id serialised_message) := by
    unfold MessageReceived
    simp only [parsed, unseen, Bool.false_eq_true, if_false, if_true, body]
    unfold ForwardAndDispatch
    simp only [in_range, Bool.not_true, Bool.false_eq_true, if_false, Dispatch, consumed,
      Forward, List.append_nil, List.cons_append, List.nil_append, and_self]
  refine ⟨?_, shape⟩
  rw [shape.2]
  intro call found
  simp only [List.mem_cons, List.mem_map] at found
  rcases found with rfl | rfl | ⟨peer, _, rfl⟩ <;> rfl

/-- Claim C5 at the failing input: the well-formed `GetDataResponse` frame for
destination 5 delivered to the sample node. A well-formed `GetData` frame
that misses the cache ends the same way. -/
theorem C5_second_parse_skips_the_handler_witness :
    Sample.get_data_response_frame =
      [5, 0, 2, 0, 7, 0, 0, 0, 0, 0, 0, 0, 0, 6, 6, 2, 0, 0, 0, 9, 9] ∧
    Sample.collaborators.ParseHeaderTag Sample.get_data_response_frame =
      some ((Sample.header 2 5 7, .GetDataResponse),
        Wire.putBody 1 (.GetDataResponse ⟨6, [9, 9]⟩)) ∧
    Sample.collaborators.ParseGetDataResponse (Wire.putBody 1 (.GetDataResponse ⟨6, [9, 9]⟩)) =
      some (⟨6, [9, 9]⟩, []) ∧
    Sample.collaborators.AddressInCloseGroupRange Sample.node.connection_manager_ 5 = true ∧
    (MessageReceived Sample.collaborators 9 Sample.node Sample.get_data_response_frame).trace =
      [Event.filterAdd (2, 7), Event.cacheAdd 6 [9, 9],
       Event.rudpSend 3 Sample.get_data_response_frame,
       Event.rudpSend 2 Sample.get_data_response_frame] ∧
    (MessageReceived Sample.collaborators 9 Sample.node
      Sample.get_data_response_frame).completion = .threw ∧
    Sample.get_data_frame = [5, 0, 3, 0, 8, 0, 0, 0, 0, 0, 0, 0, 0, 5, 6] ∧
    (MessageReceived Sample.collaborators 9 Sample.node Sample.get_data_frame).trace =
      [Event.filterAdd (3, 8), Event.rudpSend 3 Sample.get_data_frame,
       Event.rudpSend 2 Sample.get_data_frame] ∧
    (MessageReceived Sample.collaborators 9 Sample.node Sample.get_data_frame).completion =
      .threw :=
  have skipped := C5_second_parse_skips_the_handler Sample.collaborators 9 Sample.node
    Sample.get_data_response_frame (Sample.header 2 5 7)
    (Wire.putBody 1 (.GetDataResponse ⟨6, [9, 9]⟩)) [] ⟨6, [9, 9]⟩ rfl rfl rfl rfl rfl
  ⟨rfl, rfl, rfl, rfl, skipped.2.2, skipped.2.1, rfl, rfl, rfl⟩

/-- Claim C6 fails on the code. A first-seen `PutDataResponse` frame with message
id 8 whose destination is in close-group range is delivered to the sample
node: the calls are the filter addition, the two forwarding sends and the
entry into the `PutDataResponse` overload; no pending task with id 8 is
completed. -/
theorem C6_no_task_is_completed :
    Sample.collaborators.ParseHeaderTag Sample.put_data_response_frame =
      some ((Sample.header 3 5 8, .PutDataResponse),
        Wire.putBody 1 (.PutDataResponse ⟨6, 0⟩)) ∧
    Sample.collaborators.Check Sample.node.filter_ (3, 8) = false ∧
    Sample.collaborators.AddressInCloseGroupRange Sample.node.connection_manager_ 5 = true ∧
    (MessageReceived Sample.collaborators 9 Sample.node Sample.put_data_response_frame).trace =
      [Event.filterAdd (3, 8),
       Event.rudpSend 3 Sample.put_data_response_frame,
       Event.rudpSend 2 Sample.put_data_response_frame,
       Event.handleMessage (.PutDataResponse ⟨6, 0⟩) (Sample.header 3 5 8)] ∧
    Event.timerExecuteTaskNow 8 (.PutDataResponse ⟨6, 0⟩) ∉
      (MessageReceived Sample.collaborators 9 Sample.node Sample.put_data_response_frame).trace :=
  ⟨rfl, rfl, rfl, rfl, by decide⟩

/-- Claim C6, amended. For every first-seen frame with a response tag whose
destination is in close-group range and whose body parses at dispatch, local
dispatch enters the `HandleMessage` overload of that response type with the
parsed body, and the overload is empty: the calls are the filter addition (and
the cache addition for `GetDataResponse`), the forwarding sends and the entry
into the overload; only the filter (and the cache) change; and no run of
`MessageReceived` completes a pending task. -/
theorem C6_response_handlers_are_empty (D : Collaborators F C CM) (target : Address)
    (node : RoutingNode F C CM) (serialised_message : SerialisedMessage)
    (header : MessageHeader) (stream : InputVectorStream)
    (unseen : D.Check node.filter_ (D.FilterValue header) = false)
    (in_range : D.AddressInCloseGroupRange node.connection_manager_ header.destination.1 = true) :
    (∀ (body : PutDataResponse) (rest : InputVectorStream),
      D.ParseHeaderTag serialised_message = some ((header, .PutDataResponse), stream) →
      D.ParsePutDataResponse stream = some (body, rest) →
      MessageReceived D target node serialised_message =
        ⟨{ node with filter_ := D.Add node.filter_ (D.FilterValue header) },
          Event.filterAdd (D.FilterValue header) ::
            ((D.GetTarget node.connection_manager_ header.destination.1).map
                (fun peer => Event.rudpSend peer.id serialised_message)
              ++ [Event.handleMessage (.PutDataResponse body) header]),
          .returned⟩) ∧
    (∀ (data body : GetDataResponse) (rest rest_after : InputVectorStream),
      D.ParseHeaderTag serialised_message = some ((header, .GetDataResponse), stream) →
      D.ParseGetDataResponse stream = some (data, rest) →
      D.ParseGetDataResponse rest = some (body, rest_after) →
      MessageReceived D target node serialised_message =
        ⟨{ node with
            filter_ := D.Add node.filter_ (D.FilterValue header)
            cache_ := D.CacheAdd node.cache_ data.key data.data },
          Event.filterAdd (D.FilterValue header) :: Event.cacheAdd data.key data.data ::
            ((D.GetTarget node.connection_manager_ header.destination.1).map
                (fun peer => Event.rudpSend peer.id serialised_message)
              ++ [Event.handleMessage (.GetDataResponse body) header]),
          .returned⟩) ∧
    (∀ call ∈ (MessageReceived D target node serialised_message).trace,
      call.isTaskCompletion = false) := by
  refine ⟨?_, ?_, ?_⟩
  · intro body rest parsed body_ok
    unfold MessageReceived
    simp only [parsed, unseen, Bool.false_eq_true, if_false, reduceCtorEq]
    unfold ForwardAndDispatch
    simp only [in_range, Bool.not_true, Bool.false_eq_true, if_false, Dispatch, body_ok, Invoke,
      HandleMessage_PutDataResponse, Forward, List.cons_append, List.nil_append]
  · intro data body rest rest_after parsed data_ok body_ok
    unfold MessageReceived
    simp only [parsed, unseen, Bool.false_eq_true, if_false, if_true, data_ok]
    unfold ForwardAndDispatch
    simp only [in_range, Bool.not_true, Bool.false_eq_true, if_false, Dispatch, body_ok, Invoke,
      HandleMessage_GetDataResponse, Forward, List.cons_append, List.nil_append]
  · exact MessageReceived_no_task D target node serialised_message

/-- Claim C6, amended, at the `PutDataResponse` frame delivered to the sample
node. -/
theorem C6_response_handlers_are_empty_witness :
    Sample.collaborators.Check Sample.node.filter_ (3, 8) = false ∧
    Sample.collaborators.AddressInCloseGroupRange Sample.node.connection_manager_ 5 = true ∧
    MessageReceived Sample.collaborators 9 Sample.node Sample.put_data_response_frame =
      ⟨{ Sample.node with filter_ := [(3, 8)] },
        [Event.filterAdd (3, 8),
         Event.rudpSend 3 Sample.put_data_response_frame,
         Event.rudpSend 2 Sample.put_data_response_frame,
         Event.handleMessage (.PutDataResponse ⟨6, 0⟩) (Sample.header 3 5 8)],
        .returned⟩ :=
  ⟨rfl, rfl,
    (C6_response_handlers_are_empty Sample.collaborators 9 Sample.node
      Sample.put_data_response_frame (Sample.header 3 5 8)
      (Wire.putBody 1 (.PutDataResponse ⟨6, 0⟩)) rfl rfl).1 ⟨6, 0⟩ [] rfl rfl⟩

/-- Claim C7 (`HandleMessage(Connect)`). If `SuggestNodeToAdd(requester id)` is
false the handler returns with the node unchanged and no call made. If it is
true, and the handler's `assert(receiver id == OurId())` holds or is compiled
out, the handler sends to every peer of `GetTarget(requester id)` a
`ConnectResponse` that echoes the requester id, the requester endpoints and
the receiver id and carries `NextEndpointPair()` and this node's public
identity under a header with the request's message id, then calls `AddNode`
for the requester; no send follows, and the connection manager ends as
`AddNode` left it. -/
theorem C7_connect_handler (D : Collaborators F C CM) (node : RoutingNode F C CM)
    (connect : Connect) (orig_header : MessageHeader) :
    (D.SuggestNodeToAdd node.connection_manager_ connect.requester_id = false →
      HandleMessage_Connect D node connect orig_header = ⟨node, [], .returned⟩) ∧
    (D.SuggestNodeToAdd node.connection_manager_ connect.requester_id = true →
      (D.NDEBUG = true ∨ connect.receiver_id = D.OurId) →
      ∃ (header : MessageHeader) (respond : ConnectResponse) (later : List Event),
        respond.requester_id = connect.requester_id ∧
        respond.requester_endpoints = connect.requester_endpoints ∧
        respond.receiver_id = connect.receiver_id ∧
        respond.receiver_endpoints = D.NextEndpointPair ∧
        respond.receiver_fob = D.our_public_fob ∧
        header.message_id = orig_header.message_id ∧
        (HandleMessage_Connect D node connect orig_header).trace =
          (D.GetTarget node.connection_manager_ connect.requester_id).map (fun peer =>
            Event.rudpSend peer.id
              (D.Serialise header .ConnectResponse (.ConnectResponse respond)))
          ++ Event.addNode ⟨connect.requester_id, connect.requester_fob⟩ :: later ∧
        (∀ call ∈ later, call.isSend = false) ∧
        (HandleMessage_Connect D node connect orig_header).state.connection_manager_ =
          (D.AddNode node.connection_manager_ ⟨connect.requester_id, connect.requester_fob⟩
            connect.requester_endpoints).2 ∧
        (HandleMessage_Connect D node connect orig_header).completion = .returned) := by
  constructor
  · intro refused
    unfold HandleMessage_Connect
    simp only [refused, Bool.not_false, if_true]
  · intro accepted asserted
    have passes : (!D.NDEBUG && !(connect.receiver_id == D.OurId)) = false := by
      rcases asserted with release | ours
      · simp [release]
      · simp [ours]
    let respond : ConnectResponse :=
      ⟨connect.requester_endpoints, D.NextEndpointPair, connect.requester_id,
        connect.receiver_id, D.our_public_fob⟩
    let header : MessageHeader :=
      ⟨D.ReturnDestinationAddress orig_header,
        (D.ConnectionManagerOurId node.connection_manager_, none), orig_header.message_id,
        some (D.Sign (D.SerialiseBody (.ConnectResponse respond)) D.private_key)⟩
    unfold HandleMessage_Connect
    simp only [accepted, Bool.not_true, Bool.false_eq_true, if_false, passes]
    split
    next difference _ =>
      refine ⟨header, respond, [Event.rudpAdd connect.requester_id (.ofConnect connect),
        Event.handleCloseGroupDifference difference], rfl, rfl, rfl, rfl, rfl, rfl, ?_, ?_,
        rfl, rfl⟩
      · simp only [List.append_assoc, List.cons_append, List.nil_append]
      · simp [Event.isSend]
    · refine ⟨header, respond, [Event.rudpAdd connect.requester_id (.ofConnect connect)],
        rfl, rfl, rfl, rfl, rfl, rfl, rfl, ?_, rfl, rfl⟩
      simp [Event.isSend]

/-- Claim C7 at the sample node and a `Connect` of requester 9 for receiver 1. -/
theorem C7_connect_handler_witness :
    Sample.collaborators.SuggestNodeToAdd Sample.node.connection_manager_ 9 = true ∧
    Sample.connect.receiver_id = Sample.collaborators.OurId ∧
    (HandleMessage_Connect Sample.collaborators Sample.node Sample.connect
        (Sample.header 9 5 8)).state.connection_manager_.nodes =
      [Sample.peer 2, Sample.peer 3, ⟨9, ⟨9, 55⟩⟩] ∧
    ∃ (header : MessageHeader) (respond : ConnectResponse) (later : List Event),
      respond.requester_id = 9 ∧ header.message_id = 8 ∧
      (HandleMessage_Connect Sample.collaborators Sample.node Sample.connect
          (Sample.header 9 5 8)).trace =
        [Event.rudpSend 3
            (Sample.collaborators.Serialise header .ConnectResponse (.ConnectResponse respond)),
          Event.rudpSend 2
            (Sample.collaborators.Serialise header .ConnectResponse (.ConnectResponse respond))]
        ++ Event.addNode ⟨9, ⟨9, 55⟩⟩ :: later :=
  ⟨rfl, rfl, rfl,
    match (C7_connect_handler Sample.collaborators Sample.node Sample.connect
      (Sample.header 9 5 8)).2 rfl (Or.inr rfl) with
    | ⟨header, respond, later, requester, _, _, _, _, id, shape, _, _, _⟩ =>
      ⟨header, respond, later, requester, id, shape⟩⟩

/-- Claim C8. After the `Connect` handler, respectively the `ConnectResponse`
handler, has called `AddNode` for a peer and handed its completion handler to
`rudp_.Add`, running that completion handler with an error on any later node
state calls `DropNode` with the id of that same peer and nothing else. For a
`DropNode` that removes exactly the named member (`drop_removes`), the peer is
no member afterwards and every other member stays. -/
theorem C8_failed_add_drops_the_added_peer (D : Collaborators F C CM) (target : Address)
    (node later : RoutingNode F C CM) (orig_header : MessageHeader)
    (Member : CM → Address → Prop)
    (drop_removes : ∀ table dropped other,
      Member (D.DropNode table dropped) other ↔ (Member table other ∧ other ≠ dropped)) :
    (∀ connect : Connect,
      D.SuggestNodeToAdd node.connection_manager_ connect.requester_id = true →
      (D.NDEBUG = true ∨ connect.receiver_id = D.OurId) →
      Event.addNode ⟨connect.requester_id, connect.requester_fob⟩ ∈
        (HandleMessage_Connect D node connect orig_header).trace ∧
      Event.rudpAdd connect.requester_id (.ofConnect connect) ∈
        (HandleMessage_Connect D node connect orig_header).trace ∧
      (RunAddHandler D (.ofConnect connect) true later).trace =
        [Event.dropNode connect.requester_id] ∧
      ¬ Member (RunAddHandler D (.ofConnect connect) true later).state.connection_manager_
        connect.requester_id ∧
      ∀ other, other ≠ connect.requester_id → Member later.connection_manager_ other →
        Member (RunAddHandler D (.ofConnect connect) true later).state.connection_manager_ other) ∧
    (∀ connect_response : ConnectResponse,
      D.SuggestNodeToAdd node.connection_manager_ connect_response.requester_id = true →
      (D.AddNodeOnly node.connection_manager_
        ⟨target, D.ResponseRequesterFob connect_response⟩).1.1 = true →
      Event.addNode ⟨target, D.ResponseRequesterFob connect_response⟩ ∈
        (HandleMessage_ConnectResponse D target node connect_response orig_header).trace ∧
      Event.rudpAdd target (.ofConnectResponse target
          (D.AddNodeOnly node.connection_manager_
            ⟨target, D.ResponseRequesterFob connect_response⟩).1) ∈
        (HandleMessage_ConnectResponse D target node connect_response orig_header).trace ∧
      ∀ added,
        (RunAddHandler D (.ofConnectResponse target added) true later).trace =
          [Event.dropNode target] ∧
        ¬ Member (RunAddHandler D (.ofConnectResponse target added) true
          later).state.connection_manager_ target ∧
        ∀ other, other ≠ target → Member later.connection_manager_ other →
          Member (RunAddHandler D (.ofConnectResponse target added) true
            later).state.connection_manager_ other) := by
  constructor
  · intro connect accepted asserted
    have passes : (!D.NDEBUG && !(connect.receiver_id == D.OurId)) = false := by
      rcases asserted with release | ours
      · simp [release]
      · simp [ours]
    refine ⟨?_, ?_, rfl, ?_, ?_⟩
    · unfold HandleMessage_Connect
      simp only [accepted, Bool.not_true, Bool.false_eq_true, if_false, passes]
      split <;> simp
    · unfold HandleMessage_Connect
      simp only [accepted, Bool.not_true, Bool.false_eq_true, if_false, passes]
      split <;> simp
    · simp only [RunAddHandler, if_true]
      exact fun still => ((drop_removes _ _ _).1 still).2 rfl
    · intro other differs present
      simp only [RunAddHandler, if_true]
      exact (drop_removes _ _ _).2 ⟨present, differs⟩
  · intro connect_response accepted added
    refine ⟨?_, ?_, ?_⟩
    · unfold HandleMessage_ConnectResponse
      simp only [accepted, Bool.not_true, Bool.false_eq_true, if_false, added, if_true]
      simp
    · unfold HandleMessage_ConnectResponse
      simp only [accepted, Bool.not_true, Bool.false_eq_true, if_false, added, if_true]
      simp
    · intro evicted
      refine ⟨rfl, ?_, ?_⟩
      · simp only [RunAddHandler, if_true]
        exact fun still => ((drop_removes _ _ _).1 still).2 rfl
      · intro other differs present
        simp only [RunAddHandler, if_true]
        exact (drop_removes _ _ _).2 ⟨present, differs⟩

/-- Claim C8 at the sample node: peer 9 is added by the `Connect` handler, the
transport reports an error, and 9 is gone while 2 stays. -/
theorem C8_failed_add_drops_the_added_peer_witness :
    Sample.collaborators.SuggestNodeToAdd Sample.node.connection_manager_ 9 = true ∧
    Sample.connect.receiver_id = Sample.collaborators.OurId ∧
    9 ∈ (HandleMessage_Connect Sample.collaborators Sample.node Sample.connect
      (Sample.header 9 5 8)).state.connection_manager_.nodes.map NodeInfo.id ∧
    9 ∉ (RunAddHandler Sample.collaborators (.ofConnect Sample.connect) true
      (HandleMessage_Connect Sample.collaborators Sample.node Sample.connect
        (Sample.header 9 5 8)).state).state.connection_manager_.nodes.map NodeInfo.id ∧
    2 ∈ (RunAddHandler Sample.collaborators (.ofConnect Sample.connect) true
      (HandleMessage_Connect Sample.collaborators Sample.node Sample.connect
        (Sample.header 9 5 8)).state).state.connection_manager_.nodes.map NodeInfo.id :=
  have dropped := (C8_failed_add_drops_the_added_peer Sample.collaborators 9 Sample.node
    (HandleMessage_Connect Sample.collaborators Sample.node Sample.connect
      (Sample.header 9 5 8)).state
    (Sample.header 9 5 8) (fun table address => address ∈ table.nodes.map NodeInfo.id)
    (fun table dropped other => by
      simp only [Sample.collaborators, Table.DropNode, List.mem_map, List.mem_filter, bne_iff_ne]
      constructor
      · rintro ⟨peer, ⟨present, differs⟩, rfl⟩
        exact ⟨⟨peer, present, rfl⟩, differs⟩
      · rintro ⟨⟨peer, present, rfl⟩, differs⟩
        exact ⟨peer, ⟨present, differs⟩, rfl⟩)).1 Sample.connect rfl (Or.inr rfl)
  ⟨rfl, rfl, by decide, dropped.2.2.2.1, dropped.2.2.2.2 2 (by decide) (by decide)⟩

/-- Claim C9 fails on the code. The gate of `HandleMessage(ConnectResponse)`
reads `connect_response.requester_id` and nothing else: when
`SuggestNodeToAdd(requester id)` is true the handler calls `AddNode` for
whatever `target` names, and when it is false the handler returns at once,
in both cases whatever `SuggestNodeToAdd` says of the responder. -/
theorem C9_gate_reads_the_requester_id (D : Collaborators F C CM) (target : Address)
    (node : RoutingNode F C CM) (connect_response : ConnectResponse)
    (orig_header : MessageHeader) :
    (D.SuggestNodeToAdd node.connection_manager_ connect_response.requester_id = true →
      ∃ later,
        (HandleMessage_ConnectResponse D target node connect_response orig_header).trace =
          Event.addNode ⟨target, D.ResponseRequesterFob connect_response⟩ :: later) ∧
    (D.SuggestNodeToAdd node.connection_manager_ connect_response.requester_id = false →
      HandleMessage_ConnectResponse D target node connect_response orig_header =
        ⟨node, [], .returned⟩) := by
  constructor
  · intro accepted
    unfold HandleMessage_ConnectResponse
    simp only [accepted, Bool.not_true, Bool.false_eq_true, if_false]
    split <;> exact ⟨_, rfl⟩
  · intro refused
    unfold HandleMessage_ConnectResponse
    simp only [refused, Bool.not_false, if_true]

/-- Claim C9 at the failing inputs, on the sample node with the peers 2 and 3.
A response from responder 2 that names requester 9 passes the gate although
`SuggestNodeToAdd(2)` is false; with `target = 9` the node 9 is added and the
transport is asked to add it. A response from the new responder 9 that names
this node, 1, as requester is dropped although `SuggestNodeToAdd(9)` is true. -/
theorem C9_gate_reads_the_requester_id_witness :
    Sample.collaborators.SuggestNodeToAdd Sample.node.connection_manager_ 2 = false ∧
    Sample.collaborators.SuggestNodeToAdd Sample.node.connection_manager_ 9 = true ∧
    Sample.collaborators.SuggestNodeToAdd Sample.node.connection_manager_ 1 = false ∧
    (∃ later,
      (HandleMessage_ConnectResponse Sample.collaborators 2 Sample.node
        ⟨⟨⟨1, 2⟩, ⟨3, 4⟩⟩, ⟨⟨5, 6⟩, ⟨7, 8⟩⟩, 9, 2, ⟨2, 1002⟩⟩ (Sample.header 2 1 8)).trace =
        Event.addNode ⟨2, ⟨2, 1002⟩⟩ :: later) ∧
    (HandleMessage_ConnectResponse Sample.collaborators 9 Sample.node
        ⟨⟨⟨1, 2⟩, ⟨3, 4⟩⟩, ⟨⟨5, 6⟩, ⟨7, 8⟩⟩, 9, 2, ⟨2, 1002⟩⟩ (Sample.header 2 1 8)).trace =
      [Event.addNode ⟨9, ⟨2, 1002⟩⟩,
       Event.rudpAdd 9 (.ofConnectResponse 9 (true, none))] ∧
    HandleMessage_ConnectResponse Sample.collaborators 9 Sample.node
        ⟨⟨⟨1, 2⟩, ⟨3, 4⟩⟩, ⟨⟨5, 6⟩, ⟨7, 8⟩⟩, 1, 9, ⟨9, 1009⟩⟩ (Sample.header 9 1 8) =
      ⟨Sample.node, [], .returned⟩ :=
  ⟨rfl, rfl, rfl,
    (C9_gate_reads_the_requester_id Sample.collaborators 2 Sample.node
      ⟨⟨⟨1, 2⟩, ⟨3, 4⟩⟩, ⟨⟨5, 6⟩, ⟨7, 8⟩⟩, 9, 2, ⟨2, 1002⟩⟩ (Sample.header 2 1 8)).1 rfl,
    rfl,
    (C9_gate_reads_the_requester_id Sample.collaborators 9 Sample.node
      ⟨⟨⟨1, 2⟩, ⟨3, 4⟩⟩, ⟨⟨5, 6⟩, ⟨7, 8⟩⟩, 1, 9, ⟨9, 1009⟩⟩ (Sample.header 9 1 8)).2 rfl⟩

/-- Claim C10 fails on the code. A `FindGroupResponse` that lists peer 9, which
`SuggestNodeToAdd` accepts, is handled by the sample node without any call:
the handler initiates no `Connect`. Delivered as a frame, the only calls are
the filter addition and the entry into the overload. -/
theorem C10_no_connect_is_initiated :
    Sample.collaborators.SuggestNodeToAdd Sample.node.connection_manager_ 9 = true ∧
    HandleMessage_FindGroupResponse Sample.collaborators Sample.node
        ⟨⟨⟨1, 2⟩, ⟨3, 4⟩⟩, ⟨⟨5, 6⟩, ⟨7, 8⟩⟩, 1, 2, [Sample.peer 9]⟩ (Sample.header 2 1 8) =
      ⟨Sample.node, [], .returned⟩ ∧
    (MessageReceived Sample.collaborators 9 Sample.node
        (Wire.putFrame 1 (Sample.header 2 1 8) .FindGroupResponse
          (.FindGroupResponse
            ⟨⟨⟨1, 2⟩, ⟨3, 4⟩⟩, ⟨⟨5, 6⟩, ⟨7, 8⟩⟩, 1, 2, [Sample.peer 9]⟩))).trace =
      [Event.filterAdd (2, 8),
       Event.handleMessage
        (.FindGroupResponse ⟨⟨⟨1, 2⟩, ⟨3, 4⟩⟩, ⟨⟨5, 6⟩, ⟨7, 8⟩⟩, 1, 2, [Sample.peer 9]⟩)
        (Sample.header 2 1 8)] :=
  ⟨rfl, rfl, rfl⟩

/-! ## Lemmas on the timer -/

namespace Timer
variable {Φ : Type}

/-- After `erase`, the erased id is not found. -/
theorem find_erase_self (queue : List (TaskId × Duration × Option Φ)) (task_id : TaskId) :
    find (erase queue task_id) task_id = none := by
  induction queue with
  | nil => rfl
  | cons head tail ih =>
    unfold erase at ih ⊢
    simp only [List.filter_cons]
    split
    next keep =>
      have differs : (task_id == head.1) = false := by
        simp only [bne_iff_ne, ne_eq] at keep
        exact beq_eq_false_iff_ne.mpr fun same => keep same.symm
      simp only [find, List.lookup, differs] at ih ⊢
      exact ih
    next => exact ih

/-- Erasing one id leaves the lookup of every other id as it was. -/
theorem find_erase_other (queue : List (TaskId × Duration × Option Φ)) (task_id other : TaskId)
    (differs : other ≠ task_id) :
    find (erase queue task_id) other = find queue other := by
  induction queue with
  | nil => rfl
  | cons head tail ih =>
    unfold erase at ih ⊢
    simp only [List.filter_cons]
    by_cases same : head.1 = task_id
    · have gone : (head.1 != task_id) = false := by simp [same]
      have miss : (other == head.1) = false := by simp [same, differs]
      simp only [gone, Bool.false_eq_true, if_false, find, List.lookup, miss] at ih ⊢
      exact ih
    · have kept : (head.1 != task_id) = true := by simp [same]
      simp only [kept, if_true, find, List.lookup] at ih ⊢
      cases other == head.1
      · exact ih
      · rfl

/-- An id found in a queue is found, with the same entry, after an append. -/
theorem find_append_of_some (queue : List (TaskId × Duration × Option Φ))
    (entry : TaskId × Duration × Option Φ) (task_id : TaskId) (found : Duration × Option Φ)
    (present : find queue task_id = some found) :
    find (queue ++ [entry]) task_id = some found := by
  induction queue with
  | nil => simp [find] at present
  | cons head tail ih =>
    simp only [find, List.cons_append, List.lookup] at present ih ⊢
    cases same : task_id == head.1
    · simp only [same] at present ⊢
      exact ih present
    · simp only [same] at present ⊢
      exact present

/-- An id absent from a queue is looked up in what is appended. -/
theorem find_append_of_none (queue : List (TaskId × Duration × Option Φ))
    (entry : TaskId × Duration × Option Φ) (task_id : TaskId)
    (absent : find queue task_id = none) :
    find (queue ++ [entry]) task_id = if task_id = entry.1 then some entry.2 else none := by
  induction queue with
  | nil =>
    simp only [find, List.nil_append, List.lookup]
    by_cases same : task_id = entry.1
    · simp [same]
    · have miss : (task_id == entry.1) = false := by simp [same]
      simp [miss, same]
  | cons head tail ih =>
    simp only [find, List.cons_append, List.lookup] at absent ih ⊢
    cases same : task_id == head.1
    · simp only [same] at absent ⊢
      exact ih absent
    · simp [same] at absent

/-- The entry of an id that is in the queue survives `insert`. -/
theorem find_insert_of_some (queue : List (TaskId × Duration × Option Φ))
    (entry : TaskId × Duration × Option Φ) (task_id : TaskId) (found : Duration × Option Φ)
    (present : find queue task_id = some found) :
    find (insert queue entry) task_id = some found := by
  unfold insert
  split
  · exact present
  · exact find_append_of_some queue entry task_id found present

/-- Inserting an entry whose id is absent stores it and keeps the entries of all other ids. -/
theorem find_insert_of_absent (queue : List (TaskId × Duration × Option Φ))
    (entry : TaskId × Duration × Option Φ) (absent : find queue entry.1 = none) :
    find (insert queue entry) entry.1 = some entry.2 ∧
    ∀ other, other ≠ entry.1 → find (insert queue entry) other = find queue other := by
  unfold insert
  simp only [absent, Option.isSome_none, Bool.false_eq_true, if_false]
  refine ⟨by rw [find_append_of_none queue entry entry.1 absent, if_pos rfl], ?_⟩
  intro other differs
  cases present : find queue other with
  | none => rw [find_append_of_none queue entry other present, if_neg differs]
  | some found => exact find_append_of_some queue entry other found present


/-- Erasing does not raise the number of pending entries of a functor. -/
theorem pending_erase_le [DecidableEq Φ] (functor : Φ)
    (queue : List (TaskId × Duration × Option Φ)) (task_id : TaskId) :
    pending functor (erase queue task_id) ≤ pending functor queue := by
  unfold pending erase
  rw [List.filter_comm]
  exact List.length_filter_le _ _

/-- Erasing an id that holds `functor` lowers its number of pending entries by at least one. -/
theorem pending_erase_found [DecidableEq Φ] (functor : Φ)
    (queue : List (TaskId × Duration × Option Φ)) (task_id : TaskId) (timeout : Duration)
    (present : find queue task_id = some (timeout, some functor)) :
    pending functor (erase queue task_id) + 1 ≤ pending functor queue := by
  induction queue with
  | nil => simp [find] at present
  | cons head tail ih =>
    simp only [find, List.lookup] at present
    cases same : task_id == head.1
    · simp only [same] at present
      have kept : (head.1 != task_id) = true := by
        simp only [bne_iff_ne, ne_eq]
        exact fun equal => (beq_eq_false_iff_ne.mp same) equal.symm
      have step := ih present
      unfold pending erase at step ⊢
      simp only [List.filter_cons, kept, if_true]
      split
      · simp only [List.length_cons]
        omega
      · exact step
    · simp only [same] at present
      have gone : (head.1 != task_id) = false := by
        have equal : task_id = head.1 := by simpa using same
        simp [equal]
      have holds : decide (head.2.2 = some functor) = true := by
        have stored : head.2 = (timeout, some functor) := Option.some.inj present
        rw [stored]
        simp
      have rest := pending_erase_le functor tail task_id
      unfold pending erase at rest ⊢
      simp only [List.filter_cons, gone, Bool.false_eq_true, if_false, holds, if_true,
        List.length_cons]
      omega

/-- Inserting an entry raises the number of pending entries of a functor by at
most one, and only when the entry holds it. -/
theorem pending_insert_le [DecidableEq Φ] (functor : Φ)
    (queue : List (TaskId × Duration × Option Φ)) (entry : TaskId × Duration × Option Φ) :
    pending functor (insert queue entry) ≤
      pending functor queue + if entry.2.2 = some functor then 1 else 0 := by
  unfold insert
  split
  · omega
  · unfold pending
    simp only [List.filter_append, List.length_append, List.filter_cons, List.filter_nil]
    split <;> split <;> simp_all

/-- One call: what it dispatches of `functor` plus what stays pending is at
most what was pending plus what the call registers. -/
theorem call_bound [DecidableEq Φ] (functor : Φ) (timer : Routing.Timer Φ) (made : TimerCall Φ) :
    dispatched functor (timer.call made).2 + pending functor (timer.call made).1.queue_ ≤
      pending functor timer.queue_ + registrations functor [made] := by
  cases made with
  | AddTask timeout response_functor =>
    have grows := pending_insert_le functor timer.queue_
      ((timer.task_id_ + 1) % 2 ^ 32, timeout, response_functor)
    simp only [call, AddTask, dispatched, registrations, List.filter_nil, List.length_nil,
      List.filter_cons] at grows ⊢
    split at grows <;> simp_all
  | KillTask task_id =>
    simp only [call, KillTask, registrations, List.filter_cons, List.filter_nil]
    cases present : find timer.queue_ task_id with
    | none => simp [dispatched]
    | some found =>
      obtain ⟨timeout, stored⟩ := found
      cases stored with
      | none =>
        have := pending_erase_le functor timer.queue_ task_id
        simp [dispatched]
        exact this
      | some other =>
        by_cases same : other = functor
        · subst same
          have := pending_erase_found other timer.queue_ task_id timeout present
          simp [dispatched]
          omega
        · have := pending_erase_le functor timer.queue_ task_id
          simp [dispatched, same]
          exact this
  | ExecuteTaskNow message =>
    simp only [call, ExecuteTaskNow, registrations, List.filter_cons, List.filter_nil]
    cases message.id with
    | none => simp [dispatched]
    | some task_id =>
      simp only
      cases present : find timer.queue_ task_id with
      | none => simp [dispatched]
      | some found =>
        obtain ⟨timeout, stored⟩ := found
        cases stored with
        | none =>
          have := pending_erase_le functor timer.queue_ task_id
          simp [dispatched]
          exact this
        | some other =>
          by_cases same : other = functor
          · subst same
            have := pending_erase_found other timer.queue_ task_id timeout present
            simp [dispatched]
            omega
          · have := pending_erase_le functor timer.queue_ task_id
            simp [dispatched, same]
            exact this

/-- Over a sequence of calls: what is dispatched of `functor` plus what stays
pending is at most what was pending plus what the sequence registers. -/
theorem calls_bound [DecidableEq Φ] (functor : Φ) (sequence : List (TimerCall Φ))
    (timer : Routing.Timer Φ) :
    dispatched functor (timer.calls sequence).2 + pending functor (timer.calls sequence).1.queue_ ≤
      pending functor timer.queue_ + registrations functor sequence := by
  induction sequence generalizing timer with
  | nil => simp [calls, dispatched, registrations]
  | cons first rest ih =>
    have one := call_bound functor timer first
    have more := ih (timer.call first).1
    simp only [calls, dispatched, registrations, List.filter_append, List.length_append,
      List.filter_cons, List.filter_nil, List.length_nil] at one more ⊢
    split at one <;> split <;> simp_all <;> omega


/-- A call that is not `AddTask` leaves an absent id absent. -/
theorem call_keeps_absent (timer : Routing.Timer Φ) (made : TimerCall Φ) (task_id : TaskId)
    (absent : find timer.queue_ task_id = none) (not_add : additions [made] = 0) :
    find (timer.call made).1.queue_ task_id = none := by
  cases made with
  | AddTask timeout response_functor => simp [additions] at not_add
  | KillTask other =>
    simp only [call, KillTask]
    cases find timer.queue_ other with
    | none => exact absent
    | some found =>
      by_cases same : task_id = other
      · subst same
        exact find_erase_self _ _
      · simp only
        rw [find_erase_other _ _ _ same]
        exact absent
  | ExecuteTaskNow message =>
    simp only [call, ExecuteTaskNow]
    cases message.id with
    | none => exact absent
    | some other =>
      simp only
      cases find timer.queue_ other with
      | none => exact absent
      | some found =>
        by_cases same : task_id = other
        · subst same
          exact find_erase_self _ _
        · simp only
          rw [find_erase_other _ _ _ same]
          exact absent

/-- A sequence without `AddTask` leaves an absent id absent. -/
theorem calls_keep_absent (sequence : List (TimerCall Φ)) (timer : Routing.Timer Φ)
    (task_id : TaskId) (absent : find timer.queue_ task_id = none)
    (not_add : additions sequence = 0) :
    find (timer.calls sequence).1.queue_ task_id = none := by
  induction sequence generalizing timer with
  | nil => exact absent
  | cons first rest ih =>
    have split_count : additions [first] = 0 ∧ additions rest = 0 := by
      simp only [additions, List.filter_cons, List.filter_nil] at not_add ⊢
      split at not_add <;> simp_all
    exact ih _ (call_keeps_absent timer first task_id absent split_count.1) split_count.2


/-- What is found after `erase` was found before. -/
theorem find_erase_some (queue : List (TaskId × Duration × Option Φ)) (task_id other : TaskId)
    (present : find (erase queue task_id) other ≠ none) : find queue other ≠ none := by
  by_cases same : other = task_id
  · subst same
    exact absurd (find_erase_self queue other) present
  · rwa [find_erase_other queue task_id other same] at present

/-- What is found after `insert` was found before or is the inserted entry. -/
theorem find_insert_some (queue : List (TaskId × Duration × Option Φ))
    (entry : TaskId × Duration × Option Φ) (other : TaskId)
    (present : find (insert queue entry) other ≠ none) :
    find queue other ≠ none ∨ other = entry.1 := by
  by_cases same : other = entry.1
  · exact Or.inr same
  · left
    cases held : find queue entry.1 with
    | none => rwa [(find_insert_of_absent queue entry held).2 other same] at present
    | some found =>
      unfold insert at present
      simpa only [held, Option.isSome_some, if_true] using present

/-- Incrementing a 32-bit counter that stands at `start + count`. -/
theorem counter_shift (start count : Nat) :
    ((start + 1) % 2 ^ 32 + count) % 2 ^ 32 = (start + (count + 1)) % 2 ^ 32 := by
  norm_num
  omega

/-- The successor of the counter after `count` increments. -/
theorem counter_next (start count : Nat) :
    ((start + count) % 2 ^ 32 + 1) % 2 ^ 32 = (start + (count + 1)) % 2 ^ 32 := by
  norm_num
  omega

/-- Two counter values fewer than `2 ^ 32` increments apart differ. -/
theorem counter_distinct (start i j : Nat) (before : i < j) (near : j - i < 2 ^ 32) :
    (start + i) % 2 ^ 32 ≠ (start + j) % 2 ^ 32 := by
  norm_num at near ⊢
  omega

/-- The count of `AddTask` calls, at an `AddTask`. -/
theorem additions_AddTask (timeout : Duration) (response_functor : Option Φ)
    (rest : List (TimerCall Φ)) :
    additions (.AddTask timeout response_functor :: rest) = additions rest + 1 := by
  simp [additions]

/-- The count of `AddTask` calls, at a `KillTask`. -/
theorem additions_KillTask (task_id : TaskId) (rest : List (TimerCall Φ)) :
    additions (.KillTask task_id :: rest) = additions rest := by
  simp [additions]

/-- The count of `AddTask` calls, at an `ExecuteTaskNow`. -/
theorem additions_ExecuteTaskNow (message : ProtoMessage) (rest : List (TimerCall Φ)) :
    additions (.ExecuteTaskNow message :: rest) = additions rest := by
  simp [additions]

/-- The counter after a sequence of calls. -/
theorem calls_task_id (sequence : List (TimerCall Φ)) (timer : Routing.Timer Φ)
    (small : timer.task_id_ < 2 ^ 32) :
    (timer.calls sequence).1.task_id_ = (timer.task_id_ + additions sequence) % 2 ^ 32 := by
  induction sequence generalizing timer with
  | nil =>
    simp only [calls, additions, List.filter_nil, List.length_nil, Nat.add_zero]
    exact (Nat.mod_eq_of_lt small).symm
  | cons first rest ih =>
    cases first with
    | AddTask timeout response_functor =>
      have step := ih (timer.call (.AddTask timeout response_functor)).1
        (by simp only [call, AddTask]; exact Nat.mod_lt _ (by norm_num))
      simp only [calls, additions_AddTask]
      rw [step]
      simp only [call, AddTask]
      exact counter_shift _ _
    | KillTask task_id =>
      have same : (timer.call (.KillTask task_id)).1.task_id_ = timer.task_id_ := by
        simp only [call, KillTask]
        split <;> rfl
      have step := ih (timer.call (.KillTask task_id)).1 (by rw [same]; exact small)
      simp only [calls, additions_KillTask]
      rw [step, same]
    | ExecuteTaskNow message =>
      have same : (timer.call (.ExecuteTaskNow message)).1.task_id_ = timer.task_id_ := by
        simp only [call, ExecuteTaskNow]
        split
        · rfl
        · split <;> rfl
      have step := ih (timer.call (.ExecuteTaskNow message)).1 (by rw [same]; exact small)
      simp only [calls, additions_ExecuteTaskNow]
      rw [step, same]

/-- Every id in the queue after a sequence of calls was in the queue before or
was handed out by one of its `AddTask` calls. -/
theorem calls_keys (sequence : List (TimerCall Φ)) (timer : Routing.Timer Φ) (task_id : TaskId)
    (present : find (timer.calls sequence).1.queue_ task_id ≠ none) :
    find timer.queue_ task_id ≠ none ∨
    ∃ i, 1 ≤ i ∧ i ≤ additions sequence ∧ task_id = (timer.task_id_ + i) % 2 ^ 32 := by
  induction sequence generalizing timer with
  | nil => exact Or.inl present
  | cons first rest ih =>
    cases first with
    | AddTask timeout response_functor =>
      rcases ih (timer.call (.AddTask timeout response_functor)).1 present with held | ⟨i, low, high, same⟩
      · simp only [call, AddTask] at held
        rcases find_insert_some _ _ _ held with before | fresh
        · exact Or.inl before
        · refine Or.inr ⟨1, le_refl 1, ?_, fresh⟩
          rw [additions_AddTask]
          omega
      · refine Or.inr ⟨i + 1, by omega, ?_, ?_⟩
        · rw [additions_AddTask]
          omega
        · simp only [call, AddTask] at same
          rw [same]
          exact counter_shift _ _
    | KillTask other =>
      rcases ih (timer.call (.KillTask other)).1 present with held | ⟨i, low, high, same⟩
      · left
        simp only [call, KillTask] at held
        split at held
        · exact find_erase_some _ _ _ held
        · exact held
      · refine Or.inr ⟨i, low, ?_, ?_⟩
        · rwa [additions_KillTask]
        · have kept : (timer.call (.KillTask other)).1.task_id_ = timer.task_id_ := by
            simp only [call, KillTask]
            split <;> rfl
          rw [same, kept]
    | ExecuteTaskNow message =>
      rcases ih (timer.call (.ExecuteTaskNow message)).1 present with held | ⟨i, low, high, same⟩
      · left
        simp only [call, ExecuteTaskNow] at held
        split at held
        · exact held
        · split at held
          · exact find_erase_some _ _ _ held
          · exact held
      · refine Or.inr ⟨i, low, ?_, ?_⟩
        · rwa [additions_ExecuteTaskNow]
        · have kept : (timer.call (.ExecuteTaskNow message)).1.task_id_ = timer.task_id_ := by
            simp only [call, ExecuteTaskNow]
            split
            · rfl
            · split <;> rfl
          rw [same, kept]

end Timer

/-! ## The claims on `Timer` -/

/-- Claim C11. Over every sequence of `AddTask`, `KillTask` and
`ExecuteTaskNow` calls on a `Timer`, a functor is dispatched at most as often
as it was registered by `AddTask`, so the functor of one `AddTask` call is
dispatched at most once. `AddTask` dispatches nothing. After `KillTask` or
`ExecuteTaskNow` the id they looked up is not in the queue; and as long as an
id is not in the queue, `KillTask` and `ExecuteTaskNow` with that id leave
the timer as it is and dispatch nothing, which stays so over every later
sequence of calls that adds no task. -/
theorem C11_functor_dispatched_at_most_once {Φ : Type} [DecidableEq Φ] (RandomUint32 : Nat)
    (sequence : List (TimerCall Φ)) (functor : Φ) (timer : Timer Φ) :
    Timer.dispatched functor ((Timer.construct RandomUint32).calls sequence).2 ≤
      Timer.registrations functor sequence ∧
    (∀ timeout response_functor, (timer.call (.AddTask timeout response_functor)).2 = []) ∧
    (∀ task_id, Timer.find (timer.KillTask task_id).1.queue_ task_id = none) ∧
    (∀ message task_id, message.id = some task_id →
      Timer.find (timer.ExecuteTaskNow message).1.queue_ task_id = none) ∧
    (∀ task_id, Timer.find timer.queue_ task_id = none →
      timer.KillTask task_id = (timer, []) ∧
      (∀ message, message.id = some task_id → timer.ExecuteTaskNow message = (timer, [])) ∧
      ∀ later : List (TimerCall Φ), Timer.additions later = 0 →
        Timer.find (timer.calls later).1.queue_ task_id = none) := by
  refine ⟨?_, fun _ _ => rfl, ?_, ?_, ?_⟩
  · have bound := Timer.calls_bound functor sequence (Timer.construct RandomUint32)
    simp only [Timer.construct, Timer.pending, List.filter_nil, List.length_nil] at bound
    simp only [Timer.construct]
    omega
  · intro task_id
    unfold Timer.KillTask
    cases present : Timer.find timer.queue_ task_id with
    | none => exact present
    | some found => exact Timer.find_erase_self _ _
  · intro message task_id tagged
    unfold Timer.ExecuteTaskNow
    rw [tagged]
    cases present : Timer.find timer.queue_ task_id with
    | none => simp only [present]
    | some found => simpa only [present] using Timer.find_erase_self _ _
  · intro task_id absent
    refine ⟨?_, ?_, fun later not_add => Timer.calls_keep_absent later timer task_id absent not_add⟩
    · unfold Timer.KillTask
      rw [absent]
    · intro message tagged
      unfold Timer.ExecuteTaskNow
      rw [tagged]
      simp only [absent]

/-- Claim C11 on a timer started at 41: functor 7 is added once as task 42;
the response, the deadline and a second response with id 42 then dispatch it
once in all. -/
theorem C11_functor_dispatched_at_most_once_witness :
    Timer.dispatched 7 ((Timer.construct 41).calls
      [TimerCall.AddTask 500 (some 7),
       .ExecuteTaskNow { ProtoMessage.empty with id := some 42, data := [[1]] },
       .KillTask 42,
       .ExecuteTaskNow { ProtoMessage.empty with id := some 42, data := [[2]] }]).2 ≤ 1 ∧
    ((Timer.construct 41).calls
      [TimerCall.AddTask 500 (some 7),
       .ExecuteTaskNow { ProtoMessage.empty with id := some 42, data := [[1]] },
       .KillTask 42,
       .ExecuteTaskNow { ProtoMessage.empty with id := some 42, data := [[2]] }]).2 =
      [⟨7, .kSuccess, [[1]]⟩] :=
  ⟨(C11_functor_dispatched_at_most_once 41
      [TimerCall.AddTask 500 (some 7),
       .ExecuteTaskNow { ProtoMessage.empty with id := some 42, data := [[1]] },
       .KillTask 42,
       .ExecuteTaskNow { ProtoMessage.empty with id := some 42, data := [[2]] }]
      7 (Timer.construct 41)).1, rfl⟩

/-- Claim C13. `KillTask` on a task that is pending erases it from the queue
and dispatches its functor with `kResponseTimeout` and an empty vector; the
id is then absent and every other task is as before. When no task has the
id, the timer is unchanged and nothing is dispatched. -/
theorem C13_deadline_fires {Φ : Type} (timer : Timer Φ) (task_id : TaskId) :
    (∀ timeout functor, Timer.find timer.queue_ task_id = some (timeout, some functor) →
      timer.KillTask task_id =
        ({ timer with queue_ := Timer.erase timer.queue_ task_id },
          [⟨functor, .kResponseTimeout, []⟩]) ∧
      Timer.find (timer.KillTask task_id).1.queue_ task_id = none ∧
      ∀ other, other ≠ task_id →
        Timer.find (timer.KillTask task_id).1.queue_ other = Timer.find timer.queue_ other) ∧
    (Timer.find timer.queue_ task_id = none → timer.KillTask task_id = (timer, [])) := by
  constructor
  · intro timeout functor present
    have shape : timer.KillTask task_id =
        ({ timer with queue_ := Timer.erase timer.queue_ task_id },
          [⟨functor, .kResponseTimeout, []⟩]) := by
      unfold Timer.KillTask
      rw [present]
    rw [shape]
    exact ⟨rfl, Timer.find_erase_self _ _, fun other differs =>
      Timer.find_erase_other _ _ _ differs⟩
  · intro absent
    unfold Timer.KillTask
    rw [absent]

/-- Claim C13 on a timer that holds the tasks 42 and 43: the deadline of 42
dispatches functor 7 with a timeout and leaves 43; a second firing does
nothing. -/
theorem C13_deadline_fires_witness :
    (⟨43, [(42, 2000, some 7), (43, 2000, some 8)]⟩ : Timer Nat).KillTask 42 =
      (⟨43, [(43, 2000, some 8)]⟩, [⟨7, .kResponseTimeout, []⟩]) ∧
    (⟨43, [(43, 2000, some 8)]⟩ : Timer Nat).KillTask 42 =
      (⟨43, [(43, 2000, some 8)]⟩, []) :=
  ⟨((C13_deadline_fires ⟨43, [(42, 2000, some 7), (43, 2000, some 8)]⟩ 42).1 2000 7 rfl).1,
    (C13_deadline_fires ⟨43, [(43, 2000, some 8)]⟩ 42).2 rfl⟩

/-- Claim C14. On a `Timer` constructed with the random value `RandomUint32`,
after any sequence of calls the counter stands at `start + additions` modulo
`2 ^ 32`, where `start` is the random value as a 32-bit number and
`additions` the number of `AddTask` calls made; the next `AddTask` returns
`start + (additions + 1)` modulo `2 ^ 32`, which is the counter plus one
modulo `2 ^ 32`. Two ids handed out fewer than `2 ^ 32` calls apart differ.
`AddTask` leaves every entry of the queue as it was, and, when fewer than
`2 ^ 32` tasks were added before, the new id maps to the new task and the
lookup of every other id is unchanged. -/
theorem C14_task_ids {Φ : Type} (RandomUint32 : Nat) (sequence : List (TimerCall Φ))
    (timeout : Duration) (response_functor : Option Φ) :
    ((Timer.construct RandomUint32 : Timer Φ).calls sequence).1.task_id_ =
      (RandomUint32 % 2 ^ 32 + Timer.additions sequence) % 2 ^ 32 ∧
    ((((Timer.construct RandomUint32 : Timer Φ).calls sequence).1.AddTask timeout
        response_functor).1 =
      (RandomUint32 % 2 ^ 32 + (Timer.additions sequence + 1)) % 2 ^ 32) ∧
    ((((Timer.construct RandomUint32 : Timer Φ).calls sequence).1.AddTask timeout
        response_functor).1 =
      (((Timer.construct RandomUint32 : Timer Φ).calls sequence).1.task_id_ + 1) % 2 ^ 32) ∧
    (∀ i j : Nat, i < j → j - i < 2 ^ 32 →
      (RandomUint32 % 2 ^ 32 + i) % 2 ^ 32 ≠ (RandomUint32 % 2 ^ 32 + j) % 2 ^ 32) ∧
    (∀ task_id entry,
      Timer.find ((Timer.construct RandomUint32 : Timer Φ).calls sequence).1.queue_ task_id =
        some entry →
      Timer.find ((((Timer.construct RandomUint32 : Timer Φ).calls sequence).1.AddTask timeout
        response_functor).2).queue_ task_id = some entry) ∧
    (Timer.additions sequence < 2 ^ 32 →
      Timer.find ((((Timer.construct RandomUint32 : Timer Φ).calls sequence).1.AddTask timeout
          response_functor).2).queue_
        ((RandomUint32 % 2 ^ 32 + (Timer.additions sequence + 1)) % 2 ^ 32) =
        some (timeout, response_functor) ∧
      ∀ other, other ≠ (RandomUint32 % 2 ^ 32 + (Timer.additions sequence + 1)) % 2 ^ 32 →
        Timer.find ((((Timer.construct RandomUint32 : Timer Φ).calls sequence).1.AddTask
          timeout response_functor).2).queue_ other =
        Timer.find ((Timer.construct RandomUint32 : Timer Φ).calls sequence).1.queue_ other) := by
  have small : (Timer.construct RandomUint32 : Timer Φ).task_id_ < 2 ^ 32 :=
    Nat.mod_lt _ (by norm_num)
  have counter := Timer.calls_task_id sequence (Timer.construct RandomUint32 : Timer Φ) small
  have keys := Timer.calls_keys sequence (Timer.construct RandomUint32 : Timer Φ)
  have start : (Timer.construct RandomUint32 : Timer Φ).task_id_ = RandomUint32 % 2 ^ 32 := rfl
  have empty : (Timer.construct RandomUint32 : Timer Φ).queue_ = [] := rfl
  rw [start] at counter
  simp only [start, empty] at keys
  generalize ((Timer.construct RandomUint32 : Timer Φ).calls sequence).1 = timer at counter keys ⊢
  have next : (timer.AddTask timeout response_functor).1 =
      (RandomUint32 % 2 ^ 32 + (Timer.additions sequence + 1)) % 2 ^ 32 := by
    simp only [Timer.AddTask]
    rw [counter]
    exact Timer.counter_next _ _
  refine ⟨counter, next, rfl, fun i j before near => Timer.counter_distinct _ i j before near,
    ?_, ?_⟩
  · intro task_id entry present
    exact Timer.find_insert_of_some _ _ _ _ present
  · intro few
    have absent : Timer.find timer.queue_
        ((RandomUint32 % 2 ^ 32 + (Timer.additions sequence + 1)) % 2 ^ 32) = none := by
      by_contra present
      rcases keys _ present with impossible | ⟨i, low, high, same⟩
      · exact impossible rfl
      · exact Timer.counter_distinct (RandomUint32 % 2 ^ 32) i (Timer.additions sequence + 1)
          (by omega) (by omega) same.symm
    have inserted := Timer.find_insert_of_absent timer.queue_
      ((RandomUint32 % 2 ^ 32 + (Timer.additions sequence + 1)) % 2 ^ 32, timeout,
        response_functor) absent
    have id_eq : (timer.task_id_ + 1) % 2 ^ 32 =
        (RandomUint32 % 2 ^ 32 + (Timer.additions sequence + 1)) % 2 ^ 32 := next
    simp only [Timer.AddTask, id_eq]
    exact inserted

/-- Claim C14 on a timer started at the largest 32-bit value: the first task
gets id 0, and after it is added the second gets id 1 and leaves task 0 in
the queue. -/
theorem C14_task_ids_witness :
    ((Timer.construct 4294967295 : Timer Nat).AddTask 500 (some 7)).1 = 0 ∧
    ((((Timer.construct 4294967295 : Timer Nat).calls [TimerCall.AddTask 500 (some 7)]).1.AddTask
        600 (some 8)).1 = 1) ∧
    ((((Timer.construct 4294967295 : Timer Nat).calls [TimerCall.AddTask 500 (some 7)]).1.AddTask
        600 (some 8)).2).queue_ = [(0, 500, some 7), (1, 600, some 8)] :=
  ⟨(C14_task_ids 4294967295 ([] : List (TimerCall Nat)) 500 (some 7)).2.1,
    (C14_task_ids 4294967295 [TimerCall.AddTask 500 (some 7)] 600 (some 8)).2.1,
    by decide⟩

/-! ## Lemmas on `Routing::Impl` -/

namespace Impl

variable {RT NRT N T : Type}

/-- The part of the state that `Send` reads after the task is added is
untouched by adding it. -/
theorem SendState_fields (D : ImplCollaborators RT NRT N T) (impl : Impl RT NRT N T)
    (response_functor : Option ResponseFunctor) (timeout : Duration)
    (destination_type : DestinationType) :
    (SendState D impl response_functor timeout destination_type).kAnonymousNode_ =
      impl.kAnonymousNode_ ∧
    (SendState D impl response_functor timeout destination_type).routing_table_ =
      impl.routing_table_ ∧
    (SendState D impl response_functor timeout destination_type).network_ = impl.network_ ∧
    (SendState D impl response_functor timeout destination_type).kNodeId_ = impl.kNodeId_ ∧
    (SendState D impl response_functor timeout destination_type).running_ = impl.running_ := by
  cases response_functor <;> exact ⟨rfl, rfl, rfl, rfl, rfl⟩

/-- The relay branch of `SendOut`. -/
theorem SendOut_relay (D : ImplCollaborators RT NRT N T) (impl : Impl RT NRT N T)
    (before : List ImplCall) (proto_message : ProtoMessage) (destination_id : NodeId)
    (relay : impl.kAnonymousNode_ = true ∨ D.size impl.routing_table_ = 0) :
    SendOut D impl before proto_message destination_id =
      ⟨impl,
        before ++ [ImplCall.SendToDirect
          { proto_message with
            relay_id := some impl.kNodeId_
            relay_connection_id := some (D.this_node_relay_connection_id impl.network_) }
          (D.bootstrap_connection_id impl.network_)
          (.Send
            { proto_message with
              relay_id := some impl.kNodeId_
              relay_connection_id := some (D.this_node_relay_connection_id impl.network_) }
            (D.bootstrap_connection_id impl.network_))],
        some ()⟩ := by
  have taken : (impl.kAnonymousNode_ || D.size impl.routing_table_ == 0) = true := by
    rcases relay with anonymous | empty
    · simp [anonymous]
    · simp [empty]
  simp only [SendOut, taken, if_true]

/-- The branch of `SendOut` that hands the message to the closest node. -/
theorem SendOut_closest (D : ImplCollaborators RT NRT N T) (impl : Impl RT NRT N T)
    (before : List ImplCall) (proto_message : ProtoMessage) (destination_id : NodeId)
    (named : impl.kAnonymousNode_ = false) (joined : D.size impl.routing_table_ ≠ 0)
    (away : impl.kNodeId_ ≠ destination_id ∨ D.client_mode impl.routing_table_ = true) :
    SendOut D impl before proto_message destination_id =
      ⟨impl,
        before ++ [ImplCall.SendToClosestNode
          { proto_message with source_id := some impl.kNodeId_ }],
        some ()⟩ := by
  have skipped : (impl.kAnonymousNode_ || D.size impl.routing_table_ == 0) = false := by
    simp [named, joined]
  simp only [SendOut, skipped]
  by_cases same : impl.kNodeId_ = destination_id
  · rcases away with differs | client
    · exact absurd same differs
    · simp [same, client]
  · simp [same]

/-- The branch of `SendOut` that gives the message back to this node. -/
theorem SendOut_self (D : ImplCollaborators RT NRT N T) (impl : Impl RT NRT N T)
    (before : List ImplCall) (proto_message : ProtoMessage) (destination_id : NodeId)
    (named : impl.kAnonymousNode_ = false) (joined : D.size impl.routing_table_ ≠ 0)
    (same : impl.kNodeId_ = destination_id) (vault : D.client_mode impl.routing_table_ = false) :
    SendOut D impl before proto_message destination_id =
      ⟨impl,
        before ++ OnMessageReceived impl
          (D.SerializeAsString { proto_message with source_id := some impl.kNodeId_ }),
        some ()⟩ := by
  have skipped : (impl.kAnonymousNode_ || D.size impl.routing_table_ == 0) = false := by
    simp [named, joined]
  simp [SendOut, skipped, same, vault]

/-- Valid input passes the two checks of `Send`. -/
theorem Send_of_valid (D : ImplCollaborators RT NRT N T) (impl : Impl RT NRT N T)
    (destination_id group_claim : NodeId) (data : SerialisedData)
    (response_functor : Option ResponseFunctor) (timeout : Duration)
    (destination_type : DestinationType) (cacheable : Bool)
    (nonzero : destination_id ≠ 0) (nonempty : data ≠ [])
    (fits : data.length ≤ D.parameters.max_data_size) :
    Send D impl destination_id group_claim data response_functor timeout destination_type
        cacheable =
      SendAccepted D impl destination_id group_claim data response_functor timeout
        destination_type cacheable := by
  have first : (destination_id == 0) = false := by simpa using nonzero
  have second : (data.isEmpty || decide (data.length > D.parameters.max_data_size)) = false := by
    cases data with
    | nil => exact absurd rfl nonempty
    | cons head tail =>
      simp only [List.isEmpty_cons, Bool.false_or, decide_eq_false_iff_not, not_lt, gt_iff_lt]
      exact fits
  simp only [Send, first, second]
  rfl

/-- Invalid input is answered by `Rejected`. -/
theorem Send_of_invalid (D : ImplCollaborators RT NRT N T) (impl : Impl RT NRT N T)
    (destination_id group_claim : NodeId) (data : SerialisedData)
    (response_functor : Option ResponseFunctor) (timeout : Duration)
    (destination_type : DestinationType) (cacheable : Bool)
    (invalid : destination_id = 0 ∨ data = [] ∨ D.parameters.max_data_size < data.length) :
    Send D impl destination_id group_claim data response_functor timeout destination_type
        cacheable = Rejected impl response_functor := by
  unfold Send
  rcases invalid with zero | empty | long
  · simp [zero]
  · simp [empty]
  · have over : decide (data.length > D.parameters.max_data_size) = true := by simpa using long
    simp [over]

/-- The calls of `SendRegistered` are `AddTask` calls. -/
theorem SendRegistered_filter (D : ImplCollaborators RT NRT N T) (impl : Impl RT NRT N T)
    (response_functor : Option ResponseFunctor) (timeout : Duration)
    (destination_type : DestinationType) :
    (SendRegistered D impl response_functor timeout destination_type).filter
        ImplCall.isAddTask =
      SendRegistered D impl response_functor timeout destination_type ∧
    (SendRegistered D impl response_functor timeout destination_type).filter
        ImplCall.isSend = [] ∧
    (SendRegistered D impl response_functor timeout destination_type).filter
        ImplCall.isLocalDelivery = [] ∧
    (SendRegistered D impl response_functor timeout destination_type).filter
        ImplCall.isResponse = [] := by
  cases response_functor <;> exact ⟨rfl, rfl, rfl, rfl⟩

/-- The calls of `OnMessageReceived` are local deliveries. -/
theorem OnMessageReceived_filter (impl : Impl RT NRT N T) (message : SerialisedData) :
    (OnMessageReceived impl message).filter ImplCall.isAddTask = [] ∧
    (OnMessageReceived impl message).filter ImplCall.isSend = [] ∧
    (OnMessageReceived impl message).filter ImplCall.isResponse = [] ∧
    (OnMessageReceived impl message).filter ImplCall.isLocalDelivery =
      OnMessageReceived impl message := by
  unfold OnMessageReceived
  split <;> exact ⟨rfl, rfl, rfl, rfl⟩

end Impl

/-! ## The claims on `Routing::Impl` -/

/-- Claim C15. `Send` with a zero destination id, an empty payload or a
payload longer than `Parameters::max_data_size` leaves the state as it is and
makes one call only, the response functor with an empty list, or no call at
all when no functor was given: no task is added, nothing is sent and nothing
is delivered locally. With a non-zero destination and a non-empty payload of
at most `max_data_size` bytes, `Send` goes on to build and hand over the
message and does not call the response functor. -/
theorem C15_send_rejects_invalid_input {RT NRT N T : Type} (D : ImplCollaborators RT NRT N T)
    (impl : Impl RT NRT N T) (destination_id group_claim : NodeId) (data : SerialisedData)
    (response_functor : Option ResponseFunctor) (timeout : Duration)
    (destination_type : DestinationType) (cacheable : Bool) :
    (destination_id = 0 ∨ data = [] ∨ D.parameters.max_data_size < data.length →
      (Impl.Send D impl destination_id group_claim data response_functor timeout
        destination_type cacheable).state = impl ∧
      (Impl.Send D impl destination_id group_claim data response_functor timeout
        destination_type cacheable).value = some () ∧
      (Impl.Send D impl destination_id group_claim data response_functor timeout
        destination_type cacheable).trace =
        (match response_functor with
         | some functor => [ImplCall.response_functor functor []]
         | none => [])) ∧
    (destination_id ≠ 0 → data ≠ [] → data.length ≤ D.parameters.max_data_size →
      Impl.Send D impl destination_id group_claim data response_functor timeout
          destination_type cacheable =
        Impl.SendAccepted D impl destination_id group_claim data response_functor timeout
          destination_type cacheable ∧
      (Impl.Send D impl destination_id group_claim data response_functor timeout
        destination_type cacheable).trace.filter ImplCall.isResponse = [] ∧
      ((Impl.Send D impl destination_id group_claim data response_functor timeout
        destination_type cacheable).trace.filter ImplCall.isAddTask).length =
        if response_functor.isSome then 1 else 0) := by
  constructor
  · intro invalid
    rw [Impl.Send_of_invalid D impl destination_id group_claim data response_functor timeout
      destination_type cacheable invalid]
    exact ⟨rfl, rfl, rfl⟩
  · intro nonzero nonempty fits
    rw [Impl.Send_of_valid D impl destination_id group_claim data response_functor timeout
      destination_type cacheable nonzero nonempty fits]
    refine ⟨rfl, ?_, ?_⟩
    · have registered := Impl.SendRegistered_filter D impl response_functor timeout
        destination_type
      have delivered := Impl.OnMessageReceived_filter
        (Impl.SendState D impl response_functor timeout destination_type)
      unfold Impl.SendAccepted Impl.SendOut
      split
      · simp [List.filter_append, registered.2.2.2, ImplCall.isResponse]
      · split
        · simp [List.filter_append, registered.2.2.2, ImplCall.isResponse]
        · split
          · simp [List.filter_append, registered.2.2.2, ImplCall.isResponse]
          · simp [List.filter_append, registered.2.2.2, (delivered _).2.2.1]
    · have registered := Impl.SendRegistered_filter D impl response_functor timeout
        destination_type
      have delivered := Impl.OnMessageReceived_filter
        (Impl.SendState D impl response_functor timeout destination_type)
      have counted : (Impl.SendRegistered D impl response_functor timeout
          destination_type).length = if response_functor.isSome then 1 else 0 := by
        cases response_functor <;> rfl
      unfold Impl.SendAccepted Impl.SendOut
      split
      · simp [List.filter_append, registered.1, ImplCall.isAddTask, counted]
      · split
        · simp [List.filter_append, registered.1, ImplCall.isAddTask, counted]
        · split
          · simp [List.filter_append, registered.1, ImplCall.isAddTask, counted]
          · simp [List.filter_append, registered.1, (delivered _).1, counted]

/-- Claim C15 on the joined sample node, where `max_data_size` is 3: a send
to the zero id, an empty payload and a payload of four bytes each call the
functor once with an empty list and do nothing else; a payload of three
bytes is handed to the closest node after its task is added. -/
theorem C15_send_rejects_invalid_input_witness :
    (Impl.Send SampleImpl.collaborators SampleImpl.joined 0 0 [1] (some (.supplied 7)) 500
      .kDirect false).trace = [ImplCall.response_functor (.supplied 7) []] ∧
    (Impl.Send SampleImpl.collaborators SampleImpl.joined 2 0 [] (some (.supplied 7)) 500
      .kDirect false).trace = [ImplCall.response_functor (.supplied 7) []] ∧
    (Impl.Send SampleImpl.collaborators SampleImpl.joined 2 0 [1, 2, 3, 4] (some (.supplied 7))
      500 .kDirect false).trace = [ImplCall.response_functor (.supplied 7) []] ∧
    (Impl.Send SampleImpl.collaborators SampleImpl.joined 2 0 [1, 2, 3] (some (.supplied 7))
      500 .kDirect false).trace.filter ImplCall.isResponse = [] ∧
    (Impl.Send SampleImpl.collaborators SampleImpl.joined 2 0 [1, 2, 3] (some (.supplied 7))
      500 .kDirect false).trace.map ImplCall.isSend = [false, true] :=
  ⟨((C15_send_rejects_invalid_input SampleImpl.collaborators SampleImpl.joined 0 0 [1]
      (some (.supplied 7)) 500 .kDirect false).1 (Or.inl rfl)).2.2,
    ((C15_send_rejects_invalid_input SampleImpl.collaborators SampleImpl.joined 2 0 []
      (some (.supplied 7)) 500 .kDirect false).1 (Or.inr (Or.inl rfl))).2.2,
    ((C15_send_rejects_invalid_input SampleImpl.collaborators SampleImpl.joined 2 0 [1, 2, 3, 4]
      (some (.supplied 7)) 500 .kDirect false).1 (Or.inr (Or.inr (by decide)))).2.2,
    ((C15_send_rejects_invalid_input SampleImpl.collaborators SampleImpl.joined 2 0 [1, 2, 3]
      (some (.supplied 7)) 500 .kDirect false).2 (by decide) (by decide) (by decide)).2.1,
    by decide⟩

/-- Claim C16. For an accepted `Send` (non-zero destination, non-empty
payload of at most `max_data_size` bytes): without a functor no task is added
and the state is unchanged; with a functor exactly one task is added, with
the functor and the timeout given, and the timer of the state is the one
`AddTask` returned. For destination type Group the task is added with
`Parameters::node_group_size` responses needed, for Direct with 1. The one
message handed over (to the bootstrap connection, to the closest node, or
serialised to `OnMessageReceived`) carries the id `AddTask` returned, and no
id without a functor; its replication is `node_group_size` for Group, as
long as that fits the 16 bits of `replication`, and 1 for Direct. -/
theorem C16_send_registers_task {RT NRT N T : Type} (D : ImplCollaborators RT NRT N T)
    (impl : Impl RT NRT N T) (destination_id group_claim : NodeId) (data : SerialisedData)
    (response_functor : Option ResponseFunctor) (timeout : Duration)
    (destination_type : DestinationType) (cacheable : Bool)
    (nonzero : destination_id ≠ 0) (nonempty : data ≠ [])
    (fits : data.length ≤ D.parameters.max_data_size) :
    (response_functor = none →
      (Impl.Send D impl destination_id group_claim data response_functor timeout
        destination_type cacheable).trace.filter ImplCall.isAddTask = [] ∧
      (Impl.Send D impl destination_id group_claim data response_functor timeout
        destination_type cacheable).state = impl) ∧
    (∀ functor, response_functor = some functor →
      (destination_type = .kGroup →
        (Impl.Send D impl destination_id group_claim data response_functor timeout
          destination_type cacheable).trace.filter ImplCall.isAddTask =
          [ImplCall.timer_AddTask timeout functor D.parameters.node_group_size
            (D.TimerAddTask impl.timer_ timeout functor D.parameters.node_group_size).1] ∧
        (Impl.Send D impl destination_id group_claim data response_functor timeout
          destination_type cacheable).state =
          { impl with
            timer_ :=
              (D.TimerAddTask impl.timer_ timeout functor D.parameters.node_group_size).2 }) ∧
      (destination_type ≠ .kGroup →
        (Impl.Send D impl destination_id group_claim data response_functor timeout
          destination_type cacheable).trace.filter ImplCall.isAddTask =
          [ImplCall.timer_AddTask timeout functor 1
            (D.TimerAddTask impl.timer_ timeout functor 1).1] ∧
        (Impl.Send D impl destination_id group_claim data response_functor timeout
          destination_type cacheable).state =
          { impl with timer_ := (D.TimerAddTask impl.timer_ timeout functor 1).2 })) ∧
    ∃ handed : ProtoMessage,
      ((Impl.Send D impl destination_id group_claim data response_functor timeout
          destination_type cacheable).trace =
          Impl.SendRegistered D impl response_functor timeout destination_type ++
            [ImplCall.SendToDirect handed (D.bootstrap_connection_id impl.network_)
              (.Send handed (D.bootstrap_connection_id impl.network_))] ∨
        (Impl.Send D impl destination_id group_claim data response_functor timeout
          destination_type cacheable).trace =
          Impl.SendRegistered D impl response_functor timeout destination_type ++
            [ImplCall.SendToClosestNode handed] ∨
        (Impl.Send D impl destination_id group_claim data response_functor timeout
          destination_type cacheable).trace =
          Impl.SendRegistered D impl response_functor timeout destination_type ++
            Impl.OnMessageReceived
              (Impl.Send D impl destination_id group_claim data response_functor timeout
                destination_type cacheable).state (D.SerializeAsString handed)) ∧
      handed.destination_id = some destination_id ∧
      handed.data = [data] ∧
      handed.id = response_functor.map (fun functor =>
        (D.TimerAddTask impl.timer_ timeout functor
          (if destination_type = .kGroup then D.parameters.node_group_size else 1)).1) ∧
      (destination_type = .kGroup → D.parameters.node_group_size < 2 ^ 16 →
        handed.replication = some D.parameters.node_group_size) ∧
      (destination_type ≠ .kGroup → handed.replication = some 1) := by
  rw [Impl.Send_of_valid D impl destination_id group_claim data response_functor timeout
    destination_type cacheable nonzero nonempty fits]
  have registered := Impl.SendRegistered_filter D impl response_functor timeout
    destination_type
  have fields := Impl.SendState_fields D impl response_functor timeout destination_type
  have delivered := Impl.OnMessageReceived_filter
    (Impl.SendState D impl response_functor timeout destination_type)
  have needed_group : destination_type = .kGroup →
      Impl.SendResponsesNeeded D destination_type = D.parameters.node_group_size := by
    intro group
    simp [Impl.SendResponsesNeeded, group]
  have needed_other : destination_type ≠ .kGroup →
      Impl.SendResponsesNeeded D destination_type = 1 := by
    intro other
    have differs : ¬DestinationType.kGroup = destination_type := fun same => other same.symm
    simp [Impl.SendResponsesNeeded, differs]
  have needed : Impl.SendResponsesNeeded D destination_type =
      if destination_type = .kGroup then D.parameters.node_group_size else 1 := by
    by_cases group : destination_type = .kGroup
    · rw [needed_group group, if_pos group]
    · rw [needed_other group, if_neg group]
  have routes :
      (Impl.SendAccepted D impl destination_id group_claim data response_functor timeout
          destination_type cacheable).state =
        Impl.SendState D impl response_functor timeout destination_type ∧
      (Impl.SendAccepted D impl destination_id group_claim data response_functor timeout
          destination_type cacheable).trace.filter ImplCall.isAddTask =
        Impl.SendRegistered D impl response_functor timeout destination_type ∧
      ∃ handed : ProtoMessage,
        ((Impl.SendAccepted D impl destination_id group_claim data response_functor timeout
            destination_type cacheable).trace =
            Impl.SendRegistered D impl response_functor timeout destination_type ++
              [ImplCall.SendToDirect handed (D.bootstrap_connection_id impl.network_)
                (.Send handed (D.bootstrap_connection_id impl.network_))] ∨
          (Impl.SendAccepted D impl destination_id group_claim data response_functor timeout
            destination_type cacheable).trace =
            Impl.SendRegistered D impl response_functor timeout destination_type ++
              [ImplCall.SendToClosestNode handed] ∨
          (Impl.SendAccepted D impl destination_id group_claim data response_functor timeout
            destination_type cacheable).trace =
            Impl.SendRegistered D impl response_functor timeout destination_type ++
              Impl.OnMessageReceived
                (Impl.SendAccepted D impl destination_id group_claim data response_functor
                  timeout destination_type cacheable).state (D.SerializeAsString handed)) ∧
        handed.destination_id = some destination_id ∧
        handed.data = [data] ∧
        handed.id = Impl.SendTaskId D impl response_functor timeout destination_type ∧
        handed.replication = some
          (if DestinationType.kGroup = destination_type then
            D.parameters.node_group_size % 2 ^ 16
           else 1) := by
    unfold Impl.SendAccepted
    by_cases relay : impl.kAnonymousNode_ = true ∨ D.size impl.routing_table_ = 0
    · rw [Impl.SendOut_relay D _ _ _ _ (by rw [fields.1, fields.2.1]; exact relay)]
      refine ⟨rfl, ?_,
        { (Impl.SendMessage D impl destination_id group_claim data
          (Impl.SendTaskId D impl response_functor timeout destination_type) destination_type
          cacheable) with
          relay_id := some impl.kNodeId_
          relay_connection_id := some (D.this_node_relay_connection_id impl.network_) },
        Or.inl ?_, rfl, rfl, rfl, rfl⟩
      · simp [List.filter_append, registered.1, ImplCall.isAddTask]
      · simp only [fields.2.2.1, fields.2.2.2.1]
    · have named : impl.kAnonymousNode_ = false := by
        cases anonymous : impl.kAnonymousNode_ with
        | true => exact absurd (Or.inl anonymous) relay
        | false => rfl
      have joined : D.size impl.routing_table_ ≠ 0 := fun empty => relay (Or.inr empty)
      by_cases away : impl.kNodeId_ ≠ destination_id ∨ D.client_mode impl.routing_table_ = true
      · rw [Impl.SendOut_closest D _ _ _ _ (by rw [fields.1]; exact named)
          (by rw [fields.2.1]; exact joined)
          (by rw [fields.2.2.2.1, fields.2.1]; exact away)]
        refine ⟨rfl, ?_,
          { (Impl.SendMessage D impl destination_id group_claim data
          (Impl.SendTaskId D impl response_functor timeout destination_type) destination_type
          cacheable) with source_id := some impl.kNodeId_ },
          Or.inr (Or.inl ?_), rfl, rfl, rfl, rfl⟩
        · simp [List.filter_append, registered.1, ImplCall.isAddTask]
        · simp only [fields.2.2.2.1]
      · have same : impl.kNodeId_ = destination_id := by
          by_contra differs
          exact away (Or.inl differs)
        have vault : D.client_mode impl.routing_table_ = false := by
          cases client : D.client_mode impl.routing_table_ with
          | true => exact absurd (Or.inr client) away
          | false => rfl
        rw [Impl.SendOut_self D _ _ _ _ (by rw [fields.1]; exact named)
          (by rw [fields.2.1]; exact joined)
          (by rw [fields.2.2.2.1]; exact same) (by rw [fields.2.1]; exact vault)]
        refine ⟨rfl, ?_,
          { (Impl.SendMessage D impl destination_id group_claim data
          (Impl.SendTaskId D impl response_functor timeout destination_type) destination_type
          cacheable) with source_id := some impl.kNodeId_ },
          Or.inr (Or.inr ?_), rfl, rfl, rfl, rfl⟩
        · simp [List.filter_append, registered.1, (delivered _).1]
        · simp only [fields.2.2.2.1]
  obtain ⟨state_eq, added, handed, route, target, payload, tagged, copies⟩ := routes
  refine ⟨?_, ?_, handed, route, target, payload, ?_, ?_, ?_⟩
  · intro absent
    rw [added, state_eq, absent]
    exact ⟨rfl, rfl⟩
  · intro functor present
    rw [added, state_eq, present]
    constructor
    · intro group
      unfold Impl.SendRegistered Impl.SendState
      rw [needed_group group]
      exact ⟨rfl, rfl⟩
    · intro other
      unfold Impl.SendRegistered Impl.SendState
      rw [needed_other other]
      exact ⟨rfl, rfl⟩
  · rw [tagged, Impl.SendTaskId, needed]
  · intro group small
    rw [copies, group, if_pos rfl, Nat.mod_eq_of_lt small]
  · intro other
    have differs : ¬DestinationType.kGroup = destination_type := fun same => other same.symm
    rw [copies, if_neg differs]

/-- Claim C16 on the joined sample node, whose timer stands at 41 and whose
group size is 4: a Group send with functor 7 adds task 42 with 4 responses
needed and hands over a message with id 42 and replication 4; a Direct send
adds it with 1 and replication 1; without a functor nothing is added and the
message has no id. -/
theorem C16_send_registers_task_witness :
    (Impl.Send SampleImpl.collaborators SampleImpl.joined 2 0 [1] (some (.supplied 7)) 500
      .kGroup false).trace.filter ImplCall.isAddTask =
      [ImplCall.timer_AddTask 500 (.supplied 7) 4 42] ∧
    (Impl.Send SampleImpl.collaborators SampleImpl.joined 2 0 [1] (some (.supplied 7)) 500
      .kGroup false).trace.map
        (fun call => call.message?.map fun message => (message.id, message.replication)) =
      [none, some (some 42, some 4)] ∧
    (Impl.Send SampleImpl.collaborators SampleImpl.joined 2 0 [1] (some (.supplied 7)) 500
      .kDirect false).trace.map
        (fun call => call.message?.map fun message => (message.id, message.replication)) =
      [none, some (some 42, some 1)] ∧
    (Impl.Send SampleImpl.collaborators SampleImpl.joined 2 0 [1] none 500
      .kGroup false).trace.map
        (fun call => call.message?.map fun message => (message.id, message.replication)) =
      [some (none, some 4)] :=
  ⟨(((C16_send_registers_task SampleImpl.collaborators SampleImpl.joined 2 0 [1]
      (some (.supplied 7)) 500 .kGroup false (by decide) (by decide) (by decide)).2.1
      (.supplied 7) rfl).1 rfl).1,
    by decide, by decide, by decide⟩

/-- Claim C17. On a node that is not anonymous, not in client mode and has a
non-empty routing table, an accepted `Send` to the node's own id passes the
serialised message, with the own id as source, to `OnMessageReceived` and
makes no transport send; while the node is running that posts the one local
delivery. An accepted `Send` to any other id hands the message to
`SendToClosestNode`, the only transport send, and delivers nothing locally. -/
theorem C17_send_to_self_is_delivered_locally {RT NRT N T : Type}
    (D : ImplCollaborators RT NRT N T) (impl : Impl RT NRT N T)
    (destination_id group_claim : NodeId) (data : SerialisedData)
    (response_functor : Option ResponseFunctor) (timeout : Duration)
    (destination_type : DestinationType) (cacheable : Bool)
    (nonzero : destination_id ≠ 0) (nonempty : data ≠ [])
    (fits : data.length ≤ D.parameters.max_data_size)
    (named : impl.kAnonymousNode_ = false) (vault : D.client_mode impl.routing_table_ = false)
    (joined : D.size impl.routing_table_ ≠ 0) :
    ∃ handed : ProtoMessage,
      handed.destination_id = some destination_id ∧
      handed.data = [data] ∧
      handed.source_id = some impl.kNodeId_ ∧
      (destination_id = impl.kNodeId_ →
        (Impl.Send D impl destination_id group_claim data response_functor timeout
          destination_type cacheable).trace =
          Impl.SendRegistered D impl response_functor timeout destination_type ++
            Impl.OnMessageReceived
              (Impl.Send D impl destination_id group_claim data response_functor timeout
                destination_type cacheable).state (D.SerializeAsString handed) ∧
        (Impl.Send D impl destination_id group_claim data response_functor timeout
          destination_type cacheable).trace.filter ImplCall.isSend = [] ∧
        (impl.running_ = true →
          (Impl.Send D impl destination_id group_claim data response_functor timeout
            destination_type cacheable).trace.filter ImplCall.isLocalDelivery =
            [ImplCall.post (.DoOnMessageReceived (D.SerializeAsString handed))])) ∧
      (destination_id ≠ impl.kNodeId_ →
        (Impl.Send D impl destination_id group_claim data response_functor timeout
          destination_type cacheable).trace =
          Impl.SendRegistered D impl response_functor timeout destination_type ++
            [ImplCall.SendToClosestNode handed] ∧
        (Impl.Send D impl destination_id group_claim data response_functor timeout
          destination_type cacheable).trace.filter ImplCall.isSend =
          [ImplCall.SendToClosestNode handed] ∧
        (Impl.Send D impl destination_id group_claim data response_functor timeout
          destination_type cacheable).trace.filter ImplCall.isLocalDelivery = []) := by
  rw [Impl.Send_of_valid D impl destination_id group_claim data response_functor timeout
    destination_type cacheable nonzero nonempty fits]
  have registered := Impl.SendRegistered_filter D impl response_functor timeout
    destination_type
  have fields := Impl.SendState_fields D impl response_functor timeout destination_type
  have delivered := Impl.OnMessageReceived_filter
    (Impl.SendState D impl response_functor timeout destination_type)
  refine ⟨{ (Impl.SendMessage D impl destination_id group_claim data
      (Impl.SendTaskId D impl response_functor timeout destination_type) destination_type
      cacheable) with source_id := some impl.kNodeId_ }, rfl, rfl, rfl, ?_, ?_⟩
  · intro same
    unfold Impl.SendAccepted
    rw [Impl.SendOut_self D _ _ _ _ (by rw [fields.1]; exact named)
      (by rw [fields.2.1]; exact joined)
      (by rw [fields.2.2.2.1]; exact same.symm) (by rw [fields.2.1]; exact vault)]
    rw [fields.2.2.2.1]
    refine ⟨rfl, ?_, ?_⟩
    · simp [List.filter_append, registered.2.1, (delivered _).2.1]
    · intro running
      have live : (Impl.SendState D impl response_functor timeout destination_type).running_ =
          true := by rw [fields.2.2.2.2]; exact running
      simp [List.filter_append, registered.2.2.1, Impl.OnMessageReceived, live,
        ImplCall.isLocalDelivery]
  · intro differs
    unfold Impl.SendAccepted
    rw [Impl.SendOut_closest D _ _ _ _ (by rw [fields.1]; exact named)
      (by rw [fields.2.1]; exact joined)
      (by rw [fields.2.2.2.1]; exact Or.inl fun same => differs same.symm)]
    rw [fields.2.2.2.1]
    refine ⟨rfl, ?_, ?_⟩
    · simp [List.filter_append, registered.2.1, ImplCall.isSend]
    · simp [List.filter_append, registered.2.2.1, ImplCall.isLocalDelivery]

/-- Claim C17 on the joined sample node, node 1 with two peers: a send to
node 1 posts one local delivery and sends nothing; a send to node 2 is one
`SendToClosestNode` and no local delivery. -/
theorem C17_send_to_self_is_delivered_locally_witness :
    (Impl.Send SampleImpl.collaborators SampleImpl.joined 1 0 [5] none 500 .kDirect
      false).trace.map (fun call => (call.isSend, call.isLocalDelivery)) = [(false, true)] ∧
    (Impl.Send SampleImpl.collaborators SampleImpl.joined 2 0 [5] none 500 .kDirect
      false).trace.map (fun call => (call.isSend, call.isLocalDelivery)) = [(true, false)] ∧
    (Impl.Send SampleImpl.collaborators SampleImpl.joined 1 0 [5] none 500 .kDirect
      false).trace.filter ImplCall.isSend = [] ∧
    (Impl.Send SampleImpl.collaborators SampleImpl.joined 2 0 [5] none 500 .kDirect
      false).trace.filter ImplCall.isLocalDelivery = [] :=
  ⟨by decide, by decide,
    (C17_send_to_self_is_delivered_locally SampleImpl.collaborators SampleImpl.joined 1 0 [5]
      none 500 .kDirect false (by decide) (by decide) (by decide) rfl rfl (by decide)).elim
      fun _ facts => (facts.2.2.2.1 rfl).2.1,
    (C17_send_to_self_is_delivered_locally SampleImpl.collaborators SampleImpl.joined 2 0 [5]
      none 500 .kDirect false (by decide) (by decide) (by decide) rfl rfl (by decide)).elim
      fun _ facts => (facts.2.2.2.2 (by decide)).2.2⟩

/-- Claim C18. When the node is anonymous or its routing table is empty, an
accepted `Send` makes exactly one transport send, `SendToDirect` to the
bootstrap connection id, of a message with `relay_id` the node's own id,
`relay_connection_id` this node's relay connection id and no `source_id`;
nothing is delivered locally, whatever the destination. Otherwise the
message carries the node's own id as `source_id`, has no relay fields, and
goes to `SendToClosestNode` or to `OnMessageReceived`: no `SendToDirect` is
made. -/
theorem C18_relay_through_bootstrap {RT NRT N T : Type} (D : ImplCollaborators RT NRT N T)
    (impl : Impl RT NRT N T) (destination_id group_claim : NodeId) (data : SerialisedData)
    (response_functor : Option ResponseFunctor) (timeout : Duration)
    (destination_type : DestinationType) (cacheable : Bool)
    (nonzero : destination_id ≠ 0) (nonempty : data ≠ [])
    (fits : data.length ≤ D.parameters.max_data_size) :
    (impl.kAnonymousNode_ = true ∨ D.size impl.routing_table_ = 0 →
      ∃ handed : ProtoMessage,
        handed.destination_id = some destination_id ∧
        handed.data = [data] ∧
        handed.relay_id = some impl.kNodeId_ ∧
        handed.relay_connection_id = some (D.this_node_relay_connection_id impl.network_) ∧
        handed.source_id = none ∧
        (Impl.Send D impl destination_id group_claim data response_functor timeout
          destination_type cacheable).trace =
          Impl.SendRegistered D impl response_functor timeout destination_type ++
            [ImplCall.SendToDirect handed (D.bootstrap_connection_id impl.network_)
              (.Send handed (D.bootstrap_connection_id impl.network_))] ∧
        (Impl.Send D impl destination_id group_claim data response_functor timeout
          destination_type cacheable).trace.filter ImplCall.isSend =
          [ImplCall.SendToDirect handed (D.bootstrap_connection_id impl.network_)
            (.Send handed (D.bootstrap_connection_id impl.network_))] ∧
        (Impl.Send D impl destination_id group_claim data response_functor timeout
          destination_type cacheable).trace.filter ImplCall.isLocalDelivery = []) ∧
    (impl.kAnonymousNode_ = false → D.size impl.routing_table_ ≠ 0 →
      ∃ handed : ProtoMessage,
        handed.destination_id = some destination_id ∧
        handed.data = [data] ∧
        handed.source_id = some impl.kNodeId_ ∧
        handed.relay_id = none ∧
        handed.relay_connection_id = none ∧
        ((Impl.Send D impl destination_id group_claim data response_functor timeout
            destination_type cacheable).trace =
            Impl.SendRegistered D impl response_functor timeout destination_type ++
              [ImplCall.SendToClosestNode handed] ∨
          (Impl.Send D impl destination_id group_claim data response_functor timeout
            destination_type cacheable).trace =
            Impl.SendRegistered D impl response_functor timeout destination_type ++
              Impl.OnMessageReceived
                (Impl.Send D impl destination_id group_claim data response_functor timeout
                  destination_type cacheable).state (D.SerializeAsString handed)) ∧
        ∀ message peer sent,
          ImplCall.SendToDirect message peer sent ∉
            (Impl.Send D impl destination_id group_claim data response_functor timeout
              destination_type cacheable).trace) := by
  rw [Impl.Send_of_valid D impl destination_id group_claim data response_functor timeout
    destination_type cacheable nonzero nonempty fits]
  have registered := Impl.SendRegistered_filter D impl response_functor timeout
    destination_type
  have fields := Impl.SendState_fields D impl response_functor timeout destination_type
  have delivered := Impl.OnMessageReceived_filter
    (Impl.SendState D impl response_functor timeout destination_type)
  have no_direct : ∀ (calls : List ImplCall) (message : ProtoMessage) (peer : NodeId)
      (sent : SentFunctor), (∀ call ∈ calls, ∀ m p s, call ≠ ImplCall.SendToDirect m p s) →
      ImplCall.SendToDirect message peer sent ∉ calls :=
    fun calls message peer sent none_is inside => none_is _ inside message peer sent rfl
  have registered_plain : ∀ call ∈ Impl.SendRegistered D impl response_functor timeout
      destination_type, ∀ m p s, call ≠ ImplCall.SendToDirect m p s := by
    intro call inside m p s
    cases response_functor with
    | none => simp [Impl.SendRegistered] at inside
    | some functor =>
      simp only [Impl.SendRegistered, List.mem_singleton] at inside
      rw [inside]
      exact fun equal => ImplCall.noConfusion equal
  constructor
  · intro relay
    refine ⟨{ (Impl.SendMessage D impl destination_id group_claim data
        (Impl.SendTaskId D impl response_functor timeout destination_type) destination_type
        cacheable) with
        relay_id := some impl.kNodeId_
        relay_connection_id := some (D.this_node_relay_connection_id impl.network_) },
      rfl, rfl, rfl, rfl, rfl, ?_⟩
    unfold Impl.SendAccepted
    rw [Impl.SendOut_relay D _ _ _ _ (by rw [fields.1, fields.2.1]; exact relay)]
    rw [fields.2.2.1, fields.2.2.2.1]
    refine ⟨rfl, ?_, ?_⟩
    · simp [List.filter_append, registered.2.1, ImplCall.isSend]
    · simp [List.filter_append, registered.2.2.1, ImplCall.isLocalDelivery]
  · intro named joined
    refine ⟨{ (Impl.SendMessage D impl destination_id group_claim data
        (Impl.SendTaskId D impl response_functor timeout destination_type) destination_type
        cacheable) with source_id := some impl.kNodeId_ }, rfl, rfl, rfl, rfl, rfl, ?_⟩
    unfold Impl.SendAccepted
    by_cases away : impl.kNodeId_ ≠ destination_id ∨ D.client_mode impl.routing_table_ = true
    · rw [Impl.SendOut_closest D _ _ _ _ (by rw [fields.1]; exact named)
        (by rw [fields.2.1]; exact joined)
        (by rw [fields.2.2.2.1, fields.2.1]; exact away)]
      rw [fields.2.2.2.1]
      refine ⟨Or.inl rfl, fun message peer sent => no_direct _ message peer sent ?_⟩
      intro call inside m p s
      rcases List.mem_append.mp inside with early | last
      · exact registered_plain call early m p s
      · rw [List.mem_singleton.mp last]
        exact fun equal => ImplCall.noConfusion equal
    · have same : impl.kNodeId_ = destination_id := by
        by_contra differs
        exact away (Or.inl differs)
      have vault : D.client_mode impl.routing_table_ = false := by
        cases client : D.client_mode impl.routing_table_ with
        | true => exact absurd (Or.inr client) away
        | false => rfl
      rw [Impl.SendOut_self D _ _ _ _ (by rw [fields.1]; exact named)
        (by rw [fields.2.1]; exact joined)
        (by rw [fields.2.2.2.1]; exact same) (by rw [fields.2.1]; exact vault)]
      rw [fields.2.2.2.1]
      refine ⟨Or.inr rfl, fun message peer sent => no_direct _ message peer sent ?_⟩
      intro call inside m p s
      rcases List.mem_append.mp inside with early | last
      · exact registered_plain call early m p s
      · unfold Impl.OnMessageReceived at last
        split at last
        · rw [List.mem_singleton.mp last]
          exact fun equal => ImplCall.noConfusion equal
        · exact absurd last (List.not_mem_nil _)

/-- Claim C18 on the sample node with an empty routing table, bootstrapped on
connection 9 with relay connection 10: a send to the node's own id 1 is one
`SendToDirect` to 9 with relay id 1, relay connection 10 and no source; on
the joined node the same send is delivered locally. -/
theorem C18_relay_through_bootstrap_witness :
    (Impl.Send SampleImpl.collaborators SampleImpl.partlyJoined 1 0 [5] none 500 .kDirect
      false).trace.map
        (fun call => match call with
          | .SendToDirect message peer _ =>
            some (peer, message.relay_id, message.relay_connection_id, message.source_id)
          | _ => none) = [some (9, some 1, some 10, none)] ∧
    (∀ message peer sent,
      ImplCall.SendToDirect message peer sent ∉
        (Impl.Send SampleImpl.collaborators SampleImpl.joined 1 0 [5] none 500 .kDirect
          false).trace) :=
  ⟨by decide,
    ((C18_relay_through_bootstrap SampleImpl.collaborators SampleImpl.joined 1 0 [5] none 500
      .kDirect false (by decide) (by decide) (by decide)).2 rfl (by decide)).elim
      fun _ facts => facts.2.2.2.2.2.2⟩

/-! ## Lemmas for `GetGroup` and `DoJoin` -/

namespace Timer

variable {Φ : Type}

/-- `KillTask` on a pending task. -/
theorem KillTask_of_pending (timer : Routing.Timer Φ) (task_id : TaskId) (timeout : Duration)
    (functor : Φ) (present : find timer.queue_ task_id = some (timeout, some functor)) :
    timer.KillTask task_id =
      ({ timer with queue_ := erase timer.queue_ task_id },
        [⟨functor, .kResponseTimeout, []⟩]) := by
  unfold KillTask
  rw [present]

/-- `KillTask` on an id that is not in the queue. -/
theorem KillTask_of_absent (timer : Routing.Timer Φ) (task_id : TaskId)
    (absent : find timer.queue_ task_id = none) : timer.KillTask task_id = (timer, []) := by
  unfold KillTask
  rw [absent]

/-- `ExecuteTaskNow` on a pending task. -/
theorem ExecuteTaskNow_of_pending (timer : Routing.Timer Φ) (message : ProtoMessage)
    (task_id : TaskId) (timeout : Duration) (functor : Φ) (tagged : message.id = some task_id)
    (present : find timer.queue_ task_id = some (timeout, some functor)) :
    timer.ExecuteTaskNow message =
      ({ timer with queue_ := erase timer.queue_ task_id },
        [⟨functor, .kSuccess, message.data⟩]) := by
  unfold ExecuteTaskNow
  rw [tagged]
  simp only [present]

/-- `ExecuteTaskNow` on an id that is not in the queue. -/
theorem ExecuteTaskNow_of_absent (timer : Routing.Timer Φ) (message : ProtoMessage)
    (task_id : TaskId) (tagged : message.id = some task_id)
    (absent : find timer.queue_ task_id = none) :
    timer.ExecuteTaskNow message = (timer, []) := by
  unfold ExecuteTaskNow
  rw [tagged]
  simp only [absent]

/-- A task added under an id that was free is pending under that id. -/
theorem find_AddTask (timer : Routing.Timer Φ) (timeout : Duration)
    (response_functor : Option Φ)
    (free : find timer.queue_ (timer.AddTask timeout response_functor).1 = none) :
    find (timer.AddTask timeout response_functor).2.queue_
      (timer.AddTask timeout response_functor).1 = some (timeout, response_functor) :=
  (find_insert_of_absent timer.queue_
    ((timer.task_id_ + 1) % 2 ^ 32, timeout, response_functor) free).1

end Timer

namespace Impl

variable {RT NRT N T : Type}

/-- The loop over the listed ids yields `ids` exactly when each listed id
builds the `NodeId` at its place in `ids`. -/
theorem MakeNodeIds_eq_some (D : ImplCollaborators RT NRT N T) (listed : List SerialisedData)
    (ids : List NodeId) :
    MakeNodeIds D listed = some ids ↔ listed.map D.MakeNodeId = ids.map some := by
  induction listed generalizing ids with
  | nil =>
    cases ids with
    | nil => simp [MakeNodeIds]
    | cons first rest => simp [MakeNodeIds]
  | cons head tail ih =>
    unfold MakeNodeIds
    cases built : D.MakeNodeId head with
    | none =>
      cases ids with
      | nil => simp
      | cons first rest => simp [built]
    | some node_id =>
      cases looped : MakeNodeIds D tail with
      | none =>
        cases ids with
        | nil => simp
        | cons first rest =>
          have not_rest : ¬tail.map D.MakeNodeId = rest.map some := by
            intro mapped
            have back := (ih rest).mpr mapped
            rw [looped] at back
            exact Option.noConfusion back
          simp [built, not_rest]
      | some nodes_id =>
        cases ids with
        | nil => simp
        | cons first rest =>
          have step := ih rest
          rw [looped] at step
          simp only [Option.some.injEq, List.cons.injEq, List.map_cons, built]
          constructor
          · rintro ⟨head_eq, tail_eq⟩
            exact ⟨head_eq, step.mp (congrArg some tail_eq)⟩
          · rintro ⟨head_eq, mapped⟩
            exact ⟨head_eq, Option.some.inj (step.mpr mapped)⟩

/-- What `DoBootstrap` does when it returns: no status is notified, nothing
is sent, no timer is armed, the setup and recovery timers hold no wait and
the functors are as before. -/
theorem DoBootstrap_returned (D : ImplCollaborators RT NRT N T) (impl : Impl RT NRT N T)
    (endpoints : List Endpoint) (return_value : ReturnCode)
    (returned : (DoBootstrap D impl endpoints).value = some return_value) :
    (DoBootstrap D impl endpoints).trace.filter ImplCall.isNetworkStatus = [] ∧
    (DoBootstrap D impl endpoints).trace.filter ImplCall.isSend = [] ∧
    (DoBootstrap D impl endpoints).trace.filter ImplCall.isSetupOrRecoveryArm = [] ∧
    (DoBootstrap D impl endpoints).state.setup_timer_ = none ∧
    (DoBootstrap D impl endpoints).state.recovery_timer_ = none ∧
    (DoBootstrap D impl endpoints).state.functors_ = impl.functors_ := by
  unfold DoBootstrap at returned ⊢
  split
  · rename_i failed
    rw [if_pos failed] at returned
    exact Option.noConfusion returned
  · split
    · exact ⟨rfl, rfl, rfl, rfl, rfl, rfl⟩
    · split <;> exact ⟨rfl, rfl, rfl, rfl, rfl, rfl⟩

end Impl

/-! ## The claims on `GetGroup` and `DoJoin` -/

/-- Claim C19. `GetGroup` adds one task, with its callback, the default send
timeout and one response needed, sends the `GetGroup` request tagged with the
id of that task to the closest node, and returns the future of the promise
the callback holds. Run on no responses, the callback sets the promise to
the empty list; run on responses whose first lists ids that all build a
`NodeId`, it sets the promise to those node ids in the order listed. A
promise that has its value is not set again. With the timer of `timer.cc`
the callback is run once: when the task was added under a free id, its
deadline dispatches the callback with an empty vector, a response with its id
dispatches it with the data of that response, and after either of the two no
further deadline or response with that id dispatches anything. -/
theorem C19_get_group {RT NRT N T : Type} (D : ImplCollaborators RT NRT N T)
    (impl : Impl RT NRT N T) (promise : Nat) (info_id : NodeId) :
    (Impl.GetGroup D impl promise info_id).trace =
      [ImplCall.timer_AddTask D.parameters.default_send_timeout (.GetGroupCallback promise) 1
        (D.TimerAddTask impl.timer_ D.parameters.default_send_timeout
          (.GetGroupCallback promise) 1).1,
       ImplCall.SendToClosestNode
        { D.GetGroup info_id impl.kNodeId_ with
          id := some (D.TimerAddTask impl.timer_ D.parameters.default_send_timeout
            (.GetGroupCallback promise) 1).1 }] ∧
    (Impl.GetGroup D impl promise info_id).state =
      { impl with
        timer_ := (D.TimerAddTask impl.timer_ D.parameters.default_send_timeout
          (.GetGroupCallback promise) 1).2 } ∧
    (Impl.GetGroup D impl promise info_id).value = some promise ∧
    Impl.GetGroupCallback D none [] = some (some []) ∧
    (∀ (first : SerialisedData) (rest : List SerialisedData) (ids : List NodeId),
      (D.ParseGetGroup first).map D.MakeNodeId = ids.map some →
      Impl.GetGroupCallback D none (first :: rest) = some (some ids)) ∧
    (∀ (value : List NodeId) (responses : List SerialisedData),
      Impl.GetGroupCallback D (some value) responses = none) ∧
    (∀ (timer : Timer ResponseFunctor) (timeout : Duration),
      Timer.find timer.queue_
        (timer.AddTask timeout (some (.GetGroupCallback promise))).1 = none →
      ((timer.AddTask timeout (some (.GetGroupCallback promise))).2.KillTask
        (timer.AddTask timeout (some (.GetGroupCallback promise))).1).2 =
        [⟨.GetGroupCallback promise, .kResponseTimeout, []⟩] ∧
      (∀ message : ProtoMessage,
        message.id = some (timer.AddTask timeout (some (.GetGroupCallback promise))).1 →
        ((timer.AddTask timeout (some (.GetGroupCallback promise))).2.ExecuteTaskNow
          message).2 = [⟨.GetGroupCallback promise, .kSuccess, message.data⟩] ∧
        (((timer.AddTask timeout (some (.GetGroupCallback promise))).2.ExecuteTaskNow
          message).1.KillTask
            (timer.AddTask timeout (some (.GetGroupCallback promise))).1).2 = [] ∧
        (((timer.AddTask timeout (some (.GetGroupCallback promise))).2.ExecuteTaskNow
          message).1.ExecuteTaskNow message).2 = [] ∧
        (((timer.AddTask timeout (some (.GetGroupCallback promise))).2.KillTask
          (timer.AddTask timeout (some (.GetGroupCallback promise))).1).1.ExecuteTaskNow
            message).2 = []) ∧
      (((timer.AddTask timeout (some (.GetGroupCallback promise))).2.KillTask
        (timer.AddTask timeout (some (.GetGroupCallback promise))).1).1.KillTask
          (timer.AddTask timeout (some (.GetGroupCallback promise))).1).2 = []) := by
  refine ⟨rfl, rfl, rfl, rfl, ?_, ?_, ?_⟩
  · intro first rest ids built
    have looped := (Impl.MakeNodeIds_eq_some D (D.ParseGetGroup first) ids).mpr built
    simp only [Impl.GetGroupCallback, looped]
  · intro value responses
    cases responses with
    | nil => rfl
    | cons first rest =>
      simp only [Impl.GetGroupCallback]
      cases Impl.MakeNodeIds D (D.ParseGetGroup first) <;> rfl
  · intro timer timeout free
    have pending := Timer.find_AddTask timer timeout (some (ResponseFunctor.GetGroupCallback
      promise)) free
    generalize (timer.AddTask timeout (some (ResponseFunctor.GetGroupCallback promise))).2 =
      armed at pending ⊢
    generalize (timer.AddTask timeout (some (ResponseFunctor.GetGroupCallback promise))).1 =
      task_id at pending ⊢
    have killed := Timer.KillTask_of_pending armed task_id timeout _ pending
    have gone : Timer.find (armed.KillTask task_id).1.queue_ task_id = none := by
      rw [killed]
      exact Timer.find_erase_self _ _
    refine ⟨by rw [killed], ?_, ?_⟩
    · intro message tagged
      have executed := Timer.ExecuteTaskNow_of_pending armed message task_id timeout _ tagged
        pending
      have done : Timer.find (armed.ExecuteTaskNow message).1.queue_ task_id = none := by
        rw [executed]
        exact Timer.find_erase_self _ _
      refine ⟨by rw [executed], ?_, ?_, ?_⟩
      · rw [Timer.KillTask_of_absent _ _ done]
      · rw [Timer.ExecuteTaskNow_of_absent _ _ _ tagged done]
      · rw [Timer.ExecuteTaskNow_of_absent _ _ _ tagged gone]
    · rw [Timer.KillTask_of_absent _ _ gone]

/-- Claim C19 on the joined sample node, whose timer stands at 41: `GetGroup`
for id 8 adds task 42 and sends the request with id 42; the deadline of task
42 dispatches the callback with an empty vector, on which it sets the
promise to the empty list; on a response listing 4, 2, 6 it sets the promise
to these three ids in that order. -/
theorem C19_get_group_witness :
    (Impl.GetGroup SampleImpl.collaborators SampleImpl.joined 0 8).trace.map
        (fun call => (call.isAddTask, call.message?.map fun message => message.id)) =
      [(true, none), (false, some (some 42))] ∧
    ((Impl.GetGroup SampleImpl.collaborators SampleImpl.joined 0 8).state.timer_.KillTask 42).2 =
      [⟨.GetGroupCallback 0, .kResponseTimeout, []⟩] ∧
    Impl.GetGroupCallback SampleImpl.collaborators none [] = some (some []) ∧
    Impl.GetGroupCallback SampleImpl.collaborators none [[4, 2, 6], [9]] =
      some (some [4, 2, 6]) :=
  ⟨by decide, by decide,
    (C19_get_group SampleImpl.collaborators SampleImpl.joined 0 8).2.2.2.1,
    (C19_get_group SampleImpl.collaborators SampleImpl.joined 0 8).2.2.2.2.1 [4, 2, 6] [[9]]
      [4, 2, 6] rfl⟩

/-- Claim C20. When `DoBootstrap` returns a value other than `kSuccess` to
`DoJoin` and a network-status functor is connected, `DoJoin` calls that
functor once, with the value returned, after what `DoBootstrap` did: no
message is sent, so no `FindNodes` request either, no wait is started on the
setup or recovery timer, and both timers hold no wait afterwards. `Join`
with an empty list of endpoints is `ConnectFunctors` followed by this
`DoJoin`. -/
theorem C20_failed_bootstrap_is_reported {RT NRT N T : Type}
    (D : ImplCollaborators RT NRT N T) (impl : Impl RT NRT N T) (endpoints : List Endpoint)
    (return_value : ReturnCode)
    (returned : (Impl.DoBootstrap D impl endpoints).value = some return_value)
    (failed : return_value ≠ .kSuccess)
    (listening : impl.functors_.network_status = true) :
    (Impl.DoJoin D impl endpoints).trace =
      (Impl.DoBootstrap D impl endpoints).trace ++ [ImplCall.network_status return_value] ∧
    (Impl.DoJoin D impl endpoints).trace.filter ImplCall.isNetworkStatus =
      [ImplCall.network_status return_value] ∧
    (Impl.DoJoin D impl endpoints).trace.filter ImplCall.isSend = [] ∧
    (Impl.DoJoin D impl endpoints).trace.filter ImplCall.isSetupOrRecoveryArm = [] ∧
    (Impl.DoJoin D impl endpoints).state.setup_timer_ = none ∧
    (Impl.DoJoin D impl endpoints).state.recovery_timer_ = none ∧
    (Impl.DoJoin D impl endpoints).value = some () ∧
    (∀ functors : Functors,
      Impl.Join D impl functors [] =
        ⟨(Impl.DoJoin D (Impl.ConnectFunctors impl functors).1 []).state,
          (Impl.ConnectFunctors impl functors).2 ++
            (Impl.DoJoin D (Impl.ConnectFunctors impl functors).1 []).trace,
          (Impl.DoJoin D (Impl.ConnectFunctors impl functors).1 []).value⟩) := by
  have quiet := Impl.DoBootstrap_returned D impl endpoints return_value returned
  have differs : ReturnCode.kSuccess ≠ return_value := fun same => failed same.symm
  have heard : (Impl.DoBootstrap D impl endpoints).state.functors_.network_status = true := by
    rw [quiet.2.2.2.2.2]
    exact listening
  have shape : Impl.DoJoin D impl endpoints =
      ⟨(Impl.DoBootstrap D impl endpoints).state,
        (Impl.DoBootstrap D impl endpoints).trace ++ [ImplCall.network_status return_value],
        some ()⟩ := by
    unfold Impl.DoJoin
    simp only [returned, differs, ne_eq, not_false_eq_true, if_true, Impl.NotifyNetworkStatus,
      heard]
  rw [shape]
  refine ⟨rfl, ?_, ?_, ?_, quiet.2.2.2.1, quiet.2.2.2.2.1, rfl, fun functors => rfl⟩
  · simp [List.filter_append, quiet.1, ImplCall.isNetworkStatus]
  · simp [List.filter_append, quiet.2.1, ImplCall.isSend]
  · simp [List.filter_append, quiet.2.2.1, ImplCall.isSetupOrRecoveryArm]

/-- Claim C20 on the sample node before it has joined: `Join` with no
endpoints finds no bootstrap peer, `DoBootstrap` returns `kNotJoined`, and
the calls of `Join` are the connecting of the functors, the two timer
cancels, the bootstrap attempt and one status call with `kNotJoined`. -/
theorem C20_failed_bootstrap_is_reported_witness :
    (Impl.Join SampleImpl.collaborators SampleImpl.fresh SampleImpl.functors []).trace =
      [ImplCall.InitialiseFunctors,
       ImplCall.set_message_received_functor true,
       ImplCall.set_request_public_key_functor true,
       ImplCall.set_new_bootstrap_endpoint_functor false,
       ImplCall.cancel .recovery_timer_,
       ImplCall.cancel .setup_timer_,
       ImplCall.Bootstrap [],
       ImplCall.network_status .kNotJoined] ∧
    (Impl.DoJoin SampleImpl.collaborators
      (Impl.ConnectFunctors SampleImpl.fresh SampleImpl.functors).1 []).trace.filter
        ImplCall.isNetworkStatus = [ImplCall.network_status .kNotJoined] :=
  ⟨by decide,
    (C20_failed_bootstrap_is_reported SampleImpl.collaborators
      (Impl.ConnectFunctors SampleImpl.fresh SampleImpl.functors).1 [] .kNotJoined rfl
      (by decide) rfl).2.1⟩

/-! ## The claims on the recovery and setup loops -/

/-- Claim C21. On a tick of `ReSendFindNodeRequest` that was not aborted:
with an empty routing table nothing is sent, and a running node starts a
wait of `Parameters::re_bootstrap_time_lag` on the re-bootstrap timer, whose
handler is `DoReBootstrap` (a node that is not running does nothing). With a
non-empty table no re-bootstrap is scheduled, and a find request for the
node's own id goes to `SendToClosestNode` if `ignore_size` is true or the
table is smaller than `kThresholdSize()`, asking for `closest_nodes_size` or
`greedy_fraction` nodes; otherwise no call is made at all. -/
theorem C21_recovery_tick_decision {RT NRT N T : Type} (D : ImplCollaborators RT NRT N T)
    (impl : Impl RT NRT N T) (error_code : ErrorCode) (ignore_size : Bool)
    (proceeds : error_code ≠ .operation_aborted) :
    (D.size impl.routing_table_ = 0 →
      (Impl.ReSendFindNodeRequest D impl error_code ignore_size).trace.filter
        ImplCall.isSend = [] ∧
      (impl.running_ = true →
        (Impl.ReSendFindNodeRequest D impl error_code ignore_size).trace =
          [ImplCall.arm .re_bootstrap_timer_ D.parameters.re_bootstrap_time_lag
            .DoReBootstrap] ∧
        (Impl.ReSendFindNodeRequest D impl error_code ignore_size).state.re_bootstrap_timer_ =
          some (D.parameters.re_bootstrap_time_lag, .DoReBootstrap)) ∧
      (impl.running_ = false →
        (Impl.ReSendFindNodeRequest D impl error_code ignore_size).trace = [] ∧
        (Impl.ReSendFindNodeRequest D impl error_code ignore_size).state = impl)) ∧
    (D.size impl.routing_table_ ≠ 0 →
      (Impl.ReSendFindNodeRequest D impl error_code ignore_size).state.re_bootstrap_timer_ =
        impl.re_bootstrap_timer_ ∧
      (∀ duration handler,
        ImplCall.arm .re_bootstrap_timer_ duration handler ∉
          (Impl.ReSendFindNodeRequest D impl error_code ignore_size).trace) ∧
      (ignore_size = true ∨
          D.size impl.routing_table_ < D.kThresholdSize impl.routing_table_ →
        ∃ num_nodes_requested,
          (num_nodes_requested = D.parameters.closest_nodes_size ∨
            num_nodes_requested = D.parameters.greedy_fraction) ∧
          (Impl.ReSendFindNodeRequest D impl error_code ignore_size).trace.filter
            ImplCall.isSend =
            [ImplCall.SendToClosestNode
              (D.FindNodesDefault impl.kNodeId_ impl.kNodeId_ num_nodes_requested)]) ∧
      (¬(ignore_size = true ∨
          D.size impl.routing_table_ < D.kThresholdSize impl.routing_table_) →
        (Impl.ReSendFindNodeRequest D impl error_code ignore_size).trace = [] ∧
        (Impl.ReSendFindNodeRequest D impl error_code ignore_size).state = impl)) := by
  constructor
  · intro empty
    have taken : (D.size impl.routing_table_ == 0) = true := by simp [empty]
    have shape : Impl.ReSendFindNodeRequest D impl error_code ignore_size =
        Impl.ReBootstrap D impl := by
      simp only [Impl.ReSendFindNodeRequest, proceeds, taken, if_false, if_true]
    rw [shape]
    unfold Impl.ReBootstrap
    cases running : impl.running_ with
    | true => exact ⟨rfl, fun _ => ⟨rfl, rfl⟩, fun wrong => Bool.noConfusion wrong⟩
    | false => exact ⟨rfl, fun wrong => Bool.noConfusion wrong, fun _ => ⟨rfl, rfl⟩⟩
  · intro filled
    have skipped : (D.size impl.routing_table_ == 0) = false := by simp [filled]
    by_cases wanted : ignore_size = true ∨
        D.size impl.routing_table_ < D.kThresholdSize impl.routing_table_
    · have taken : (ignore_size
          || decide (D.size impl.routing_table_ < D.kThresholdSize impl.routing_table_)) =
          true := by
        rcases wanted with forced | small
        · simp [forced]
        · simp [small]
      refine ⟨?_, ?_, fun _ => ?_, fun refused => absurd wanted refused⟩
      · simp only [Impl.ReSendFindNodeRequest, proceeds, skipped, taken, if_false, if_true]
        cases impl.running_ <;> rfl
      · intro duration handler
        simp only [Impl.ReSendFindNodeRequest, proceeds, skipped, taken, if_false, if_true]
        cases impl.running_ <;> simp
      · refine ⟨if ignore_size
            && decide (D.size impl.routing_table_ > D.kThresholdSize impl.routing_table_) then
            D.parameters.closest_nodes_size else D.parameters.greedy_fraction, ?_, ?_⟩
        · split
          · exact Or.inl rfl
          · exact Or.inr rfl
        · simp only [Impl.ReSendFindNodeRequest, proceeds, skipped, taken, if_false, if_true]
          cases impl.running_ <;> rfl
    · have refused : (ignore_size
          || decide (D.size impl.routing_table_ < D.kThresholdSize impl.routing_table_)) =
          false := by
        cases forced : ignore_size with
        | true => exact absurd (Or.inl forced) wanted
        | false =>
          have large : ¬D.size impl.routing_table_ < D.kThresholdSize impl.routing_table_ :=
            fun small => wanted (Or.inr small)
          simp [large]
      have shape : Impl.ReSendFindNodeRequest D impl error_code ignore_size =
          ⟨impl, [], some ()⟩ := by
        simp only [Impl.ReSendFindNodeRequest, proceeds, skipped, refused, if_false]
        rfl
      rw [shape]
      exact ⟨rfl, fun _ _ inside => absurd inside (List.not_mem_nil _),
        fun accepted => absurd accepted wanted, fun _ => ⟨rfl, rfl⟩⟩

/-- Claim C21 on the sample node, whose threshold size is 2: with an empty
table the re-bootstrap timer is armed for 10000 and nothing is sent; with
one node in the table a find request for node 1 is sent; with two nodes it
is sent when a close node was lost and not otherwise. -/
theorem C21_recovery_tick_decision_witness :
    (Impl.ReSendFindNodeRequest SampleImpl.collaborators SampleImpl.partlyJoined .success
      false).trace = [ImplCall.arm .re_bootstrap_timer_ 10000 .DoReBootstrap] ∧
    (Impl.ReSendFindNodeRequest SampleImpl.collaborators SampleImpl.thin .success
      false).trace.filter ImplCall.isSend =
      [ImplCall.SendToClosestNode (SampleImpl.collaborators.FindNodesDefault 1 1 16)] ∧
    (Impl.ReSendFindNodeRequest SampleImpl.collaborators SampleImpl.joined .success
      true).trace.filter ImplCall.isSend =
      [ImplCall.SendToClosestNode (SampleImpl.collaborators.FindNodesDefault 1 1 16)] ∧
    (Impl.ReSendFindNodeRequest SampleImpl.collaborators SampleImpl.joined .success
      false).trace = [] :=
  ⟨(((C21_recovery_tick_decision SampleImpl.collaborators SampleImpl.partlyJoined .success
      false (by decide)).1 rfl).2.1 rfl).1,
    by decide, by decide,
    (((C21_recovery_tick_decision SampleImpl.collaborators SampleImpl.joined .success
      false (by decide)).2 (by decide)).2.2.2 (by decide)).1⟩

/-- Claim C22 as stated fails on `routing_impl.cc`: the running sample node
holds two nodes, its threshold size is 2 and no close node was lost. The
tick sends nothing and starts no wait: a recovery timer whose wait has ended
holds no wait afterwards. -/
theorem C22_full_table_tick_does_not_rearm :
    SampleImpl.joined.running_ = true ∧
    SampleImpl.collaborators.size SampleImpl.joined.routing_table_ = 2 ∧
    (Impl.ReSendFindNodeRequest SampleImpl.collaborators SampleImpl.joined .success
      false).trace = [] ∧
    (Impl.Fire SampleImpl.collaborators
      { SampleImpl.joined with recovery_timer_ := some (10000, .ReSendFindNodeRequest false) }
      .recovery_timer_ .success).trace = [] ∧
    (Impl.Fire SampleImpl.collaborators
      { SampleImpl.joined with recovery_timer_ := some (10000, .ReSendFindNodeRequest false) }
      .recovery_timer_ .success).state.recovery_timer_ = none := by
  decide

/-- Claim C22, amended. On a tick of `ReSendFindNodeRequest` that was not
aborted, on a running node with a non-empty routing table, the recovery
timer is armed again for `Parameters::find_node_interval` exactly on the
ticks that send a find request, those with `ignore_size` or a table smaller
than `kThresholdSize()`; the handler armed calls `ReSendFindNodeRequest`
with `ignore_size = false` on the next tick. On every other tick no call is
made and the state is unchanged, so no wait is started. -/
theorem C22_recovery_timer_rearm {RT NRT N T : Type} (D : ImplCollaborators RT NRT N T)
    (impl : Impl RT NRT N T) (error_code : ErrorCode) (ignore_size : Bool)
    (proceeds : error_code ≠ .operation_aborted) (running : impl.running_ = true)
    (filled : D.size impl.routing_table_ ≠ 0) :
    (ignore_size = true ∨
        D.size impl.routing_table_ < D.kThresholdSize impl.routing_table_ →
      (∃ num_nodes_requested,
        (Impl.ReSendFindNodeRequest D impl error_code ignore_size).trace =
          [ImplCall.SendToClosestNode
            (D.FindNodesDefault impl.kNodeId_ impl.kNodeId_ num_nodes_requested),
           ImplCall.arm .recovery_timer_ D.parameters.find_node_interval
            (.ReSendFindNodeRequestAgain error_code)]) ∧
      (Impl.ReSendFindNodeRequest D impl error_code ignore_size).state.recovery_timer_ =
        some (D.parameters.find_node_interval, .ReSendFindNodeRequestAgain error_code) ∧
      ∀ (later : Impl RT NRT N T) (error_code_local : ErrorCode),
        Impl.RunWaitHandler D later (.ReSendFindNodeRequestAgain error_code) error_code_local =
          Impl.ReSendFindNodeRequest D later error_code_local false) ∧
    (¬(ignore_size = true ∨
        D.size impl.routing_table_ < D.kThresholdSize impl.routing_table_) →
      (Impl.ReSendFindNodeRequest D impl error_code ignore_size).trace = [] ∧
      (Impl.ReSendFindNodeRequest D impl error_code ignore_size).state = impl) := by
  have skipped : (D.size impl.routing_table_ == 0) = false := by simp [filled]
  constructor
  · intro wanted
    have taken : (ignore_size
        || decide (D.size impl.routing_table_ < D.kThresholdSize impl.routing_table_)) =
        true := by
      rcases wanted with forced | small
      · simp [forced]
      · simp [small]
    refine ⟨⟨if ignore_size
        && decide (D.size impl.routing_table_ > D.kThresholdSize impl.routing_table_) then
        D.parameters.closest_nodes_size else D.parameters.greedy_fraction, ?_⟩, ?_, ?_⟩
    · simp only [Impl.ReSendFindNodeRequest, proceeds, skipped, taken, running, if_false,
        if_true, Bool.not_true]
      rfl
    · simp only [Impl.ReSendFindNodeRequest, proceeds, skipped, taken, running, if_false,
        if_true, Bool.not_true]
      rfl
    · intro later error_code_local
      simp only [Impl.RunWaitHandler, proceeds, ne_eq, not_false_eq_true, if_true]
  · intro refused
    have not_taken : (ignore_size
        || decide (D.size impl.routing_table_ < D.kThresholdSize impl.routing_table_)) =
        false := by
      cases forced : ignore_size with
      | true => exact absurd (Or.inl forced) refused
      | false =>
        have large : ¬D.size impl.routing_table_ < D.kThresholdSize impl.routing_table_ :=
          fun small => refused (Or.inr small)
        simp [large]
    have shape : Impl.ReSendFindNodeRequest D impl error_code ignore_size =
        ⟨impl, [], some ()⟩ := by
      simp only [Impl.ReSendFindNodeRequest, proceeds, skipped, not_taken, if_false]
      rfl
    rw [shape]
    exact ⟨rfl, rfl⟩

/-- Claim C22, amended, on the sample node with one node in its table: the
tick sends a find request and arms the recovery timer for 10000. -/
theorem C22_recovery_timer_rearm_witness :
    (Impl.ReSendFindNodeRequest SampleImpl.collaborators SampleImpl.thin .success
      false).state.recovery_timer_ = some (10000, .ReSendFindNodeRequestAgain .success) :=
  ((C22_recovery_timer_rearm SampleImpl.collaborators SampleImpl.thin .success false
    (by decide) rfl (by decide)).1 (Or.inr (by decide))).2.1

/-- Claim C23. `FindClosestNode` on a running node, not aborted, with an
empty routing table and `attempts` above 0 (the node is not anonymous, or
asserts are compiled out). From `maximum_find_close_node_failures` attempts
on, a wait of `re_bootstrap_time_lag` is started on the re-bootstrap timer,
with `DoReBootstrap` as its handler, before the find request is sent. Below
that number no re-bootstrap is scheduled. In both cases one find request goes
to the bootstrap connection and the setup timer is armed to call
`FindClosestNode` with `attempts + 1`. -/
theorem C23_setup_loop {RT NRT N T : Type} (D : ImplCollaborators RT NRT N T)
    (impl : Impl RT NRT N T) (error_code : ErrorCode) (attempts : Nat)
    (running : impl.running_ = true) (proceeds : error_code ≠ .operation_aborted)
    (allowed : D.NDEBUG = true ∨ impl.kAnonymousNode_ = false)
    (empty : D.size impl.routing_table_ = 0) (later : 0 < attempts) :
    (D.parameters.maximum_find_close_node_failures ≤ attempts →
      (Impl.FindClosestNode D impl error_code attempts).trace =
        [ImplCall.arm .re_bootstrap_timer_ D.parameters.re_bootstrap_time_lag .DoReBootstrap,
         ImplCall.SendToDirect
          (D.FindNodes impl.kNodeId_ impl.kNodeId_ 1 true
            (D.this_node_relay_connection_id impl.network_))
          (D.bootstrap_connection_id impl.network_)
          (.FindClosestNode (D.FindNodes impl.kNodeId_ impl.kNodeId_ 1 true
            (D.this_node_relay_connection_id impl.network_))),
         ImplCall.arm .setup_timer_ D.parameters.find_close_node_interval
          (.FindClosestNode (attempts + 1))] ∧
      (Impl.FindClosestNode D impl error_code attempts).state.re_bootstrap_timer_ =
        some (D.parameters.re_bootstrap_time_lag, .DoReBootstrap)) ∧
    (attempts < D.parameters.maximum_find_close_node_failures →
      (Impl.FindClosestNode D impl error_code attempts).trace =
        [ImplCall.SendToDirect
          (D.FindNodes impl.kNodeId_ impl.kNodeId_ 1 true
            (D.this_node_relay_connection_id impl.network_))
          (D.bootstrap_connection_id impl.network_)
          (.FindClosestNode (D.FindNodes impl.kNodeId_ impl.kNodeId_ 1 true
            (D.this_node_relay_connection_id impl.network_))),
         ImplCall.arm .setup_timer_ D.parameters.find_close_node_interval
          (.FindClosestNode (attempts + 1))] ∧
      (Impl.FindClosestNode D impl error_code attempts).state.re_bootstrap_timer_ =
        impl.re_bootstrap_timer_ ∧
      (Impl.FindClosestNode D impl error_code attempts).state.setup_timer_ =
        some (D.parameters.find_close_node_interval, .FindClosestNode (attempts + 1))) ∧
    (Impl.FindClosestNode D impl error_code attempts).value = some () := by
  have passes : (!D.NDEBUG && impl.kAnonymousNode_) = false := by
    rcases allowed with off | named
    · simp [off]
    · simp [named]
  have positive : attempts ≠ 0 := by omega
  have no_node : ¬D.size impl.routing_table_ > 0 := by omega
  by_cases many : D.parameters.maximum_find_close_node_failures ≤ attempts
  · have shape : Impl.FindClosestNode D impl error_code attempts =
        Impl.SendFindClosestNode D (Impl.ReBootstrap D impl).state
          (Impl.ReBootstrap D impl).trace attempts := by
      simp only [Impl.FindClosestNode, running, proceeds, passes, positive, no_node, many,
        Bool.not_true, if_false, if_true, ge_iff_le]
      rfl
    rw [shape]
    refine ⟨fun _ => ?_, fun few => absurd many (by omega), ?_⟩
    · simp only [Impl.ReBootstrap, Impl.SendFindClosestNode, running, Bool.not_true]
      exact ⟨rfl, rfl⟩
    · simp only [Impl.ReBootstrap, Impl.SendFindClosestNode, running, Bool.not_true]
      rfl
  · have shape : Impl.FindClosestNode D impl error_code attempts =
        Impl.SendFindClosestNode D impl [] attempts := by
      simp only [Impl.FindClosestNode, running, proceeds, passes, positive, no_node, many,
        Bool.not_true, if_false, ge_iff_le]
      rfl
    rw [shape]
    refine ⟨fun enough => absurd enough many, fun _ => ?_, ?_⟩
    · simp only [Impl.SendFindClosestNode, running, Bool.not_true]
      exact ⟨rfl, rfl, rfl⟩
    · simp only [Impl.SendFindClosestNode, running, Bool.not_true]
      rfl

/-- Claim C23 on the sample node with an empty table, where the limit is 10
attempts: the tenth attempt arms the re-bootstrap timer, the third does not
and arms the setup timer for a fourth. -/
theorem C23_setup_loop_witness :
    (Impl.FindClosestNode SampleImpl.collaborators SampleImpl.partlyJoined .success
      10).state.re_bootstrap_timer_ = some (10000, .DoReBootstrap) ∧
    (Impl.FindClosestNode SampleImpl.collaborators SampleImpl.partlyJoined .success
      3).state.re_bootstrap_timer_ = none ∧
    (Impl.FindClosestNode SampleImpl.collaborators SampleImpl.partlyJoined .success
      3).state.setup_timer_ = some (3000, .FindClosestNode 4) :=
  ⟨((C23_setup_loop SampleImpl.collaborators SampleImpl.partlyJoined .success 10 rfl
      (by decide) (Or.inr rfl) rfl (by decide)).1 (by decide)).2,
    ((C23_setup_loop SampleImpl.collaborators SampleImpl.partlyJoined .success 3 rfl
      (by decide) (Or.inr rfl) rfl (by decide)).2.1 (by decide)).2.1,
    ((C23_setup_loop SampleImpl.collaborators SampleImpl.partlyJoined .success 3 rfl
      (by decide) (Or.inr rfl) rfl (by decide)).2.1 (by decide)).2.2⟩

/-! ## The claims on the posted handlers -/

/-- Claim C24 fails on `routing_impl.cc`. A running anonymous node loses its
bootstrap connection, whose id is in neither table: `DoOnConnectionLost`
clears the bootstrap connection info and notifies `kAnonymousSessionEnded`,
and returns. The timer is not touched: no `CancelTask` is called and the
timer of the state is the one before the call, with every pending task
still in it. -/
theorem C24_pending_tasks_are_not_cancelled {RT NRT N T : Type}
    (D : ImplCollaborators RT NRT N T) (impl : Impl RT NRT N T) (lost_connection_id : NodeId)
    (running : impl.running_ = true) (anonymous : impl.kAnonymousNode_ = true)
    (bootstrapped : D.bootstrap_connection_id impl.network_ ≠ 0)
    (lost : lost_connection_id = D.bootstrap_connection_id impl.network_)
    (not_routing : (D.DropNode impl.routing_table_ lost_connection_id true).1.node_id = 0)
    (not_other : (D.DropConnection impl.non_routing_table_ lost_connection_id).1.node_id = 0) :
    (Impl.DoOnConnectionLost D impl lost_connection_id).state.timer_ = impl.timer_ ∧
    (Impl.DoOnConnectionLost D impl lost_connection_id).trace =
      [ImplCall.DropNode lost_connection_id, ImplCall.DropConnection lost_connection_id,
        ImplCall.clear_bootstrap_connection_info] ++
        (if impl.functors_.network_status then
          [ImplCall.network_status .kAnonymousSessionEnded] else []) ∧
    (∀ task_id,
      ImplCall.timer_CancelTask task_id ∉
        (Impl.DoOnConnectionLost D impl lost_connection_id).trace) := by
  have first : ((D.DropNode impl.routing_table_ lost_connection_id true).1.node_id != 0) =
      false := by simp [not_routing]
  have second :
      ((D.DropConnection impl.non_routing_table_ lost_connection_id).1.node_id != 0) =
        false := by simp [not_other]
  have third : (D.bootstrap_connection_id impl.network_ != 0
      && lost_connection_id == D.bootstrap_connection_id impl.network_) = true := by
    simp [bootstrapped, lost]
  have shape : Impl.DoOnConnectionLost D impl lost_connection_id =
      ⟨{ impl with
          routing_table_ := (D.DropNode impl.routing_table_ lost_connection_id true).2
          non_routing_table_ :=
            (D.DropConnection impl.non_routing_table_ lost_connection_id).2
          network_ := D.clear_bootstrap_connection_info impl.network_ },
        [ImplCall.DropNode lost_connection_id, ImplCall.DropConnection lost_connection_id,
          ImplCall.clear_bootstrap_connection_info] ++
          (if impl.functors_.network_status then
            [ImplCall.network_status .kAnonymousSessionEnded] else []),
        some ()⟩ := by
    simp only [Impl.DoOnConnectionLost, running, anonymous, first, second, third,
      Bool.not_true, if_true, Impl.NotifyNetworkStatus, Bool.false_eq_true, if_false]
    rfl
  rw [shape]
  refine ⟨rfl, rfl, ?_⟩
  intro task_id inside
  cases impl.functors_.network_status <;> simp at inside

/-- Claim C24 on the anonymous sample node, bootstrapped on connection 9 with
task 42 pending: after the loss of connection 9 the status callback has
been called with `kAnonymousSessionEnded` and task 42 is still in the
queue of the timer. -/
theorem C24_pending_tasks_are_not_cancelled_witness :
    (Impl.DoOnConnectionLost SampleImpl.collaborators SampleImpl.anonymous 9).state.timer_ =
      ⟨42, [(42, 10000, some (.supplied 7))]⟩ ∧
    (Impl.DoOnConnectionLost SampleImpl.collaborators SampleImpl.anonymous 9).trace =
      [ImplCall.DropNode 9, ImplCall.DropConnection 9, ImplCall.clear_bootstrap_connection_info,
        ImplCall.network_status .kAnonymousSessionEnded] :=
  ⟨(C24_pending_tasks_are_not_cancelled SampleImpl.collaborators SampleImpl.anonymous 9 rfl rfl
      (by decide) rfl rfl rfl).1,
    (C24_pending_tasks_are_not_cancelled SampleImpl.collaborators SampleImpl.anonymous 9 rfl rfl
      (by decide) rfl rfl rfl).2.1⟩

/-- Claim C25 fails on `routing_impl.cc` for two of the five handlers. On a
node that is not running, `DoOnConnectionLost`, `FindClosestNode` and
`DoReBootstrap` return at once: no call, the state unchanged. But
`ReSendFindNodeRequest` does not read `running_` before it sends: on a tick
that was not aborted, with a non-empty routing table and `ignore_size` or a
table below the threshold size, it hands a find request to
`SendToClosestNode`. And `DoOnMessageReceived` adds the source id of a
parsed message to the random-node helper before it reads `running_`. -/
theorem C25_two_handlers_act_when_stopped {RT NRT N T : Type}
    (D : ImplCollaborators RT NRT N T) (impl : Impl RT NRT N T)
    (stopped : impl.running_ = false) :
    (∀ lost_connection_id,
      Impl.DoOnConnectionLost D impl lost_connection_id = ⟨impl, [], some ()⟩) ∧
    (∀ error_code attempts,
      Impl.FindClosestNode D impl error_code attempts = ⟨impl, [], some ()⟩) ∧
    (∀ error_code, Impl.DoReBootstrap D impl error_code = ⟨impl, [], some ()⟩) ∧
    (∀ error_code ignore_size, error_code ≠ .operation_aborted →
      D.size impl.routing_table_ ≠ 0 →
      ignore_size = true ∨
        D.size impl.routing_table_ < D.kThresholdSize impl.routing_table_ →
      ∃ num_nodes_requested,
        (Impl.ReSendFindNodeRequest D impl error_code ignore_size).trace =
          [ImplCall.SendToClosestNode
            (D.FindNodesDefault impl.kNodeId_ impl.kNodeId_ num_nodes_requested)]) ∧
    (∀ message pb_message source_id, D.ParseFromString message = some pb_message →
      pb_message.source_id = some source_id → source_id ≠ 0 →
      impl.kAnonymousNode_ = true ∨ pb_message.client_node.getD false = false →
      (Impl.DoOnMessageReceived D impl message).state.random_node_helper_ =
        D.RandomNodeHelperAdd impl.random_node_helper_ source_id ∧
      (Impl.DoOnMessageReceived D impl message).trace = []) := by
  refine ⟨?_, ?_, ?_, ?_, ?_⟩
  · intro lost_connection_id
    simp only [Impl.DoOnConnectionLost, stopped, Bool.not_false, if_true]
  · intro error_code attempts
    simp only [Impl.FindClosestNode, stopped, Bool.not_false, if_true]
  · intro error_code
    unfold Impl.DoReBootstrap
    split
    · rfl
    · simp only [stopped, Bool.not_false, if_true]
  · intro error_code ignore_size proceeds filled wanted
    have skipped : (D.size impl.routing_table_ == 0) = false := by simp [filled]
    have taken : (ignore_size
        || decide (D.size impl.routing_table_ < D.kThresholdSize impl.routing_table_)) =
        true := by
      rcases wanted with forced | small
      · simp [forced]
      · simp [small]
    refine ⟨if ignore_size
        && decide (D.size impl.routing_table_ > D.kThresholdSize impl.routing_table_) then
        D.parameters.closest_nodes_size else D.parameters.greedy_fraction, ?_⟩
    simp only [Impl.ReSendFindNodeRequest, proceeds, skipped, taken, stopped, if_false,
      if_true, Bool.not_false]
    rfl
  · intro message pb_message source_id parsed sourced nonzero counted
    have condition : (((impl.kAnonymousNode_ || !(pb_message.client_node.getD false))
          && pb_message.source_id.isSome)
        || (!(pb_message.direct.getD false) && !(pb_message.request.getD false))) = true := by
      rcases counted with anonymous | vault
      · simp [anonymous, sourced]
      · simp [vault, sourced]
    have differs : (source_id != 0) = true := by simpa using nonzero
    have shape : Impl.DoOnMessageReceived D impl message =
        ⟨{ impl with
            random_node_helper_ := D.RandomNodeHelperAdd impl.random_node_helper_ source_id },
          [], some .returned⟩ := by
      simp only [Impl.DoOnMessageReceived, parsed, condition, if_true]
      simp only [sourced, differs, if_true, Impl.HandleWhileRunning, stopped, Bool.not_false]
    rw [shape]
    exact ⟨rfl, rfl⟩

/-- Claim C25 on the stopped sample node, which holds two nodes: a tick
after the loss of a close node still sends a find request, and a message
from node 5 still puts 5 into the random-node helper. -/
theorem C25_two_handlers_act_when_stopped_witness :
    SampleImpl.stopped.running_ = false ∧
    (Impl.ReSendFindNodeRequest SampleImpl.collaborators SampleImpl.stopped .success
      true).trace =
      [ImplCall.SendToClosestNode (SampleImpl.collaborators.FindNodesDefault 1 1 16)] ∧
    (Impl.DoOnMessageReceived SampleImpl.collaborators SampleImpl.stopped
      [1, 5, 7]).state.random_node_helper_ = [5] ∧
    SampleImpl.stopped.random_node_helper_ = [] ∧
    Impl.DoOnConnectionLost SampleImpl.collaborators SampleImpl.stopped 2 =
      ⟨SampleImpl.stopped, [], some ()⟩ :=
  ⟨rfl, by decide, by decide, rfl,
    (C25_two_handlers_act_when_stopped SampleImpl.collaborators SampleImpl.stopped rfl).1 2⟩

/-- Claim C26. A running node loses the connection to a member of its
routing table that is within its `Parameters::closest_nodes_size` closest
nodes: `DoOnConnectionLost` drops the member from the routing table, removes
it from the random-node helper and starts a wait of
`Parameters::recovery_time_lag` on the recovery timer whose handler calls
`ReSendFindNodeRequest` with `ignore_size = true`. When that wait ends
without being aborted and the table is not empty, the handler sends one
find request for the node's own id through `SendToClosestNode`. -/
theorem C26_close_group_repair {RT NRT N T : Type} (D : ImplCollaborators RT NRT N T)
    (impl : Impl RT NRT N T) (lost_connection_id : NodeId) (member : LegacyNodeInfo)
    (running : impl.running_ = true)
    (found : D.GetNodeInfo impl.routing_table_ lost_connection_id = some member)
    (close : D.IsThisNodeInRange impl.routing_table_ member.node_id
      D.parameters.closest_nodes_size = true)
    (dropped : (D.DropNode impl.routing_table_ lost_connection_id true).1.node_id ≠ 0) :
    (Impl.DoOnConnectionLost D impl lost_connection_id).trace =
      [ImplCall.DropNode lost_connection_id,
        ImplCall.arm .recovery_timer_ D.parameters.recovery_time_lag
          (.ReSendFindNodeRequest true)] ∧
    (Impl.DoOnConnectionLost D impl lost_connection_id).state.routing_table_ =
      (D.DropNode impl.routing_table_ lost_connection_id true).2 ∧
    (Impl.DoOnConnectionLost D impl lost_connection_id).state.random_node_helper_ =
      D.RandomNodeHelperRemove impl.random_node_helper_
        (D.DropNode impl.routing_table_ lost_connection_id true).1.node_id ∧
    (Impl.DoOnConnectionLost D impl lost_connection_id).state.recovery_timer_ =
      some (D.parameters.recovery_time_lag, .ReSendFindNodeRequest true) ∧
    (∀ error_code, error_code ≠ .operation_aborted →
      D.size (Impl.DoOnConnectionLost D impl lost_connection_id).state.routing_table_ ≠ 0 →
      ∃ num_nodes_requested,
        (Impl.Fire D (Impl.DoOnConnectionLost D impl lost_connection_id).state
          .recovery_timer_ error_code).trace.filter ImplCall.isSend =
          [ImplCall.SendToClosestNode
            (D.FindNodesDefault impl.kNodeId_ impl.kNodeId_ num_nodes_requested)]) := by
  have first : ((D.DropNode impl.routing_table_ lost_connection_id true).1.node_id != 0) =
      true := by simpa using dropped
  have shape : Impl.DoOnConnectionLost D impl lost_connection_id =
      ⟨{ impl with
          routing_table_ := (D.DropNode impl.routing_table_ lost_connection_id true).2
          random_node_helper_ := D.RandomNodeHelperRemove impl.random_node_helper_
            (D.DropNode impl.routing_table_ lost_connection_id true).1.node_id
          recovery_timer_ := some (D.parameters.recovery_time_lag, .ReSendFindNodeRequest true) },
        [ImplCall.DropNode lost_connection_id,
          ImplCall.arm .recovery_timer_ D.parameters.recovery_time_lag
            (.ReSendFindNodeRequest true)],
        some ()⟩ := by
    simp only [Impl.DoOnConnectionLost, running, found, close, first, Bool.not_true, if_true,
      Impl.ResendAfterLoss, Bool.false_eq_true, if_false]
    rfl
  rw [shape]
  refine ⟨rfl, rfl, rfl, rfl, ?_⟩
  intro error_code proceeds filled
  have skipped :
      (D.size (D.DropNode impl.routing_table_ lost_connection_id true).2 == 0) = false := by
    simpa using filled
  refine ⟨if decide (D.size (D.DropNode impl.routing_table_ lost_connection_id true).2 >
      D.kThresholdSize (D.DropNode impl.routing_table_ lost_connection_id true).2) then
      D.parameters.closest_nodes_size else D.parameters.greedy_fraction, ?_⟩
  simp only [Impl.Fire, Impl.PendingWait, Impl.RunWaitHandler, proceeds, ne_eq,
    not_false_eq_true, if_true, Impl.ReSendFindNodeRequest, if_false, skipped, Bool.true_or,
    Bool.true_and, running, Bool.not_true, Bool.false_eq_true]
  rfl

/-- Claim C26 on the joined sample node: the connection to node 2, the
closest in its table, is lost. Node 2 leaves the table, the recovery timer
is armed for 5000, and its tick sends a find request for node 1. -/
theorem C26_close_group_repair_witness :
    (Impl.DoOnConnectionLost SampleImpl.collaborators SampleImpl.joined 2).state.routing_table_ =
      [⟨3, 3, 0⟩] ∧
    (Impl.DoOnConnectionLost SampleImpl.collaborators SampleImpl.joined 2).state.recovery_timer_ =
      some (5000, .ReSendFindNodeRequest true) ∧
    (Impl.Fire SampleImpl.collaborators
      (Impl.DoOnConnectionLost SampleImpl.collaborators SampleImpl.joined 2).state
      .recovery_timer_ .success).trace.filter ImplCall.isSend =
      [ImplCall.SendToClosestNode (SampleImpl.collaborators.FindNodesDefault 1 1 16)] :=
  ⟨(C26_close_group_repair SampleImpl.collaborators SampleImpl.joined 2 ⟨2, 2, 0⟩ rfl rfl rfl
      (by decide)).2.1,
    (C26_close_group_repair SampleImpl.collaborators SampleImpl.joined 2 ⟨2, 2, 0⟩ rfl rfl rfl
      (by decide)).2.2.2.1,
    by decide⟩

/-! ## The claim on the clearing loop -/

namespace Impl

variable {RT NRT N T : Type}

/-- The node id is not changed by the clearing loop. -/
theorem DropClosestNodes_kNodeId (D : ImplCollaborators RT NRT N T) (rounds i : Nat)
    (impl : Impl RT NRT N T) (calls : List ImplCall) :
    (DropClosestNodes D rounds i impl calls).1.kNodeId_ = impl.kNodeId_ := by
  induction rounds generalizing i impl calls with
  | zero => rfl
  | succ rounds ih =>
    unfold DropClosestNodes
    split
    · rw [ih]
    · rfl

/-- The size of the routing table after the clearing loop, started with the
counter at `i`, when every round drops one node: the loop stops as soon as
the counter has reached the size, half way between the two. -/
theorem DropClosestNodes_size (D : ImplCollaborators RT NRT N T) (node_id : NodeId)
    (drops : ∀ table : RT, D.size table ≠ 0 →
      D.size (D.DropNode table (D.GetClosestNode table node_id).node_id true).2 =
        D.size table - 1)
    (rounds i : Nat) (impl : Impl RT NRT N T) (calls : List ImplCall)
    (own : impl.kNodeId_ = node_id) (small : D.size impl.routing_table_ < 2 ^ 16)
    (enough : D.size impl.routing_table_ ≤ i ∨
      (D.size impl.routing_table_ - i + 1) / 2 ≤ rounds) :
    D.size (DropClosestNodes D rounds i impl calls).1.routing_table_ =
      if D.size impl.routing_table_ ≤ i then D.size impl.routing_table_
      else (D.size impl.routing_table_ + i) / 2 := by
  induction rounds generalizing i impl calls with
  | zero =>
    have reached : D.size impl.routing_table_ ≤ i := by omega
    rw [if_pos reached]
    rfl
  | succ rounds ih =>
    unfold DropClosestNodes
    by_cases below : i < D.size impl.routing_table_
    · rw [if_pos below]
      have filled : D.size impl.routing_table_ ≠ 0 := by omega
      have dropped := drops impl.routing_table_ filled
      rw [← own] at dropped
      have bound : (2 : Nat) ^ 16 = 65536 := by norm_num
      have next : (i + 1) % 2 ^ 16 = i + 1 := Nat.mod_eq_of_lt (by omega)
      rw [next]
      have step := ih (i + 1)
        { impl with
          network_ := D.Remove impl.network_
            (D.GetClosestNode impl.routing_table_ impl.kNodeId_).connection_id
          routing_table_ := (D.DropNode impl.routing_table_
            (D.GetClosestNode impl.routing_table_ impl.kNodeId_).node_id true).2 }
        (calls ++ [ImplCall.network_Remove
            (D.GetClosestNode impl.routing_table_ impl.kNodeId_).connection_id,
          ImplCall.DropNode (D.GetClosestNode impl.routing_table_ impl.kNodeId_).node_id])
        own (by rw [dropped]; omega) (by rw [dropped]; omega)
      rw [step, dropped]
      split <;> split <;> omega
    · rw [if_neg below]
      have reached : D.size impl.routing_table_ ≤ i := by omega
      rw [if_pos reached]

end Impl

/-- Claim C30 fails on `routing_impl.cc`. Whenever a round of the clearing
loop drops one node, the loop started on a table of `n` nodes (below
`2 ^ 16`) stops with `n / 2` nodes left, since its counter goes up while the
size goes down. So from two nodes on the table is not empty when `DoJoin`
is called, and with asserts compiled in the `assert` at the start of
`DoBootstrap` fails. -/
theorem C30_clearing_loop_leaves_half {RT NRT N T : Type} (D : ImplCollaborators RT NRT N T)
    (impl : Impl RT NRT N T) (endpoints : List Endpoint)
    (drops : ∀ table : RT, D.size table ≠ 0 →
      D.size (D.DropNode table (D.GetClosestNode table impl.kNodeId_).node_id true).2 =
        D.size table - 1)
    (small : D.size impl.routing_table_ < 2 ^ 16) :
    D.size (Impl.DropClosestNodes D (2 ^ 16) 0 impl []).1.routing_table_ =
      D.size impl.routing_table_ / 2 ∧
    (2 ≤ D.size impl.routing_table_ →
      D.size (Impl.DropClosestNodes D (2 ^ 16) 0 impl []).1.routing_table_ ≠ 0 ∧
      (D.NDEBUG = false →
        (Impl.BootstrapFromTheseEndpoints D impl endpoints).value = none)) := by
  have bound : (2 : Nat) ^ 16 = 65536 := by norm_num
  have left := Impl.DropClosestNodes_size D impl.kNodeId_ drops (2 ^ 16) 0 impl [] rfl small
    (Or.inr (by omega))
  have half : D.size (Impl.DropClosestNodes D (2 ^ 16) 0 impl []).1.routing_table_ =
      D.size impl.routing_table_ / 2 := by
    rw [left]
    split <;> omega
  refine ⟨half, fun several => ?_⟩
  have remains : D.size (Impl.DropClosestNodes D (2 ^ 16) 0 impl []).1.routing_table_ ≠ 0 := by
    rw [half]
    omega
  refine ⟨remains, fun checked => ?_⟩
  have filled : D.size impl.routing_table_ > 0 := by omega
  have fails : (!D.NDEBUG &&
      !(D.size (Impl.DropClosestNodes D (2 ^ 16) 0 impl []).1.routing_table_ == 0)) = true := by
    have nonzero :
        (D.size (Impl.DropClosestNodes D (2 ^ 16) 0 impl []).1.routing_table_ == 0) = false :=
      beq_eq_false_iff_ne.mpr remains
    rw [checked, nonzero]
    rfl
  simp only [Impl.BootstrapFromTheseEndpoints, filled, if_true, Impl.DoJoin, Impl.DoBootstrap,
    fails]

/-- Claim C30 on the joined sample node, whose table holds the nodes 2 and
3: the loop drops node 2 and stops, node 3 stays in the table, and
`BootstrapFromTheseEndpoints` ends in the failed `assert` of `DoBootstrap`. -/
theorem C30_clearing_loop_leaves_half_witness :
    SampleImpl.collaborators.size SampleImpl.joined.routing_table_ = 2 ∧
    SampleImpl.collaborators.size
      (Impl.DropClosestNodes SampleImpl.collaborators (2 ^ 16) 0 SampleImpl.joined
        []).1.routing_table_ = 1 ∧
    (Impl.BootstrapFromTheseEndpoints SampleImpl.collaborators SampleImpl.joined
      [⟨7, 5483⟩]).value = none :=
  ⟨rfl,
    (C30_clearing_loop_leaves_half SampleImpl.collaborators SampleImpl.joined [⟨7, 5483⟩]
      (fun table filled => by
        cases table with
        | nil => exact absurd rfl filled
        | cons head tail =>
          simp [SampleImpl.collaborators, List.eraseP_cons])
      (by decide)).1,
    ((C30_clearing_loop_leaves_half SampleImpl.collaborators SampleImpl.joined [⟨7, 5483⟩]
      (fun table filled => by
        cases table with
        | nil => exact absurd rfl filled
        | cons head tail =>
          simp [SampleImpl.collaborators, List.eraseP_cons])
      (by decide)).2 (by decide)).2 rfl⟩

/-! ## Lemmas on closeness and on the sort -/

/-- `CloserToTarget` as a comparison of the two distances. -/
theorem CloserToTarget_iff (lhs rhs target : Address) :
    CloserToTarget lhs rhs target = true ↔ lhs ^^^ target < rhs ^^^ target := by
  simp [CloserToTarget]

/-- `SortedInsert` commutes with a map that respects the comparator. -/
theorem SortedInsert_map {α β : Type} (project : α → β) (closer : β → β → Bool) (entry : α)
    (range : List α) :
    (SortedInsert (fun lhs rhs => closer (project lhs) (project rhs)) entry range).map project =
      SortedInsert closer (project entry) (range.map project) := by
  induction range with
  | nil => rfl
  | cons head tail ih =>
    simp only [SortedInsert, List.map_cons]
    split
    · rfl
    · rw [List.map_cons, ih]

/-- `StdSort` commutes with a map that respects the comparator. -/
theorem StdSort_map {α β : Type} (project : α → β) (closer : β → β → Bool) (range : List α) :
    (StdSort (fun lhs rhs => closer (project lhs) (project rhs)) range).map project =
      StdSort closer (range.map project) := by
  induction range with
  | nil => rfl
  | cons head tail ih =>
    have step := SortedInsert_map project closer head
      (StdSort (fun lhs rhs => closer (project lhs) (project rhs)) tail)
    rw [ih] at step
    exact step

/-- `SortedInsert` adds the entry and keeps every member. -/
theorem SortedInsert_perm {α : Type} (closer : α → α → Bool) (entry : α) (range : List α) :
    (SortedInsert closer entry range).Perm (entry :: range) := by
  induction range with
  | nil => exact List.Perm.refl _
  | cons head tail ih =>
    simp only [SortedInsert]
    split
    · exact List.Perm.refl _
    · exact (List.Perm.cons head ih).trans (List.Perm.swap entry head tail)

/-- `StdSort` permutes its range. -/
theorem StdSort_perm {α : Type} (closer : α → α → Bool) (range : List α) :
    (StdSort closer range).Perm range := by
  induction range with
  | nil => exact List.Perm.refl _
  | cons head tail ih =>
    exact (SortedInsert_perm closer head (StdSort closer tail)).trans (List.Perm.cons head ih)

/-- The first `count` members after an insertion depend on the first `count`
members only. -/
theorem take_SortedInsert_take {α : Type} (closer : α → α → Bool) (entry : α) (count : Nat)
    (range : List α) :
    (SortedInsert closer entry (range.take count)).take count =
      (SortedInsert closer entry range).take count := by
  induction range generalizing count with
  | nil => simp
  | cons head tail ih =>
    cases count with
    | zero => simp
    | succ count =>
      simp only [List.take_succ_cons, SortedInsert]
      split
      · simp only [List.take_succ_cons]
        congr 1
        cases count with
        | zero => simp
        | succ count =>
          simp only [List.take_succ_cons, List.take_take]
          congr 1
          rw [Nat.min_eq_left (Nat.le_succ count)]
      · simp only [List.take_succ_cons]
        rw [ih]

/-- Insertion into a list ascending in distance to `target` keeps it
ascending. -/
theorem SortedInsert_ascending (target entry : Address) (range : List Address)
    (ascending : range.Pairwise fun lhs rhs => lhs ^^^ target ≤ rhs ^^^ target) :
    (SortedInsert (fun lhs rhs => CloserToTarget lhs rhs target) entry range).Pairwise
      fun lhs rhs => lhs ^^^ target ≤ rhs ^^^ target := by
  induction range with
  | nil => exact List.pairwise_singleton _ _
  | cons head tail ih =>
    have parts := List.pairwise_cons.mp ascending
    simp only [SortedInsert]
    split
    · rename_i closer
      have before := (CloserToTarget_iff entry head target).mp closer
      refine List.pairwise_cons.mpr ⟨?_, ascending⟩
      intro other inside
      rcases List.mem_cons.mp inside with same | later
      · rw [same]
        exact Nat.le_of_lt before
      · exact Nat.le_trans (Nat.le_of_lt before) (parts.1 other later)
    · rename_i not_closer
      have after : head ^^^ target ≤ entry ^^^ target := by
        have not_before : ¬entry ^^^ target < head ^^^ target := fun before =>
          not_closer ((CloserToTarget_iff entry head target).mpr before)
        exact Nat.le_of_not_lt not_before
      refine List.pairwise_cons.mpr ⟨?_, ih parts.2⟩
      intro other inside
      have placed := (SortedInsert_perm (fun lhs rhs => CloserToTarget lhs rhs target) entry
        tail).subset inside
      rcases List.mem_cons.mp placed with same | later
      · rw [same]
        exact after
      · exact parts.1 other later

/-- `StdSort` by closeness to `target` yields a list ascending in distance. -/
theorem StdSort_ascending (target : Address) (range : List Address) :
    (StdSort (fun lhs rhs => CloserToTarget lhs rhs target) range).Pairwise
      fun lhs rhs => lhs ^^^ target ≤ rhs ^^^ target := by
  induction range with
  | nil => exact List.Pairwise.nil
  | cons head tail ih => exact SortedInsert_ascending target head _ ih

/-- Two lists ascending in distance to `target` with the same members are
equal: distinct addresses have distinct distances. -/
theorem ascending_unique (target : Address) (first second : List Address)
    (same : first.Perm second)
    (ascending_first : first.Pairwise fun lhs rhs => lhs ^^^ target ≤ rhs ^^^ target)
    (ascending_second : second.Pairwise fun lhs rhs => lhs ^^^ target ≤ rhs ^^^ target) :
    first = second := by
  haveI : IsAntisymm Address (fun lhs rhs => lhs ^^^ target ≤ rhs ^^^ target) :=
    ⟨fun lhs rhs below above => Nat.xor_left_inj.mp (Nat.le_antisymm below above)⟩
  exact List.eq_of_perm_of_sorted same ascending_first ascending_second

/-- `StdSort` by closeness depends on the members of its range only. -/
theorem StdSort_congr (target : Address) (first second : List Address)
    (same : first.Perm second) :
    StdSort (fun lhs rhs => CloserToTarget lhs rhs target) first =
      StdSort (fun lhs rhs => CloserToTarget lhs rhs target) second :=
  ascending_unique target _ _
    (((StdSort_perm _ first).trans same).trans (StdSort_perm _ second).symm)
    (StdSort_ascending target first) (StdSort_ascending target second)

/-- `StdSort` by closeness leaves an ascending list as it is. -/
theorem StdSort_of_ascending (target : Address) (range : List Address)
    (ascending : range.Pairwise fun lhs rhs => lhs ^^^ target ≤ rhs ^^^ target) :
    StdSort (fun lhs rhs => CloserToTarget lhs rhs target) range = range :=
  ascending_unique target _ _ (StdSort_perm _ range) (StdSort_ascending target range) ascending

/-- The group of a node: the closest `count` of the closest `count` of its
table and its own address are the closest `count` of the table and its own
address. -/
theorem closest_of_closest (target own : Address) (count : Nat) (table : List Address) :
    (StdSort (fun lhs rhs => CloserToTarget lhs rhs target)
      ((StdSort (fun lhs rhs => CloserToTarget lhs rhs target) table).take count
        ++ [own])).take count =
      (StdSort (fun lhs rhs => CloserToTarget lhs rhs target) (own :: table)).take count := by
  have front := List.Pairwise.sublist
    (List.take_sublist count (StdSort (fun lhs rhs => CloserToTarget lhs rhs target) table))
    (StdSort_ascending target table)
  rw [StdSort_congr target _ _ (List.perm_append_singleton own _)]
  show (SortedInsert _ own (StdSort _ _)).take count = (SortedInsert _ own (StdSort _ _)).take count
  rw [StdSort_of_ascending target _ front]
  exact take_SortedInsert_take _ own count _

/-! ## The claims on closeness and on the group -/

/-- Claim C28. In a network of at least `group_size + 1` addresses, take a
node whose routing table holds every address of the network but its own
(in any order). For every target, `RoutingTableInfo::GetGroup` returns the
first `group_size` addresses of the network sorted by closeness to the
target. That sorted list holds exactly the addresses of the network, in
ascending XOR distance to the target, strictly ascending when the addresses
are pairwise distinct. So every other node with a complete table computes
the same group. -/
theorem C28_group_agreement (group_size : Nat) (network : List Address)
    (info : RoutingTableInfo) (target : Address)
    (large : group_size + 1 ≤ network.length) (member : info.kAddress ∈ network)
    (complete : (info.nodes_.map fun node => node.id).Perm (network.erase info.kAddress)) :
    (info.GetGroup group_size target).map Prod.fst =
      some ((StdSort (fun lhs rhs => CloserToTarget lhs rhs target) network).take group_size) ∧
    (StdSort (fun lhs rhs => CloserToTarget lhs rhs target) network).Perm network ∧
    (StdSort (fun lhs rhs => CloserToTarget lhs rhs target) network).Pairwise
      (fun lhs rhs => lhs ^^^ target ≤ rhs ^^^ target) ∧
    (network.Nodup →
      (StdSort (fun lhs rhs => CloserToTarget lhs rhs target) network).Pairwise
        (fun lhs rhs => CloserToTarget lhs rhs target = true)) ∧
    (∀ other : RoutingTableInfo, other.kAddress ∈ network →
      (other.nodes_.map fun node => node.id).Perm (network.erase other.kAddress) →
      (other.GetGroup group_size target).map Prod.fst =
        (info.GetGroup group_size target).map Prod.fst) := by
  have group : ∀ node : RoutingTableInfo, node.kAddress ∈ network →
      (node.nodes_.map fun entry => entry.id).Perm (network.erase node.kAddress) →
      (node.GetGroup group_size target).map Prod.fst =
        some ((StdSort (fun lhs rhs => CloserToTarget lhs rhs target) network).take
          group_size) := by
    intro node inside holds_all
    have size : node.nodes_.length = network.length - 1 := by
      have mapped := holds_all.length_eq
      rw [List.length_map, List.length_erase_of_mem inside] at mapped
      exact mapped
    have enough : ¬node.nodes_.length < group_size := by omega
    have whole : (node.kAddress :: node.nodes_.map fun entry => entry.id).Perm network :=
      (List.Perm.cons node.kAddress holds_all).trans (List.perm_cons_erase inside).symm
    have sorted_ids := StdSort_map (fun entry : NodeInfo => entry.id)
      (fun lhs rhs => CloserToTarget lhs rhs target) node.nodes_
    simp only [RoutingTableInfo.GetGroup, enough, if_false, Option.map_some', StdPartialSort,
      List.take_append_drop, List.map_take]
    rw [sorted_ids, closest_of_closest target node.kAddress group_size,
      StdSort_congr target _ _ whole]
  refine ⟨group info member complete, StdSort_perm _ network, StdSort_ascending target network,
    ?_, ?_⟩
  · intro distinct
    have sorted_distinct : (StdSort (fun lhs rhs => CloserToTarget lhs rhs target)
        network).Nodup := (StdSort_perm _ network).nodup_iff.mpr distinct
    have both := (StdSort_ascending target network).and sorted_distinct
    refine both.imp ?_
    intro lhs rhs facts
    have differs : lhs ^^^ target ≠ rhs ^^^ target := fun same =>
      facts.2 (Nat.xor_left_inj.mp same)
    exact (CloserToTarget_iff lhs rhs target).mpr (Nat.lt_of_le_of_ne facts.1 differs)
  · intro other inside holds_all
    rw [group other inside holds_all, group info member complete]

/-- Claim C28 on the network of the addresses 1 to 6 with groups of four:
for target 5 the nodes 3 and 6, each holding the five others, both compute
the group 5, 4, 6, 1. -/
theorem C28_group_agreement_witness :
    ((RoutingTableInfo.complete [1, 2, 3, 4, 5, 6] 3).GetGroup 4 5).map Prod.fst =
      some [5, 4, 6, 1] ∧
    ((RoutingTableInfo.complete [1, 2, 3, 4, 5, 6] 6).GetGroup 4 5).map Prod.fst =
      ((RoutingTableInfo.complete [1, 2, 3, 4, 5, 6] 3).GetGroup 4 5).map Prod.fst :=
  ⟨(C28_group_agreement 4 [1, 2, 3, 4, 5, 6] (RoutingTableInfo.complete [1, 2, 3, 4, 5, 6] 3) 5
      (by decide) (by decide) (by decide)).1,
    (C28_group_agreement 4 [1, 2, 3, 4, 5, 6] (RoutingTableInfo.complete [1, 2, 3, 4, 5, 6] 3) 5
      (by decide) (by decide) (by decide)).2.2.2.2
      (RoutingTableInfo.complete [1, 2, 3, 4, 5, 6] 6) (by decide) (by decide)⟩

/-- Claim C29. For all addresses `a`, `b` and every target exactly one of
`CloserToTarget(a, b, target)`, `CloserToTarget(b, a, target)` and `a = b`
holds, and `CloserToTarget` is transitive: closeness to a target is a strict
total order. The distances compared stay within the width of the addresses. -/
theorem C29_closer_is_a_strict_total_order (a b target : Address) :
    ((CloserToTarget a b target = true ∧ CloserToTarget b a target = false ∧ a ≠ b) ∨
      (CloserToTarget a b target = false ∧ CloserToTarget b a target = true ∧ a ≠ b) ∨
      (CloserToTarget a b target = false ∧ CloserToTarget b a target = false ∧ a = b)) ∧
    (∀ c : Address, CloserToTarget a b target = true → CloserToTarget b c target = true →
      CloserToTarget a c target = true) ∧
    (∀ width : Nat, a < 2 ^ width → target < 2 ^ width → a ^^^ target < 2 ^ width) := by
  have not_closer : ∀ lhs rhs : Address, ¬lhs ^^^ target < rhs ^^^ target →
      CloserToTarget lhs rhs target = false := by
    intro lhs rhs not_below
    cases closer : CloserToTarget lhs rhs target with
    | false => rfl
    | true => exact absurd ((CloserToTarget_iff lhs rhs target).mp closer) not_below
  refine ⟨?_, ?_, fun width small_a small_target => Nat.xor_lt_two_pow small_a small_target⟩
  · rcases Nat.lt_trichotomy (a ^^^ target) (b ^^^ target) with below | same | above
    · refine Or.inl ⟨(CloserToTarget_iff a b target).mpr below,
        not_closer b a (Nat.lt_asymm below), ?_⟩
      intro equal
      rw [equal] at below
      exact Nat.lt_irrefl _ below
    · refine Or.inr (Or.inr ⟨not_closer a b ?_, not_closer b a ?_, Nat.xor_left_inj.mp same⟩)
      · rw [same]
        exact Nat.lt_irrefl _
      · rw [same]
        exact Nat.lt_irrefl _
    · refine Or.inr (Or.inl ⟨not_closer a b (Nat.lt_asymm above),
        (CloserToTarget_iff b a target).mpr above, ?_⟩)
      intro equal
      rw [equal] at above
      exact Nat.lt_irrefl _ above
  · intro c first second
    exact (CloserToTarget_iff a c target).mpr
      (Nat.lt_trans ((CloserToTarget_iff a b target).mp first)
        ((CloserToTarget_iff b c target).mp second))

/-- Claim C29 on the addresses 5 and 6: 5 is closer to the target 4, and 6
is closer to the target 7. -/
theorem C29_closer_is_a_strict_total_order_witness :
    (CloserToTarget 5 6 4 = true ∧ CloserToTarget 6 5 4 = false) ∧
    (CloserToTarget 5 6 7 = false ∧ CloserToTarget 6 5 7 = true) ∧
    ((CloserToTarget 5 6 4 = true ∧ CloserToTarget 6 5 4 = false ∧ 5 ≠ 6) ∨
      (CloserToTarget 5 6 4 = false ∧ CloserToTarget 6 5 4 = true ∧ 5 ≠ 6) ∨
      (CloserToTarget 5 6 4 = false ∧ CloserToTarget 6 5 4 = false ∧ 5 = 6)) :=
  ⟨by decide, by decide, (C29_closer_is_a_strict_total_order 5 6 4).1⟩

/-! ## Lemmas on the codec -/

namespace Wire

/-- Reading back a fixed-width integer. -/
theorem getUInt_putUInt (width value : Nat) (rest : InputVectorStream)
    (fits : value < 256 ^ width) :
    getUInt width (putUInt width value ++ rest) = some (value, rest) := by
  induction width generalizing value with
  | zero =>
    have zero : value = 0 := by simpa using fits
    rw [zero]
    rfl
  | succ width ih =>
    have high : value / 256 < 256 ^ width := by
      apply Nat.div_lt_of_lt_mul
      rw [← Nat.pow_succ']
      exact fits
    have low : value % 256 < 256 := Nat.mod_lt _ (by norm_num)
    have step : getUInt (width + 1) (value % 256 :: (putUInt width (value / 256) ++ rest)) =
        some (value % 256 + 256 * (value / 256), rest) := by
      simp only [getUInt, low, if_true, ih (value / 256) high]
    rw [Nat.mod_add_div] at step
    exact step

/-- Reading back an optional address. -/
theorem getOption_putAddress (width : Nat) (value : Option Address) (rest : InputVectorStream)
    (fits : fitsOption (fun address => decide (address < 256 ^ width)) value = true) :
    getOption (getAddress width) (putOption (putAddress width) value ++ rest) =
      some (value, rest) := by
  cases value with
  | none => rfl
  | some address =>
    have small : address < 256 ^ width := by simpa [fitsOption] using fits
    simp only [putOption, List.cons_append, getOption, getAddress, putAddress,
      getUInt_putUInt width address rest small]
    rfl

/-- Reading back a byte string. -/
theorem getBytes_putBytes (data : SerialisedData) (rest : InputVectorStream)
    (fits : data.length < 256 ^ 4) :
    getBytes (putBytes data ++ rest) = some (data, rest) := by
  simp only [putBytes, List.append_assoc, getBytes, getUInt_putUInt 4 data.length _ fits,
    List.length_append, Nat.le_add_right, if_true, List.take_left', List.drop_left']

/-- Reading back an optional signature. -/
theorem getOption_putBytes (value : Option (List Nat)) (rest : InputVectorStream)
    (fits : fitsOption (fun signature : List Nat => decide (signature.length < 256 ^ 4)) value =
      true) :
    getOption getBytes (putOption putBytes value ++ rest) = some (value, rest) := by
  cases value with
  | none => rfl
  | some signature =>
    have small : signature.length < 256 ^ 4 := by simpa [fitsOption] using fits
    simp only [putOption, List.cons_append, getOption, getBytes_putBytes signature rest small]
    rfl

/-- Reading back the group and reply-to members of a source. -/
theorem getGroupReply_put (width : Nat) (group_reply : Option Address × Option Address)
    (rest : InputVectorStream)
    (fits : (fitsOption (fun group => decide (group < 256 ^ width)) group_reply.1
      && fitsOption (fun reply => decide (reply < 256 ^ width)) group_reply.2) = true) :
    getGroupReply width
        ((putOption (putAddress width) group_reply.1
          ++ putOption (putAddress width) group_reply.2) ++ rest) =
      some (group_reply, rest) := by
  have parts := Bool.and_eq_true_iff.mp fits
  simp only [List.append_assoc, getGroupReply,
    getOption_putAddress width group_reply.1 _ parts.1,
    getOption_putAddress width group_reply.2 rest parts.2]

/-- Reading back the optional group and reply-to members of a source. -/
theorem getOption_putGroupReply (width : Nat)
    (value : Option (Option Address × Option Address)) (rest : InputVectorStream)
    (fits : fitsOption
      (fun group_reply : Option Address × Option Address =>
        fitsOption (fun group => decide (group < 256 ^ width)) group_reply.1
          && fitsOption (fun reply => decide (reply < 256 ^ width)) group_reply.2)
      value = true) :
    getOption (getGroupReply width)
        (putOption
          (fun group_reply : Option Address × Option Address =>
            putOption (putAddress width) group_reply.1
              ++ putOption (putAddress width) group_reply.2)
          value ++ rest) =
      some (value, rest) := by
  cases value with
  | none => rfl
  | some group_reply =>
    have inner : (fitsOption (fun group => decide (group < 256 ^ width)) group_reply.1
        && fitsOption (fun reply => decide (reply < 256 ^ width)) group_reply.2) = true := fits
    show getOption (getGroupReply width)
        (1 :: ((putOption (putAddress width) group_reply.1
          ++ putOption (putAddress width) group_reply.2) ++ rest)) = _
    simp only [getOption, getGroupReply_put width group_reply rest inner]
    rfl

/-- Reading back a header. -/
theorem getHeader_putHeader (width : Nat) (header : MessageHeader) (rest : InputVectorStream)
    (fits : fitsHeader width header = true) :
    getHeader width (putHeader width header ++ rest) = some (header, rest) := by
  simp only [fitsHeader, Bool.and_eq_true, decide_eq_true_eq] at fits
  obtain ⟨⟨⟨⟨⟨destination, reply⟩, source⟩, group_reply⟩, message_id⟩, signature⟩ := fits
  simp only [putHeader, List.append_assoc, getHeader, getAddress, putAddress,
    getUInt_putUInt width header.destination.1 _ destination,
    getUInt_putUInt width header.source.1 _ source,
    getUInt_putUInt 8 header.message_id _ message_id,
    getOption_putBytes header.signature rest signature]
  have second := getOption_putAddress width header.destination.2
    (putUInt width header.source.1 ++
      (putOption
          (fun group_reply : Option Address × Option Address =>
            putOption (putAddress width) group_reply.1
              ++ putOption (putAddress width) group_reply.2)
          header.source.2 ++
        (putUInt 8 header.message_id ++ (putOption putBytes header.signature ++ rest)))) reply
  have fourth := getOption_putGroupReply width header.source.2
    (putUInt 8 header.message_id ++ (putOption putBytes header.signature ++ rest)) group_reply
  simp only [getAddress, putAddress] at second fourth
  simp only [second, getUInt_putUInt width header.source.1 _ source, fourth,
    getUInt_putUInt 8 header.message_id _ message_id,
    getOption_putBytes header.signature rest signature]

/-- Reading back a header and a tag. -/
theorem getHeaderTag_put (width : Nat) (header : MessageHeader) (tag : MessageTypeTag)
    (rest : InputVectorStream) (fits : fitsHeader width header = true)
    (named : fitsTag tag = true) :
    getHeaderTag width (putHeader width header ++ [putTag tag] ++ rest) =
      some ((header, tag), rest) := by
  have byte : putTag tag < 256 ∧ getTag (putTag tag) = tag := by
    cases tag with
    | Unknown value =>
      simp only [fitsTag, Bool.and_eq_true, Bool.or_eq_true, decide_eq_true_eq] at named
      refine ⟨named.1, ?_⟩
      simp only [putTag, getTag]
      rcases named.2 with zero | large
      · rw [zero]
        rfl
      · have h1 : value ≠ 1 := by omega
        have h2 : value ≠ 2 := by omega
        have h3 : value ≠ 3 := by omega
        have h4 : value ≠ 4 := by omega
        have h5 : value ≠ 5 := by omega
        have h6 : value ≠ 6 := by omega
        have h7 : value ≠ 7 := by omega
        have h8 : value ≠ 8 := by omega
        have h9 : value ≠ 9 := by omega
        simp only [h1, h2, h3, h4, h5, h6, h7, h8, h9, if_false]
    | _ => exact ⟨by decide, rfl⟩
  simp only [List.append_assoc, List.singleton_append, getHeaderTag,
    getHeader_putHeader width header _ fits, byte.1, if_true, byte.2]

/-- Reading back an endpoint. -/
theorem getEndpoint_putEndpoint (endpoint : Endpoint) (rest : InputVectorStream)
    (fits : fitsEndpoint endpoint = true) :
    getEndpoint (putEndpoint endpoint ++ rest) = some (endpoint, rest) := by
  simp only [fitsEndpoint, Bool.and_eq_true, decide_eq_true_eq] at fits
  simp only [putEndpoint, List.append_assoc, getEndpoint,
    getUInt_putUInt 4 endpoint.address _ fits.1, getUInt_putUInt 2 endpoint.port rest fits.2]

/-- Reading back an endpoint pair. -/
theorem getEndpointPair_putEndpointPair (pair : EndpointPair) (rest : InputVectorStream)
    (fits : fitsEndpointPair pair = true) :
    getEndpointPair (putEndpointPair pair ++ rest) = some (pair, rest) := by
  simp only [fitsEndpointPair, Bool.and_eq_true] at fits
  simp only [putEndpointPair, List.append_assoc, getEndpointPair,
    getEndpoint_putEndpoint pair.local_endpoint _ fits.1,
    getEndpoint_putEndpoint pair.external_endpoint rest fits.2]

/-- Reading back a peer entry. -/
theorem getNodeInfo_putNodeInfo (width : Nat) (info : NodeInfo) (rest : InputVectorStream)
    (fits : fitsNodeInfo width info = true) :
    getNodeInfo width (putNodeInfo width info ++ rest) = some (info, rest) := by
  simp only [fitsNodeInfo, Bool.and_eq_true, decide_eq_true_eq] at fits
  simp only [putNodeInfo, putFob, List.append_assoc, getNodeInfo, getFob, getAddress,
    putAddress, getUInt_putUInt width info.id _ fits.1.1,
    getUInt_putUInt width info.dht_fob.name _ fits.1.2,
    getUInt_putUInt 4 info.dht_fob.public_key rest fits.2]

/-- Reading back a list of peer entries. -/
theorem getNodeInfos_put (width : Nat) (infos : List NodeInfo) (rest : InputVectorStream)
    (fits : infos.all (fitsNodeInfo width) = true) :
    getNodeInfos width infos.length ((infos.map (putNodeInfo width)).flatten ++ rest) =
      some (infos, rest) := by
  induction infos with
  | nil => rfl
  | cons head tail ih =>
    simp only [List.all_cons, Bool.and_eq_true] at fits
    simp only [List.map_cons, List.flatten_cons, List.append_assoc, List.length_cons,
      getNodeInfos, getNodeInfo_putNodeInfo width head _ fits.1, ih fits.2]

/-- Reading back a `FindGroupResponse`. -/
theorem getFindGroupResponse_put (width : Nat) (message : FindGroupResponse)
    (rest : InputVectorStream) (fits : fitsFindGroupResponse width message = true) :
    getFindGroupResponse width (putBody width (.FindGroupResponse message) ++ rest) =
      some (message, rest) := by
  simp only [fitsFindGroupResponse, Bool.and_eq_true, decide_eq_true_eq] at fits
  obtain ⟨⟨⟨⟨⟨requester_endpoints, receiver_endpoints⟩, requester_id⟩, receiver_id⟩, count⟩,
    entries⟩ := fits
  simp only [putBody, List.append_assoc, getFindGroupResponse, getAddress, putAddress,
    getEndpointPair_putEndpointPair message.requester_endpoints _ requester_endpoints,
    getEndpointPair_putEndpointPair message.receiver_endpoints _ receiver_endpoints,
    getUInt_putUInt width message.requester_id _ requester_id,
    getUInt_putUInt width message.receiver_id _ receiver_id,
    getUInt_putUInt 4 message.public_fobs.length _ count,
    getNodeInfos_put width message.public_fobs rest entries]

end Wire

/-! ## The claim on the codec -/

/-- Claim C27. For every header, tag and `FindGroupResponse` that fit the
wire format (addresses of `width` bytes, integers within their fixed width,
a tag that is one of the nine or names none), parsing the bytes of
`Serialise(header, tag, body)` first yields that header and that tag and
leaves the bytes of the body, and parsing those yields the body, to the end
of the stream: its requester endpoints, receiver endpoints, requester id
and receiver id are those serialised. -/
theorem C27_find_group_response_round_trip (width : Nat) (header : MessageHeader)
    (tag : MessageTypeTag) (message : FindGroupResponse)
    (fits_header : Wire.fitsHeader width header = true) (fits_tag : Wire.fitsTag tag = true)
    (fits_message : Wire.fitsFindGroupResponse width message = true) :
    Wire.getHeaderTag width (Wire.putFrame width header tag (.FindGroupResponse message)) =
      some ((header, tag), Wire.putBody width (.FindGroupResponse message)) ∧
    Wire.getFindGroupResponse width (Wire.putBody width (.FindGroupResponse message)) =
      some (message, []) ∧
    (Wire.getFindGroupResponse width (Wire.putBody width (.FindGroupResponse message))).map
        (fun parsed => (parsed.1.requester_endpoints, parsed.1.receiver_endpoints,
          parsed.1.requester_id, parsed.1.receiver_id)) =
      some (message.requester_endpoints, message.receiver_endpoints, message.requester_id,
        message.receiver_id) := by
  have body := Wire.getFindGroupResponse_put width message [] fits_message
  rw [List.append_nil] at body
  refine ⟨Wire.getHeaderTag_put width header tag _ fits_header fits_tag, body, ?_⟩
  rw [body]
  rfl

/-- Claim C27 on addresses of one byte: a header from node 2 to node 5 with
message id 7 and a `FindGroupResponse` between the nodes 9 and 1 that lists
one peer are read back from their 50 bytes as they were written. -/
theorem C27_find_group_response_round_trip_witness :
    (Wire.putFrame 1 ⟨(5, none), (2, none), 7, none⟩ .FindGroupResponse
      (.FindGroupResponse ⟨⟨⟨1, 2⟩, ⟨3, 4⟩⟩, ⟨⟨5, 6⟩, ⟨7, 8⟩⟩, 9, 1, [⟨3, ⟨3, 1003⟩⟩]⟩)).length =
      50 ∧
    Wire.getHeaderTag 1
      (Wire.putFrame 1 ⟨(5, none), (2, none), 7, none⟩ .FindGroupResponse
        (.FindGroupResponse ⟨⟨⟨1, 2⟩, ⟨3, 4⟩⟩, ⟨⟨5, 6⟩, ⟨7, 8⟩⟩, 9, 1, [⟨3, ⟨3, 1003⟩⟩]⟩)) =
      some ((⟨(5, none), (2, none), 7, none⟩, .FindGroupResponse),
        Wire.putBody 1
          (.FindGroupResponse ⟨⟨⟨1, 2⟩, ⟨3, 4⟩⟩, ⟨⟨5, 6⟩, ⟨7, 8⟩⟩, 9, 1, [⟨3, ⟨3, 1003⟩⟩]⟩)) ∧
    Wire.getFindGroupResponse 1
      (Wire.putBody 1
        (.FindGroupResponse ⟨⟨⟨1, 2⟩, ⟨3, 4⟩⟩, ⟨⟨5, 6⟩, ⟨7, 8⟩⟩, 9, 1, [⟨3, ⟨3, 1003⟩⟩]⟩)) =
      some (⟨⟨⟨1, 2⟩, ⟨3, 4⟩⟩, ⟨⟨5, 6⟩, ⟨7, 8⟩⟩, 9, 1, [⟨3, ⟨3, 1003⟩⟩]⟩, []) :=
  ⟨by decide,
    (C27_find_group_response_round_trip 1 ⟨(5, none), (2, none), 7, none⟩ .FindGroupResponse
      ⟨⟨⟨1, 2⟩, ⟨3, 4⟩⟩, ⟨⟨5, 6⟩, ⟨7, 8⟩⟩, 9, 1, [⟨3, ⟨3, 1003⟩⟩]⟩
      (by decide) (by decide) (by decide)).1,
    (C27_find_group_response_round_trip 1 ⟨(5, none), (2, none), 7, none⟩ .FindGroupResponse
      ⟨⟨⟨1, 2⟩, ⟨3, 4⟩⟩, ⟨⟨5, 6⟩, ⟨7, 8⟩⟩, 9, 1, [⟨3, ⟨3, 1003⟩⟩]⟩
      (by decide) (by decide) (by decide)).2.1⟩

/-! ## Lemmas on the pending-task registry -/

namespace PendingTasks

variable {Φ : Type}

end PendingTasks

/-! ## The claim on the number of responses -/

end Routing
